import Mathlib

/-!
# Bounding-volume fitting (`src/BVH/BV_fitter.cpp`)

A shallow embedding of the fitting routines of `BV_fitter.cpp`.

* `FCL_REAL` is a type `K` with the arithmetic operations, the comparison and
  the literals of the source.  Statements about exact arithmetic take `K` to
  be a linearly ordered field, with the square root an explicit argument
  `sqrt : K → K` assumed exact (`IsSqrt sqrt`, as on the real numbers);
  statements about `double` arithmetic take `K` to be `F64`, IEEE 754 binary64.
  A statement of exact arithmetic whose values `double` computes up to rounding
  only on part of its range carries that range as a hypothesis (`SafePair`,
  `SafeTriangle`, `SeparatedLongestEdge`).
* `Vector3d` is `Vec3 K`, `Matrix3d` is `Mat3 K` (three rows).
* A `Vector3d*` argument is a map `Nat → Vec3 K` (base pointer, indexed);
  `ps + 3` is `Ptr.offset ps 3`.  Nullable pointers are `Option`s.
* Output reference parameters (`OBB& bv`, ...) are passed in and returned.
-/

set_option linter.unusedSectionVars false

namespace fcl

/-! ## Vectors and matrices -/

/-- Three-dimensional vector (`Vector3d`). -/
@[ext]
structure Vec3 (K : Type) where
  x : K
  y : K
  z : K
deriving DecidableEq

/-- Three by three matrix (`Matrix3d`), stored by rows. -/
@[ext]
structure Mat3 (K : Type) where
  r0 : Vec3 K
  r1 : Vec3 K
  r2 : Vec3 K
deriving DecidableEq

section Algebra

variable {K : Type} [Zero K] [One K] [Add K] [Sub K] [Neg K] [Mul K] [Div K] [LT K] [LE K]
  [DecidableRel (fun a b : K => a < b)] [OfScientific K] [NatCast K]

namespace Vec3

instance : Zero (Vec3 K) := ⟨⟨0, 0, 0⟩⟩
instance : Add (Vec3 K) := ⟨fun a b => ⟨a.x + b.x, a.y + b.y, a.z + b.z⟩⟩
instance : Sub (Vec3 K) := ⟨fun a b => ⟨a.x - b.x, a.y - b.y, a.z - b.z⟩⟩
instance : Neg (Vec3 K) := ⟨fun a => ⟨-a.x, -a.y, -a.z⟩⟩
/-- Product of a vector and a scalar (`c * v` and `v * c` in the source). -/
instance : SMul K (Vec3 K) := ⟨fun c a => ⟨c * a.x, c * a.y, c * a.z⟩⟩

/-- Coefficient-wise division `v / c` of a vector by a scalar. -/
def div (a : Vec3 K) (c : K) : Vec3 K := ⟨a.x / c, a.y / c, a.z / c⟩

/-- Coefficient access `v[i]`. -/
def get (v : Vec3 K) (i : Fin 3) : K :=
  match i with
  | 0 => v.x
  | 1 => v.y
  | 2 => v.z

/-- Coefficient update `v[i] = c`. -/
def set (v : Vec3 K) (i : Fin 3) (c : K) : Vec3 K :=
  match i with
  | 0 => { v with x := c }
  | 1 => { v with y := c }
  | 2 => { v with z := c }

/-- Eigen `a.dot(b)`. -/
def dot (a b : Vec3 K) : K := a.x * b.x + a.y * b.y + a.z * b.z

/-- Eigen `a.cross(b)`. -/
def cross (a b : Vec3 K) : Vec3 K :=
  ⟨a.y * b.z - a.z * b.y, a.z * b.x - a.x * b.z, a.x * b.y - a.y * b.x⟩

/-- Eigen `v.squaredNorm()`. -/
def squaredNorm (v : Vec3 K) : K := v.dot v

/-- Eigen `v.norm()`: the square root of the squared norm. -/
def norm (sqrt : K → K) (v : Vec3 K) : K := sqrt v.squaredNorm

/-- Eigen `v.normalize()` / `v.normalized()`: divide by the norm; a vector of
squared norm zero is left as it is (as in Eigen 3.3 and later; Eigen itself is
not part of the repository). -/
def normalized (sqrt : K → K) (v : Vec3 K) : Vec3 K :=
  let z := v.squaredNorm
  if z > 0 then v.div (sqrt z) else v

end Vec3

namespace Mat3

/-- Eigen `m.row(i)`. -/
def row (m : Mat3 K) (i : Fin 3) : Vec3 K :=
  match i with
  | 0 => m.r0
  | 1 => m.r1
  | 2 => m.r2

/-- Eigen `m.col(j)`. -/
def col (m : Mat3 K) (j : Fin 3) : Vec3 K := ⟨m.r0.get j, m.r1.get j, m.r2.get j⟩

/-- Assignment `m.col(j) = v`. -/
def setCol (m : Mat3 K) (j : Fin 3) (v : Vec3 K) : Mat3 K :=
  ⟨m.r0.set j v.x, m.r1.set j v.y, m.r2.set j v.z⟩

/-- Coefficient access `m(i, j)`. -/
def get (m : Mat3 K) (i j : Fin 3) : K := (m.row i).get j

/-- Coefficient update `m(i, j) = c`. -/
def set (m : Mat3 K) (i j : Fin 3) (c : K) : Mat3 K :=
  match i with
  | 0 => { m with r0 := m.r0.set j c }
  | 1 => { m with r1 := m.r1.set j c }
  | 2 => { m with r2 := m.r2.set j c }

/-- Eigen `m.setIdentity()`. -/
def identity : Mat3 K := ⟨⟨1, 0, 0⟩, ⟨0, 1, 0⟩, ⟨0, 0, 1⟩⟩

/-- Determinant (Eigen `m.determinant()`). -/
def det (m : Mat3 K) : K :=
  m.r0.x * (m.r1.y * m.r2.z - m.r1.z * m.r2.y)
  - m.r0.y * (m.r1.x * m.r2.z - m.r1.z * m.r2.x)
  + m.r0.z * (m.r1.x * m.r2.y - m.r1.y * m.r2.x)

end Mat3

/-- The exact square root on the non-negative elements of `K`. -/
def IsSqrt (sqrt : K → K) : Prop :=
  ∀ x : K, 0 ≤ x → 0 ≤ sqrt x ∧ sqrt x * sqrt x = x

/-! ## Constants -/

/-- Source: `static const double kIOS_RATIO = 1.5;` -/
def kIOS_RATIO : K := 1.5

/-- Source: `static const double invSinA = 2;` -/
def invSinA : K := 2

/-- Source: `static const double cosA = sqrt(3.0) / 2.0;` -/
def cosA (sqrt : K → K) : K := sqrt 3.0 / 2.0

/-! ## `axisFromEigen` -/

/-- The index selection of `axisFromEigen`: returns `(min, mid, max)`. -/
def eigenOrder (eigenS : Vec3 K) : Fin 3 × Fin 3 × Fin 3 :=
  let mm : Fin 3 × Fin 3 :=
    if eigenS.get 0 > eigenS.get 1 then (1, 0) else (0, 1)
  let min := mm.1
  let max := mm.2
  if eigenS.get 2 < eigenS.get min then (2, min, max)
  else if eigenS.get 2 > eigenS.get max then (min, max, 2)
  else (min, 2, max)

/-- Source: `axisFromEigen(eigenV, eigenS, axis)`. -/
def axisFromEigen (eigenV : Mat3 K) (eigenS : Vec3 K) (axis : Mat3 K) : Mat3 K :=
  let o := eigenOrder eigenS
  let mid := o.2.1
  let max := o.2.2
  let axis := axis.setCol 0 (eigenV.row max)
  let axis := axis.setCol 1 (eigenV.row mid)
  axis.setCol 2 ((axis.col 0).cross (axis.col 1))

/-! ## Bounding volumes -/

/-- A `Vector3d*` argument: a base pointer, read by index. -/
abbrev Ptr (K : Type) := Nat → Vec3 K

/-- Pointer arithmetic `ps + k`. -/
def Ptr.offset (ps : Ptr K) (k : Nat) : Ptr K := fun i => ps (i + k)

/-- A pointer to the given points (reads past the end give zero). -/
def Ptr.ofList (l : List (Vec3 K)) : Ptr K := fun i => l.getD i 0

/-- Mesh triangle: three vertex indices. -/
structure Triangle where
  vids : Fin 3 → Nat

/-- Oriented bounding box (`OBB`): `axis`, centre `To`, half-extents. -/
structure OBB (K : Type) where
  axis : Mat3 K
  To : Vec3 K
  extent : Vec3 K

/-- Rectangle swept sphere (`RSS`): `axis`, origin `Tr`, side lengths `l[0]`,
`l[1]` and radius `r`. -/
structure RSS (K : Type) where
  axis : Mat3 K
  Tr : Vec3 K
  l0 : K
  l1 : K
  r : K

/-- One sphere of a `kIOS` (`kIOS::kIOS_Sphere`). -/
structure kIOS_Sphere (K : Type) where
  o : Vec3 K
  r : K

/-- The `kIOS` volume: `spheres[5]`, `num_spheres` and the box `obb`. -/
structure kIOS (K : Type) where
  spheres : Fin 5 → kIOS_Sphere K
  num_spheres : Nat
  obb : OBB K

/-- The `OBBRSS` volume: an `OBB` and an `RSS`. -/
structure OBBRSS (K : Type) where
  obb : OBB K
  rss : RSS K

/-- Assignment `bv.axis = m`. -/
def OBB.setAxis (bv : OBB K) (m : Mat3 K) : OBB K := { bv with axis := m }

/-- Assignment `bv.To = v`. -/
def OBB.setTo (bv : OBB K) (v : Vec3 K) : OBB K := { bv with To := v }

/-- Assignment `bv.extent = v`. -/
def OBB.setExtent (bv : OBB K) (v : Vec3 K) : OBB K := { bv with extent := v }

/-- Assignment `bv.axis = m`. -/
def RSS.setAxis (bv : RSS K) (m : Mat3 K) : RSS K := { bv with axis := m }

/-- Assignment `bv.Tr = v`. -/
def RSS.setTr (bv : RSS K) (v : Vec3 K) : RSS K := { bv with Tr := v }

/-- Assignment `bv.l[0] = c`. -/
def RSS.setL0 (bv : RSS K) (c : K) : RSS K := { bv with l0 := c }

/-- Assignment `bv.l[1] = c`. -/
def RSS.setL1 (bv : RSS K) (c : K) : RSS K := { bv with l1 := c }

/-- Assignment `bv.r = c`. -/
def RSS.setR (bv : RSS K) (c : K) : RSS K := { bv with r := c }

/-- Assignment `bv.num_spheres = k`. -/
def kIOS.setNum (bv : kIOS K) (k : Nat) : kIOS K := { bv with num_spheres := k }

/-- Assignment to (a field of) `bv.obb`. -/
def kIOS.setObb (bv : kIOS K) (b : OBB K) : kIOS K := { bv with obb := b }

/-- Assignment to (a field of) `bv.obb`. -/
def OBBRSS.setObb (bv : OBBRSS K) (b : OBB K) : OBBRSS K := { bv with obb := b }

/-- Assignment to (a field of) `bv.rss`. -/
def OBBRSS.setRss (bv : OBBRSS K) (b : RSS K) : OBBRSS K := { bv with rss := b }

/-- Assignment `bv.spheres[i].o = o`. -/
def kIOS.setO (bv : kIOS K) (i : Fin 5) (o : Vec3 K) : kIOS K :=
  { bv with spheres := Function.update bv.spheres i { bv.spheres i with o := o } }

/-- Assignment `bv.spheres[i].r = r`. -/
def kIOS.setR (bv : kIOS K) (i : Fin 5) (r : K) : kIOS K :=
  { bv with spheres := Function.update bv.spheres i { bv.spheres i with r := r } }

/-- Content of a default-constructed local `OBB` (unspecified in the source;
every field is written before it is read). -/
def OBB.fresh : OBB K := ⟨⟨0, 0, 0⟩, 0, 0⟩

/-- Content of a default-constructed local `RSS`. -/
def RSS.fresh : RSS K := ⟨⟨0, 0, 0⟩, 0, 0, 0, 0⟩

/-- Content of a default-constructed local `kIOS`. -/
def kIOS.fresh : kIOS K := ⟨fun _ => ⟨0, 0⟩, 0, OBB.fresh⟩

/-- Content of a default-constructed local `OBBRSS`. -/
def OBBRSS.fresh : OBBRSS K := ⟨OBB.fresh, RSS.fresh⟩

/-! ## Routines declared in `BVH_utility.h` and the math headers

Their bodies are not part of `BV_fitter.cpp`; the fitting code is
parametrised by them. -/

/-- The numeric routines called by `BV_fitter.cpp`.  The four leading
arguments of the point-set routines are `ps`, `ps2`, `ts`, `indices`, followed
by the count `n`. -/
structure Utility (K : Type) where
  /-- Routine `std::sqrt`. -/
  sqrt : K → K
  /-- Routine `getCovariance(ps, ps2, ts, indices, n, M)`, returns `M`. -/
  getCovariance : Ptr K → Option (Ptr K) → Option (Nat → Triangle) →
    Option (Nat → Nat) → Int → Mat3 K
  /-- Routine `eigen(M, s, E)`, returns the eigenvalues `s` and eigenvectors `E`. -/
  eigen : Mat3 K → Vec3 K × Mat3 K
  /-- Routine `getExtentAndCenter(ps, ps2, ts, indices, n, axis, center, extent)`,
  returns `(center, extent)`. -/
  getExtentAndCenter : Ptr K → Option (Ptr K) → Option (Nat → Triangle) →
    Option (Nat → Nat) → Int → Mat3 K → Vec3 K × Vec3 K
  /-- Routine `getRadiusAndOriginAndRectangleSize(ps, ps2, ts, indices, n, axis,
  origin, l, r)`, returns `(origin, l[0], l[1], r)`. -/
  getRadiusAndOriginAndRectangleSize : Ptr K → Option (Ptr K) →
    Option (Nat → Triangle) → Option (Nat → Nat) → Int → Mat3 K →
    Vec3 K × K × K × K
  /-- Routine `maximumDistance(ps, ps2, ts, indices, n, query)`. -/
  maximumDistance : Ptr K → Option (Ptr K) → Option (Nat → Triangle) →
    Option (Nat → Nat) → Int → Vec3 K → K
  /-- Routine `generateCoordinateSystem(axis)`, returns the completed `axis`. -/
  generateCoordinateSystem : Mat3 K → Mat3 K
  /-- Routine `circumCircleComputation(a, b, c, center, radius)`, returns
  `(center, radius)`. -/
  circumCircleComputation : Vec3 K → Vec3 K → Vec3 K → Vec3 K × K
  /-- Merge `OBB::operator+`. -/
  mergeOBB : OBB K → OBB K → OBB K
  /-- Merge `RSS::operator+`. -/
  mergeRSS : RSS K → RSS K → RSS K

/-- The three values of a C array of length three. -/
def arr3 {α : Type} (a b c : α) : Fin 3 → α
  | 0 => a
  | 1 => b
  | 2 => c

/-- The edge selection shared by the three `fit3` routines:
`imax = 0; if(len[1] > len[0]) imax = 1; if(len[2] > len[imax]) imax = 2;` -/
def fit3_imax (len : Fin 3 → K) : Fin 3 :=
  let imax : Fin 3 := 0
  let imax : Fin 3 := if len 1 > len 0 then 1 else imax
  let imax : Fin 3 := if len 2 > len imax then 2 else imax
  imax

/-! ## `OBB_fit_functions` -/

namespace OBB_fit_functions

/-- Source: `OBB_fit_functions::fit1`. -/
def fit1 (ps : Ptr K) (bv : OBB K) : OBB K :=
  let bv := bv.setTo (ps 0)
  let bv := bv.setAxis Mat3.identity
  bv.setExtent ⟨0, 0, 0⟩

/-- Source: `OBB_fit_functions::fit2`. -/
def fit2 (U : Utility K) (ps : Ptr K) (bv : OBB K) : OBB K :=
  let p1 := ps 0
  let p2 := ps 1
  let p1p2 := p1 - p2
  let len_p1p2 := p1p2.norm U.sqrt
  let p1p2 := p1p2.normalized U.sqrt
  let bv := bv.setAxis (bv.axis.setCol 0 p1p2)
  let bv := bv.setAxis (U.generateCoordinateSystem bv.axis)
  let bv := bv.setExtent ⟨len_p1p2 * 0.5, 0, 0⟩
  bv.setTo ((0.5 : K) • (p1 + p2))

/-- Source: `OBB_fit_functions::fit3`. -/
def fit3 (U : Utility K) (ps : Ptr K) (bv : OBB K) : OBB K :=
  let p1 := ps 0
  let p2 := ps 1
  let p3 := ps 2
  let e : Fin 3 → Vec3 K := arr3 (p1 - p2) (p2 - p3) (p3 - p1)
  let len : Fin 3 → K :=
    arr3 (e 0).squaredNorm (e 1).squaredNorm (e 2).squaredNorm
  let imax := fit3_imax len
  let bv := bv.setAxis (bv.axis.setCol 2 ((e 0).cross (e 1)))
  let bv := bv.setAxis (bv.axis.setCol 2 ((bv.axis.col 2).normalized U.sqrt))
  let bv := bv.setAxis (bv.axis.setCol 0 (e imax))
  let bv := bv.setAxis (bv.axis.setCol 0 ((bv.axis.col 0).normalized U.sqrt))
  let bv := bv.setAxis (bv.axis.setCol 1 ((bv.axis.col 2).cross (bv.axis.col 0)))
  let ce := U.getExtentAndCenter ps none none none 3 bv.axis
  let bv := bv.setTo ce.1
  bv.setExtent ce.2

/-- Source: `OBB_fit_functions::fit6`. -/
def fit6 (U : Utility K) (ps : Ptr K) (_bv : OBB K) : OBB K :=
  let bv1 := fit3 U ps OBB.fresh
  let bv2 := fit3 U (ps.offset 3) OBB.fresh
  U.mergeOBB bv1 bv2

/-- Source: `OBB_fit_functions::fitn`. -/
def fitn (U : Utility K) (ps : Ptr K) (n : Int) (bv : OBB K) : OBB K :=
  let M := U.getCovariance ps none none none n
  let sE := U.eigen M
  let s := sE.1
  let E := sE.2
  let bv := bv.setAxis (axisFromEigen E s bv.axis)
  let ce := U.getExtentAndCenter ps none none none n bv.axis
  let bv := bv.setTo ce.1
  bv.setExtent ce.2

end OBB_fit_functions

/-! ## `RSS_fit_functions` -/

namespace RSS_fit_functions

/-- Source: `RSS_fit_functions::fit1`. -/
def fit1 (ps : Ptr K) (bv : RSS K) : RSS K :=
  let bv := bv.setTr (ps 0)
  let bv := bv.setAxis Mat3.identity
  let bv := bv.setL0 0
  let bv := bv.setL1 0
  bv.setR 0

/-- Source: `RSS_fit_functions::fit2`. -/
def fit2 (U : Utility K) (ps : Ptr K) (bv : RSS K) : RSS K :=
  let p1 := ps 0
  let p2 := ps 1
  let p1p2 := p1 - p2
  let len_p1p2 := p1p2.norm U.sqrt
  let p1p2 := p1p2.normalized U.sqrt
  let bv := bv.setAxis (bv.axis.setCol 0 p1p2)
  let bv := bv.setAxis (U.generateCoordinateSystem bv.axis)
  let bv := bv.setL0 len_p1p2
  let bv := bv.setL1 0
  let bv := bv.setTr p2
  bv.setR 0

/-- Source: `RSS_fit_functions::fit3`. -/
def fit3 (U : Utility K) (ps : Ptr K) (bv : RSS K) : RSS K :=
  let p1 := ps 0
  let p2 := ps 1
  let p3 := ps 2
  let e : Fin 3 → Vec3 K := arr3 (p1 - p2) (p2 - p3) (p3 - p1)
  let len : Fin 3 → K :=
    arr3 (e 0).squaredNorm (e 1).squaredNorm (e 2).squaredNorm
  let imax := fit3_imax len
  let bv := bv.setAxis (bv.axis.setCol 2 (((e 0).cross (e 1)).normalized U.sqrt))
  let bv := bv.setAxis (bv.axis.setCol 0 ((e imax).normalized U.sqrt))
  let bv := bv.setAxis (bv.axis.setCol 1 ((bv.axis.col 2).cross (bv.axis.col 0)))
  let olr := U.getRadiusAndOriginAndRectangleSize ps none none none 3 bv.axis
  let bv := bv.setTr olr.1
  let bv := bv.setL0 olr.2.1
  let bv := bv.setL1 olr.2.2.1
  bv.setR olr.2.2.2

/-- Source: `RSS_fit_functions::fit6`. -/
def fit6 (U : Utility K) (ps : Ptr K) (_bv : RSS K) : RSS K :=
  let bv1 := fit3 U ps RSS.fresh
  let bv2 := fit3 U (ps.offset 3) RSS.fresh
  U.mergeRSS bv1 bv2

/-- Source: `RSS_fit_functions::fitn`. -/
def fitn (U : Utility K) (ps : Ptr K) (n : Int) (bv : RSS K) : RSS K :=
  let M := U.getCovariance ps none none none n
  let sE := U.eigen M
  let s := sE.1
  let E := sE.2
  let bv := bv.setAxis (axisFromEigen E s bv.axis)
  let olr := U.getRadiusAndOriginAndRectangleSize ps none none none n bv.axis
  let bv := bv.setTr olr.1
  let bv := bv.setL0 olr.2.1
  let bv := bv.setL1 olr.2.2.1
  bv.setR olr.2.2.2

end RSS_fit_functions

/-! ## The blocks shared by the two general-n `kIOS` fitters

`kIOS_fit_functions::fitn` (lines 352-397) and `BVFitter<kIOS>::fit` (lines
608-652) contain the same three blocks; they differ only in the arguments
passed to `maximumDistance`, which is the parameter `maxDist` here. -/

/-- The block `// decide the k in kIOS`. -/
def kIOS_decide_k (extent : Vec3 K) (bv : kIOS K) : kIOS K :=
  if extent.get 0 > kIOS_RATIO * extent.get 2 then
    if extent.get 0 > kIOS_RATIO * extent.get 1 then bv.setNum 5
    else bv.setNum 3
  else bv.setNum 1

/-- The block `if(bv.num_spheres >= 3) { ... }`: spheres 1 and 2, along
axis 2. -/
def kIOS_spheres_12 (sqrt : K → K) (maxDist : Vec3 K → K) (center extent : Vec3 K)
    (r0 : K) (bv : kIOS K) : kIOS K :=
  if bv.num_spheres ≥ 3 then
    let r10 := sqrt (r0 * r0 - extent.get 2 * extent.get 2) * invSinA
    let delta := (r10 * cosA sqrt - extent.get 2) • bv.obb.axis.col 2
    let bv := bv.setO 1 (center - delta)
    let bv := bv.setO 2 (center + delta)
    let r11 := maxDist (bv.spheres 1).o
    let r12 := maxDist (bv.spheres 2).o
    let bv := bv.setO 1 ((bv.spheres 1).o + (-r10 + r11) • bv.obb.axis.col 2)
    let bv := bv.setO 2 ((bv.spheres 2).o + (r10 - r12) • bv.obb.axis.col 2)
    let bv := bv.setR 1 r10
    bv.setR 2 r10
  else bv

/-- The block `if(bv.num_spheres >= 5) { ... }`: spheres 3 and 4, along
axis 1. -/
def kIOS_spheres_34 (sqrt : K → K) (maxDist : Vec3 K → K) (extent : Vec3 K)
    (bv : kIOS K) : kIOS K :=
  if bv.num_spheres ≥ 5 then
    let r10 := (bv.spheres 1).r
    let delta :=
      (sqrt (r10 * r10 - extent.get 0 * extent.get 0 - extent.get 2 * extent.get 2)
        - extent.get 1) • bv.obb.axis.col 1
    let bv := bv.setO 3 ((bv.spheres 0).o - delta)
    let bv := bv.setO 4 ((bv.spheres 0).o + delta)
    let r21 := maxDist (bv.spheres 3).o
    let r22 := maxDist (bv.spheres 4).o
    let bv := bv.setO 3 ((bv.spheres 3).o + (-r10 + r21) • bv.obb.axis.col 1)
    let bv := bv.setO 4 ((bv.spheres 4).o + (r10 - r22) • bv.obb.axis.col 1)
    let bv := bv.setR 3 r10
    bv.setR 4 r10
  else bv

/-! ## `kIOS_fit_functions` -/

namespace kIOS_fit_functions

/-- Source: `kIOS_fit_functions::fit1`. -/
def fit1 (ps : Ptr K) (bv : kIOS K) : kIOS K :=
  let bv := bv.setNum 1
  let bv := bv.setO 0 (ps 0)
  let bv := bv.setR 0 0
  let bv := bv.setObb (bv.obb.setAxis Mat3.identity)
  let bv := bv.setObb (bv.obb.setExtent ⟨0, 0, 0⟩)
  bv.setObb (bv.obb.setTo (ps 0))

/-- Source: `kIOS_fit_functions::fit2`. -/
def fit2 (U : Utility K) (ps : Ptr K) (bv : kIOS K) : kIOS K :=
  let bv := bv.setNum 5
  let p1 := ps 0
  let p2 := ps 1
  let p1p2 := p1 - p2
  let len_p1p2 := p1p2.norm U.sqrt
  let p1p2 := p1p2.normalized U.sqrt
  let bv := bv.setObb (bv.obb.setAxis (bv.obb.axis.setCol 0 p1p2))
  let bv := bv.setObb (bv.obb.setAxis (U.generateCoordinateSystem bv.obb.axis))
  let r0 := len_p1p2 * 0.5
  let bv := bv.setObb (bv.obb.setExtent (⟨r0, 0, 0⟩))
  let bv := bv.setObb (bv.obb.setTo ((0.5 : K) • (p1 + p2)))
  let bv := bv.setO 0 bv.obb.To
  let bv := bv.setR 0 r0
  let r1 := r0 * invSinA
  let r1cosA := r1 * cosA U.sqrt
  let bv := bv.setR 1 r1
  let bv := bv.setR 2 r1
  let delta := r1cosA • bv.obb.axis.col 1
  let bv := bv.setO 1 ((bv.spheres 0).o - delta)
  let bv := bv.setO 2 ((bv.spheres 0).o + delta)
  let bv := bv.setR 3 r1
  let bv := bv.setR 4 r1
  let delta := r1cosA • bv.obb.axis.col 2
  let bv := bv.setO 3 ((bv.spheres 0).o - delta)
  bv.setO 4 ((bv.spheres 0).o + delta)

/-- Source: `kIOS_fit_functions::fit3`. -/
def fit3 (U : Utility K) (ps : Ptr K) (bv : kIOS K) : kIOS K :=
  let bv := bv.setNum 3
  let p1 := ps 0
  let p2 := ps 1
  let p3 := ps 2
  let e : Fin 3 → Vec3 K := arr3 (p1 - p2) (p2 - p3) (p3 - p1)
  let len : Fin 3 → K :=
    arr3 (e 0).squaredNorm (e 1).squaredNorm (e 2).squaredNorm
  let imax := fit3_imax len
  let bv := bv.setObb (bv.obb.setAxis (bv.obb.axis.setCol 2 (((e 0).cross (e 1)).normalized U.sqrt)))
  let bv := bv.setObb (bv.obb.setAxis (bv.obb.axis.setCol 0 ((e imax).normalized U.sqrt)))
  let bv := bv.setObb (bv.obb.setAxis (bv.obb.axis.setCol 1 ((bv.obb.axis.col 2).cross (bv.obb.axis.col 0))))
  let ce := U.getExtentAndCenter ps none none none 3 bv.obb.axis
  let bv := bv.setObb (bv.obb.setTo ce.1)
  let bv := bv.setObb (bv.obb.setExtent ce.2)
  let cr := U.circumCircleComputation p1 p2 p3
  let center := cr.1
  let r0 := cr.2
  let bv := bv.setO 0 center
  let bv := bv.setR 0 r0
  let r1 := r0 * invSinA
  let delta := (r1 * cosA U.sqrt) • bv.obb.axis.col 2
  let bv := bv.setR 1 r1
  let bv := bv.setO 1 (center - delta)
  let bv := bv.setR 2 r1
  bv.setO 2 (center + delta)

/-- Source: `kIOS_fit_functions::fitn`. -/
def fitn (U : Utility K) (ps : Ptr K) (n : Int) (bv : kIOS K) : kIOS K :=
  let M := U.getCovariance ps none none none n
  let sE := U.eigen M
  let s := sE.1
  let E := sE.2
  let bv := bv.setObb (bv.obb.setAxis (axisFromEigen E s bv.obb.axis))
  let ce := U.getExtentAndCenter ps none none none n bv.obb.axis
  let bv := bv.setObb (bv.obb.setTo ce.1)
  let bv := bv.setObb (bv.obb.setExtent ce.2)
  let center := bv.obb.To
  let extent := bv.obb.extent
  let r0 := U.maximumDistance ps none none none n center
  let bv := kIOS_decide_k extent bv
  let bv := bv.setO 0 center
  let bv := bv.setR 0 r0
  let bv := kIOS_spheres_12 U.sqrt (fun q => U.maximumDistance ps none none none n q)
    center extent r0 bv
  kIOS_spheres_34 U.sqrt (fun q => U.maximumDistance ps none none none n q) extent bv

end kIOS_fit_functions

/-! ## `OBBRSS_fit_functions` -/

namespace OBBRSS_fit_functions

/-- Source: `OBBRSS_fit_functions::fit1`. -/
def fit1 (ps : Ptr K) (bv : OBBRSS K) : OBBRSS K :=
  let bv := bv.setObb (OBB_fit_functions.fit1 ps bv.obb)
  bv.setRss (RSS_fit_functions.fit1 ps bv.rss)

/-- Source: `OBBRSS_fit_functions::fit2`. -/
def fit2 (U : Utility K) (ps : Ptr K) (bv : OBBRSS K) : OBBRSS K :=
  let bv := bv.setObb (OBB_fit_functions.fit2 U ps bv.obb)
  bv.setRss (RSS_fit_functions.fit2 U ps bv.rss)

/-- Source: `OBBRSS_fit_functions::fit3`. -/
def fit3 (U : Utility K) (ps : Ptr K) (bv : OBBRSS K) : OBBRSS K :=
  let bv := bv.setObb (OBB_fit_functions.fit3 U ps bv.obb)
  bv.setRss (RSS_fit_functions.fit3 U ps bv.rss)

/-- Source: `OBBRSS_fit_functions::fitn`. -/
def fitn (U : Utility K) (ps : Ptr K) (n : Int) (bv : OBBRSS K) : OBBRSS K :=
  let bv := bv.setObb (OBB_fit_functions.fitn U ps n bv.obb)
  bv.setRss (RSS_fit_functions.fitn U ps n bv.rss)

end OBBRSS_fit_functions

/-! ## The direct fitters `fit<BV>(ps, n, bv)` -/

/-- Source: `template<> void fit(Vector3d* ps, int n, OBB& bv)`. -/
def fit_OBB (U : Utility K) (ps : Ptr K) (n : Int) (bv : OBB K) : OBB K :=
  if n = 1 then OBB_fit_functions.fit1 ps bv
  else if n = 2 then OBB_fit_functions.fit2 U ps bv
  else if n = 3 then OBB_fit_functions.fit3 U ps bv
  else if n = 6 then OBB_fit_functions.fit6 U ps bv
  else OBB_fit_functions.fitn U ps n bv

/-- Source: `template<> void fit(Vector3d* ps, int n, RSS& bv)`. -/
def fit_RSS (U : Utility K) (ps : Ptr K) (n : Int) (bv : RSS K) : RSS K :=
  if n = 1 then RSS_fit_functions.fit1 ps bv
  else if n = 2 then RSS_fit_functions.fit2 U ps bv
  else if n = 3 then RSS_fit_functions.fit3 U ps bv
  else RSS_fit_functions.fitn U ps n bv

/-- Source: `template<> void fit(Vector3d* ps, int n, kIOS& bv)`. -/
def fit_kIOS (U : Utility K) (ps : Ptr K) (n : Int) (bv : kIOS K) : kIOS K :=
  if n = 1 then kIOS_fit_functions.fit1 ps bv
  else if n = 2 then kIOS_fit_functions.fit2 U ps bv
  else if n = 3 then kIOS_fit_functions.fit3 U ps bv
  else kIOS_fit_functions.fitn U ps n bv

/-- Source: `template<> void fit(Vector3d* ps, int n, OBBRSS& bv)`. -/
def fit_OBBRSS (U : Utility K) (ps : Ptr K) (n : Int) (bv : OBBRSS K) : OBBRSS K :=
  if n = 1 then OBBRSS_fit_functions.fit1 ps bv
  else if n = 2 then OBBRSS_fit_functions.fit2 U ps bv
  else if n = 3 then OBBRSS_fit_functions.fit3 U ps bv
  else OBBRSS_fit_functions.fitn U ps n bv

/-! ## The indexed fitters `BVFitter<BV>::fit` -/

/-- The data members of a `BVFitter`: `vertices`, `prev_vertices`,
`tri_indices`. -/
structure BVFitter (K : Type) where
  vertices : Ptr K
  prev_vertices : Option (Ptr K)
  tri_indices : Option (Nat → Triangle)

namespace BVFitter

/-- Source: `BVFitter<OBB>::fit`.  The argument `bv` is the content of the
uninitialised local `OBB bv;`. -/
def fit_OBB (U : Utility K) (F : BVFitter K) (primitive_indices : Option (Nat → Nat))
    (num_primitives : Int) (bv : OBB K) : OBB K :=
  let M := U.getCovariance F.vertices F.prev_vertices F.tri_indices
    primitive_indices num_primitives
  let sE := U.eigen M
  let s := sE.1
  let E := sE.2
  let bv := bv.setAxis (axisFromEigen E s bv.axis)
  let ce := U.getExtentAndCenter F.vertices F.prev_vertices F.tri_indices
    primitive_indices num_primitives bv.axis
  let bv := bv.setTo ce.1
  bv.setExtent ce.2

/-- Source: `BVFitter<OBBRSS>::fit`. -/
def fit_OBBRSS (U : Utility K) (F : BVFitter K) (primitive_indices : Option (Nat → Nat))
    (num_primitives : Int) (bv : OBBRSS K) : OBBRSS K :=
  let M := U.getCovariance F.vertices F.prev_vertices F.tri_indices
    primitive_indices num_primitives
  let sE := U.eigen M
  let s := sE.1
  let E := sE.2
  let bv := bv.setObb (bv.obb.setAxis (axisFromEigen E s bv.obb.axis))
  let bv := bv.setRss (bv.rss.setAxis (bv.obb.axis))
  let ce := U.getExtentAndCenter F.vertices F.prev_vertices F.tri_indices
    primitive_indices num_primitives bv.obb.axis
  let bv := bv.setObb (bv.obb.setTo ce.1)
  let bv := bv.setObb (bv.obb.setExtent ce.2)
  let olr := U.getRadiusAndOriginAndRectangleSize F.vertices F.prev_vertices
    F.tri_indices primitive_indices num_primitives bv.rss.axis
  let origin := olr.1
  let l : Fin 2 → K := fun i => if i = 0 then olr.2.1 else olr.2.2.1
  let r := olr.2.2.2
  let bv := bv.setRss (bv.rss.setTr (origin))
  let bv := bv.setRss (bv.rss.setL0 (l 0))
  let bv := bv.setRss (bv.rss.setL1 (l 1))
  bv.setRss (bv.rss.setR (r))

/-- Source: `BVFitter<RSS>::fit`. -/
def fit_RSS (U : Utility K) (F : BVFitter K) (primitive_indices : Option (Nat → Nat))
    (num_primitives : Int) (bv : RSS K) : RSS K :=
  let M := U.getCovariance F.vertices F.prev_vertices F.tri_indices
    primitive_indices num_primitives
  let sE := U.eigen M
  let s := sE.1
  let E := sE.2
  let bv := bv.setAxis (axisFromEigen E s bv.axis)
  let olr := U.getRadiusAndOriginAndRectangleSize F.vertices F.prev_vertices
    F.tri_indices primitive_indices num_primitives bv.axis
  let origin := olr.1
  let l : Fin 2 → K := fun i => if i = 0 then olr.2.1 else olr.2.2.1
  let r := olr.2.2.2
  let bv := bv.setTr (origin)
  let bv := bv.setL0 (l 0)
  let bv := bv.setL1 (l 1)
  bv.setR (r)

/-- Source: `BVFitter<kIOS>::fit`. -/
def fit_kIOS (U : Utility K) (F : BVFitter K) (primitive_indices : Option (Nat → Nat))
    (num_primitives : Int) (bv : kIOS K) : kIOS K :=
  let M := U.getCovariance F.vertices F.prev_vertices F.tri_indices
    primitive_indices num_primitives
  let sE := U.eigen M
  let s := sE.1
  let E := sE.2
  let bv := bv.setObb (bv.obb.setAxis (axisFromEigen E s bv.obb.axis))
  let ce := U.getExtentAndCenter F.vertices F.prev_vertices F.tri_indices
    primitive_indices num_primitives bv.obb.axis
  let bv := bv.setObb (bv.obb.setTo ce.1)
  let bv := bv.setObb (bv.obb.setExtent ce.2)
  let center := bv.obb.To
  let extent := bv.obb.extent
  let r0 := U.maximumDistance F.vertices F.prev_vertices F.tri_indices
    primitive_indices num_primitives center
  let bv := kIOS_decide_k extent bv
  let bv := bv.setO 0 center
  let bv := bv.setR 0 r0
  let bv := kIOS_spheres_12 U.sqrt
    (fun q => U.maximumDistance F.vertices F.prev_vertices F.tri_indices
      primitive_indices num_primitives q) center extent r0 bv
  kIOS_spheres_34 U.sqrt
    (fun q => U.maximumDistance F.vertices F.prev_vertices F.tri_indices
      primitive_indices num_primitives q) extent bv

end BVFitter

end Algebra

section Models

variable {K : Type} [LinearOrderedField K]

/-! ## Models of the routines that are not in `BV_fitter.cpp`

Used to evaluate the fitters on concrete points. -/

/-- Modelled from the spec: the body of `generateCoordinateSystem` is missing;
this is a deterministic completion of column 0 to a right-handed frame (column
1 is a normalised vector orthogonal to column 0, column 2 their cross
product). -/
def generateCoordinateSystem_model (sqrt : K → K) (axis : Mat3 K) : Mat3 K :=
  let w := axis.col 0
  if |w.x| ≥ |w.y| then
    let inv_length := 1 / sqrt (w.x * w.x + w.z * w.z)
    let u : Vec3 K := ⟨-w.z * inv_length, 0, w.x * inv_length⟩
    (axis.setCol 1 u).setCol 2 (w.cross u)
  else
    let inv_length := 1 / sqrt (w.y * w.y + w.z * w.z)
    let u : Vec3 K := ⟨0, w.z * inv_length, -w.y * inv_length⟩
    (axis.setCol 1 u).setCol 2 (w.cross u)

/-- Modelled from the spec: the body of `getExtentAndCenter` is missing; for a
point array (`ps2`, `ts`, `indices` null) the projector takes the minimum and
maximum of the projections on each axis, the centre is the midpoint of the
three intervals (in world coordinates) and the extent half their lengths. -/
def getExtentAndCenter_model (ps : Ptr K) (n : Int) (axis : Mat3 K) :
    Vec3 K × Vec3 K :=
  let pts := (List.range n.toNat).map ps
  let proj : Fin 3 → List K := fun j => pts.map (fun p => (axis.col j).dot p)
  let hi : Fin 3 → K := fun j => (proj j).foldl max ((axis.col j).dot (ps 0))
  let lo : Fin 3 → K := fun j => (proj j).foldl min ((axis.col j).dot (ps 0))
  let o : Vec3 K := ⟨(hi 0 + lo 0) / 2, (hi 1 + lo 1) / 2, (hi 2 + lo 2) / 2⟩
  let center := o.x • axis.col 0 + o.y • axis.col 1 + o.z • axis.col 2
  let extent : Vec3 K := ⟨(hi 0 - lo 0) / 2, (hi 1 - lo 1) / 2, (hi 2 - lo 2) / 2⟩
  (center, extent)

/-- Modelled from the spec: the body of `maximumDistance` is missing; for a
point array it is the greatest distance from `query` to one of the `n`
points. -/
def maximumDistance_model (sqrt : K → K) (ps : Ptr K) (n : Int) (query : Vec3 K) : K :=
  ((List.range n.toNat).map (fun i => (ps i - query).norm sqrt)).foldl max 0

/-- Modelled from the spec: the body of `circumCircleComputation` is missing;
this is the circumscribed circle (centre, radius) of the triangle `a b c`. -/
def circumCircleComputation_model (sqrt : K → K) (a b c : Vec3 K) : Vec3 K × K :=
  let e1 := a - c
  let e2 := b - c
  let e1_len2 := e1.squaredNorm
  let e2_len2 := e2.squaredNorm
  let e3 := e1.cross e2
  let e3_len2 := e3.squaredNorm
  let radius := e1_len2 * e2_len2 * (e1 - e2).squaredNorm / e3_len2
  let radius := sqrt radius * 0.5
  let center := (0.5 * 1 / e3_len2) • ((e1_len2 • e2 - e2_len2 • e1).cross e3) + c
  (center, radius)

/-- Modelled from the spec: the body of `getCovariance` is missing; for a point
array it is the matrix of the sums `Σ p_i p_j - (Σ p_i)(Σ p_j) / n`. -/
def getCovariance_model (ps : Ptr K) (n : Int) : Mat3 K :=
  let pts := (List.range n.toNat).map ps
  let S1 : Vec3 K := pts.foldl (fun a p => a + p) 0
  let S2 : Fin 3 → Fin 3 → K := fun i j =>
    (pts.map (fun p => p.get i * p.get j)).sum
  let c : Fin 3 → Fin 3 → K := fun i j => S2 i j - S1.get i * S1.get j / (n : K)
  ⟨⟨c 0 0, c 0 1, c 0 2⟩, ⟨c 1 0, c 1 1, c 1 2⟩, ⟨c 2 0, c 2 1, c 2 2⟩⟩

/-- A bundle of routines for evaluating the fitters on concrete point arrays:
the models above, an eigen-solver that is exact on diagonal matrices
(eigenvalues on the diagonal, unit vectors as rows), and, for the RSS
projector and the two merge operators, whose bodies are missing and which no
statement below evaluates, fixed values. -/
def Utility.model (sqrt : K → K) : Utility K where
  sqrt := sqrt
  getCovariance := fun ps _ _ _ n => getCovariance_model ps n
  eigen := fun M => (⟨M.r0.x, M.r1.y, M.r2.z⟩, Mat3.identity)
  getExtentAndCenter := fun ps _ _ _ n axis => getExtentAndCenter_model ps n axis
  getRadiusAndOriginAndRectangleSize := fun ps _ _ _ _ _ => (ps 0, 0, 0, 0)
  maximumDistance := fun ps _ _ _ n q => maximumDistance_model sqrt ps n q
  generateCoordinateSystem := generateCoordinateSystem_model sqrt
  circumCircleComputation := circumCircleComputation_model sqrt
  mergeOBB := fun a _ => a
  mergeRSS := fun a _ => a

/-! ## Predicates used in the statements -/

/-- The columns of `m` are unit vectors, orthogonal to one another. -/
def Mat3.ColsOrthonormal (m : Mat3 K) : Prop :=
  (m.col 0).squaredNorm = 1 ∧ (m.col 1).squaredNorm = 1 ∧ (m.col 2).squaredNorm = 1 ∧
  (m.col 0).dot (m.col 1) = 0 ∧ (m.col 0).dot (m.col 2) = 0 ∧
  (m.col 1).dot (m.col 2) = 0

/-- The rows of `m` are unit vectors, orthogonal to one another. -/
def Mat3.RowsOrthonormal (m : Mat3 K) : Prop :=
  (m.row 0).squaredNorm = 1 ∧ (m.row 1).squaredNorm = 1 ∧ (m.row 2).squaredNorm = 1 ∧
  (m.row 0).dot (m.row 1) = 0 ∧ (m.row 0).dot (m.row 2) = 0 ∧
  (m.row 1).dot (m.row 2) = 0

/-- The matrix `m` is a right-handed orthonormal frame: its columns are unit
vectors orthogonal to one another, its determinant is 1 and column 2 is the
cross product of columns 0 and 1. -/
def Mat3.IsRightHandedFrame (m : Mat3 K) : Prop :=
  m.ColsOrthonormal ∧ m.det = 1 ∧ m.col 2 = (m.col 0).cross (m.col 1)

instance (m : Mat3 K) : Decidable m.ColsOrthonormal := by
  unfold Mat3.ColsOrthonormal; infer_instance

instance (m : Mat3 K) : Decidable m.RowsOrthonormal := by
  unfold Mat3.RowsOrthonormal; infer_instance

instance (m : Mat3 K) : Decidable m.IsRightHandedFrame := by
  unfold Mat3.IsRightHandedFrame; infer_instance

/-- The matrix `A` is the frame of the triangle `p1 p2 p3`: with the edges
`e0 = p1 - p2`, `e1 = p2 - p3`, `e2 = p3 - p1`, column 2 is `e0 × e1` divided
by its norm and is perpendicular to the three edges, column 0 is the selected
edge `e[imax]` divided by its norm, column 1 is column 2 × column 0, and `A` is
a right-handed orthonormal frame. -/
def IsTriangleFrame (sqrt : K → K) (p1 p2 p3 : Vec3 K) (A : Mat3 K) : Prop :=
  A.col 2 = ((p1 - p2).cross (p2 - p3)).div (((p1 - p2).cross (p2 - p3)).norm sqrt) ∧
  ((A.col 2).dot (p1 - p2) = 0 ∧ (A.col 2).dot (p2 - p3) = 0 ∧
    (A.col 2).dot (p3 - p1) = 0) ∧
  A.col 0 =
    (arr3 (p1 - p2) (p2 - p3) (p3 - p1)
      (fit3_imax (arr3 (p1 - p2).squaredNorm (p2 - p3).squaredNorm
        (p3 - p1).squaredNorm))).div
    ((arr3 (p1 - p2) (p2 - p3) (p3 - p1)
      (fit3_imax (arr3 (p1 - p2).squaredNorm (p2 - p3).squaredNorm
        (p3 - p1).squaredNorm))).norm sqrt) ∧
  (A.col 0).squaredNorm = 1 ∧
  A.col 1 = (A.col 2).cross (A.col 0) ∧
  A.IsRightHandedFrame

instance (sqrt : K → K) (p1 p2 p3 : Vec3 K) (A : Mat3 K) :
    Decidable (IsTriangleFrame sqrt p1 p2 p3 A) := by
  unfold IsTriangleFrame; infer_instance

/-- The contract of the basis completion: on a matrix whose column 0 is a unit
vector it leaves column 0 as it is and returns an orthonormal frame. -/
def CompletesBasis (gcs : Mat3 K → Mat3 K) : Prop :=
  ∀ m : Mat3 K, (m.col 0).squaredNorm = 1 →
    (gcs m).col 0 = m.col 0 ∧ (gcs m).ColsOrthonormal

/-- One edge of the triangle `a b c` is strictly longer than the other two. -/
def UniqueLongestEdge (a b c : Vec3 K) : Prop :=
  ((a - b).squaredNorm > (b - c).squaredNorm ∧ (a - b).squaredNorm > (c - a).squaredNorm) ∨
  ((b - c).squaredNorm > (a - b).squaredNorm ∧ (b - c).squaredNorm > (c - a).squaredNorm) ∨
  ((c - a).squaredNorm > (a - b).squaredNorm ∧ (c - a).squaredNorm > (b - c).squaredNorm)

instance (a b c : Vec3 K) : Decidable (UniqueLongestEdge a b c) := by
  unfold UniqueLongestEdge; infer_instance

/-- The coordinates of `v` have magnitude at most `B`. -/
def Vec3.Within (B : K) (v : Vec3 K) : Prop :=
  |v.x| ≤ B ∧ |v.y| ≤ B ∧ |v.z| ≤ B

instance (B : K) (v : Vec3 K) : Decidable (v.Within B) := by
  unfold Vec3.Within; infer_instance

/-- The pair `p`, `q` is in the range in which the two-point routines neither
overflow nor underflow in binary64: the coordinates have magnitude at most
`2^500` (so no difference, sum or squared distance overflows) and the squared
distance is at least `2^(-1000)` (so it does not underflow, and the points are
distinct). -/
def SafePair (p q : Vec3 K) : Prop :=
  p.Within (2 ^ 500) ∧ q.Within (2 ^ 500) ∧ 1 / 2 ^ 1000 ≤ (p - q).squaredNorm

instance (p q : Vec3 K) : Decidable (SafePair p q) := by
  unfold SafePair; infer_instance

/-- The triangle `p1 p2 p3` is in the range in which the three-point routines
neither overflow nor underflow in binary64 and is not a sliver: the coordinates
have magnitude at most `2^250` (so the squared norm of the cross product of two
edges does not overflow), the squared norm of `e0 × e1` is at least `2^(-400)`,
and it is at least `2^(-40)` times the square of the sum of the squared edge
lengths (every angle of the triangle has sine at least `2^(-20)`, so the
cancellation in the cross product leaves it well above its rounding error). -/
def SafeTriangle (p1 p2 p3 : Vec3 K) : Prop :=
  p1.Within (2 ^ 250) ∧ p2.Within (2 ^ 250) ∧ p3.Within (2 ^ 250) ∧
  1 / 2 ^ 400 ≤ ((p1 - p2).cross (p2 - p3)).squaredNorm ∧
  ((p1 - p2).squaredNorm + (p2 - p3).squaredNorm + (p3 - p1).squaredNorm) *
      ((p1 - p2).squaredNorm + (p2 - p3).squaredNorm + (p3 - p1).squaredNorm) ≤
    2 ^ 40 * ((p1 - p2).cross (p2 - p3)).squaredNorm

instance (p1 p2 p3 : Vec3 K) : Decidable (SafeTriangle p1 p2 p3) := by
  unfold SafeTriangle; infer_instance

/-- One edge of the triangle `a b c` is longer than the other two by a margin
that the rounding of the squared lengths in binary64 cannot close: its squared
length is greater than `1 + 2^(-40)` times each of the other two. -/
def SeparatedLongestEdge (a b c : Vec3 K) : Prop :=
  ((a - b).squaredNorm > (1 + 1 / 2 ^ 40) * (b - c).squaredNorm ∧
    (a - b).squaredNorm > (1 + 1 / 2 ^ 40) * (c - a).squaredNorm) ∨
  ((b - c).squaredNorm > (1 + 1 / 2 ^ 40) * (a - b).squaredNorm ∧
    (b - c).squaredNorm > (1 + 1 / 2 ^ 40) * (c - a).squaredNorm) ∨
  ((c - a).squaredNorm > (1 + 1 / 2 ^ 40) * (a - b).squaredNorm ∧
    (c - a).squaredNorm > (1 + 1 / 2 ^ 40) * (b - c).squaredNorm)

instance (a b c : Vec3 K) : Decidable (SeparatedLongestEdge a b c) := by
  unfold SeparatedLongestEdge; infer_instance

/-- The matrix `A` is a frame of the triangle `p1 p2 p3` along one of its
longest edges: with the edges `e0 = p1 - p2`, `e1 = p2 - p3`, `e2 = p3 - p1`,
column 2 is `e0 × e1` divided by its norm and is perpendicular to the three
edges; column 0 is one of the edges divided by its norm, an edge than which no
edge is longer by more than the factor `1 + 2^(-40)` in squared length (the
slack covers the rounding of the squared lengths in binary64); column 1 is
column 2 × column 0; and `A` is a right-handed orthonormal frame. -/
def IsLongEdgeFrame (sqrt : K → K) (p1 p2 p3 : Vec3 K) (A : Mat3 K) : Prop :=
  A.col 2 = ((p1 - p2).cross (p2 - p3)).div (((p1 - p2).cross (p2 - p3)).norm sqrt) ∧
  ((A.col 2).dot (p1 - p2) = 0 ∧ (A.col 2).dot (p2 - p3) = 0 ∧
    (A.col 2).dot (p3 - p1) = 0) ∧
  (∃ i : Fin 3,
    A.col 0 = (arr3 (p1 - p2) (p2 - p3) (p3 - p1) i).div
      ((arr3 (p1 - p2) (p2 - p3) (p3 - p1) i).norm sqrt) ∧
    ∀ j : Fin 3, (arr3 (p1 - p2) (p2 - p3) (p3 - p1) j).squaredNorm ≤
      (1 + 1 / 2 ^ 40) * (arr3 (p1 - p2) (p2 - p3) (p3 - p1) i).squaredNorm) ∧
  (A.col 0).squaredNorm = 1 ∧
  A.col 1 = (A.col 2).cross (A.col 0) ∧
  A.IsRightHandedFrame

instance (sqrt : K → K) (p1 p2 p3 : Vec3 K) (A : Mat3 K) :
    Decidable (IsLongEdgeFrame sqrt p1 p2 p3 A) := by
  unfold IsLongEdgeFrame; infer_instance

end Models

/-! ## Binary64

The type `FCL_REAL` is `double`.  The definitions above are stated for any type
with the arithmetic operations and the comparison of the source; `F64` is IEEE
754 binary64 with rounding to nearest, ties to even, on which the fitting
routines can be evaluated with their overflow, underflow and rounding. -/

/-- A value of IEEE 754 binary64 (`double`, the type `FCL_REAL`): not-a-number, an
infinity, or the finite number `(-1)^neg * m * 2^e`.  Finite values are kept in
canonical form: `m < 2^53`, `-1074 ≤ e ≤ 971`, and `2^52 ≤ m` unless
`e = -1074` (subnormal numbers and the two zeros). -/
inductive F64 where
  | nan : F64
  | inf (neg : Bool) : F64
  | fin (neg : Bool) (m : Nat) (e : Int) : F64
deriving DecidableEq

namespace F64

/-- The number of binary digits of `n`, by halving (`fuel` bounds the number of
halvings). -/
def bitLenGo : Nat → Nat → Nat
  | 0, _ => 0
  | fuel + 1, n => if n = 0 then 0 else bitLenGo fuel (n / 2) + 1

/-- The number of binary digits of `n < 2^8192`, by bisection on the exponent. -/
def bitLenSmall (n : Nat) : Nat :=
  if n = 0 then 0
  else
    let a : Nat := 0
    let a : Nat := if 2 ^ (a + 4096) ≤ n then a + 4096 else a
    let a : Nat := if 2 ^ (a + 2048) ≤ n then a + 2048 else a
    let a : Nat := if 2 ^ (a + 1024) ≤ n then a + 1024 else a
    let a : Nat := if 2 ^ (a + 512) ≤ n then a + 512 else a
    let a : Nat := if 2 ^ (a + 256) ≤ n then a + 256 else a
    let a : Nat := if 2 ^ (a + 128) ≤ n then a + 128 else a
    let a : Nat := if 2 ^ (a + 64) ≤ n then a + 64 else a
    let a : Nat := if 2 ^ (a + 32) ≤ n then a + 32 else a
    let a : Nat := if 2 ^ (a + 16) ≤ n then a + 16 else a
    let a : Nat := if 2 ^ (a + 8) ≤ n then a + 8 else a
    let a : Nat := if 2 ^ (a + 4) ≤ n then a + 4 else a
    let a : Nat := if 2 ^ (a + 2) ≤ n then a + 2 else a
    let a : Nat := if 2 ^ (a + 1) ≤ n then a + 1 else a
    a + 1

/-- The number of binary digits of `n`: the least `k` with `n < 2^k`. -/
def bitLen (n : Nat) : Nat := if n < 2 ^ 8192 then bitLenSmall n else bitLenGo n n

/-- Digit-by-digit integer square root: `r` is the root found so far, `k` the
number of binary digits still to decide. -/
def isqrtGo (n : Nat) : Nat → Nat → Nat
  | 0, r => r
  | k + 1, r =>
    if (r + 2 ^ k) * (r + 2 ^ k) ≤ n then isqrtGo n k (r + 2 ^ k) else isqrtGo n k r

/-- The integer square root: the greatest `r` with `r * r ≤ n`. -/
def isqrt (n : Nat) : Nat := isqrtGo n (bitLen n / 2 + 1) 0

/-- Rounding to nearest, ties to even, of `(-1)^neg * (n + t) * 2^e` where
`0 < t < 1` when `sticky` holds and `t = 0` otherwise; overflow gives an
infinity.  An inexact `n` must have more than 53 binary digits. -/
def round (neg : Bool) (n : Nat) (e : Int) (sticky : Bool) : F64 :=
  if n = 0 then fin neg 0 (-1074)
  else
    let e' : Int := max (e + (bitLen n : Nat) - 53) (-1074)
    if e' ≤ e then
      if e' > 971 then inf neg else fin neg (n * 2 ^ (e - e').toNat) e'
    else
      let sh : Nat := (e' - e).toNat
      let q : Nat := n / 2 ^ sh
      let r : Nat := n % 2 ^ sh
      let half : Nat := 2 ^ (sh - 1)
      let up : Bool := decide (half < r) || (decide (r = half) && (sticky || decide (q % 2 = 1)))
      let q : Nat := if up then q + 1 else q
      let e' : Int := if q = 2 ^ 53 then e' + 1 else e'
      let q : Nat := if q = 2 ^ 53 then 2 ^ 52 else q
      if e' > 971 then inf neg else fin neg q e'

/-- The integer `(-1)^neg * m * 2^(e - g)`, for `g ≤ e`. -/
def scaled (neg : Bool) (m : Nat) (e g : Int) : Int :=
  if neg then -((m * 2 ^ (e - g).toNat : Nat) : Int) else ((m * 2 ^ (e - g).toNat : Nat) : Int)

/-- Negation: the sign is flipped. -/
def neg : F64 → F64
  | nan => nan
  | inf s => inf (!s)
  | fin s m e => fin (!s) m e

/-- Addition, correctly rounded. -/
def add : F64 → F64 → F64
  | nan, _ => nan
  | _, nan => nan
  | inf s, inf t => if s = t then inf s else nan
  | inf s, fin _ _ _ => inf s
  | fin _ _ _, inf t => inf t
  | fin s m e, fin t n f =>
    let g : Int := min e f
    let c : Int := scaled s m e g + scaled t n f g
    if c = 0 then fin (s && t) 0 (-1074)
    else round (decide (c < 0)) c.natAbs g false

/-- Subtraction `a - b = a + (-b)`. -/
def sub (a b : F64) : F64 := add a (neg b)

/-- Multiplication, correctly rounded. -/
def mul : F64 → F64 → F64
  | nan, _ => nan
  | _, nan => nan
  | inf s, inf t => inf (xor s t)
  | inf s, fin t n _ => if n = 0 then nan else inf (xor s t)
  | fin s m _, inf t => if m = 0 then nan else inf (xor s t)
  | fin s m e, fin t n f => round (xor s t) (m * n) (e + f) false

/-- Division, correctly rounded. -/
def div : F64 → F64 → F64
  | nan, _ => nan
  | _, nan => nan
  | inf _, inf _ => nan
  | inf s, fin t _ _ => inf (xor s t)
  | fin s _ _, inf t => fin (xor s t) 0 (-1074)
  | fin s m e, fin t n f =>
    if n = 0 then (if m = 0 then nan else inf (xor s t))
    else round (xor s t) (m * 2 ^ 128 / n) (e - f - 128) (decide (m * 2 ^ 128 % n ≠ 0))

/-- Square root, correctly rounded (`std::sqrt`). -/
def sqrt : F64 → F64
  | nan => nan
  | inf s => if s then nan else inf false
  | fin s m e =>
    if m = 0 then fin s 0 (-1074)
    else if s then nan
    else
      let k : Nat := if e % 2 = 0 then 128 else 129
      round false (isqrt (m * 2 ^ k)) ((e - k) / 2)
        (decide (isqrt (m * 2 ^ k) * isqrt (m * 2 ^ k) ≠ m * 2 ^ k))

/-- Comparison `a < b`; false when an operand is not a number. -/
def blt : F64 → F64 → Bool
  | nan, _ => false
  | _, nan => false
  | inf s, inf t => s && !t
  | inf s, fin _ _ _ => s
  | fin _ _ _, inf t => !t
  | fin s m e, fin t n f => decide (scaled s m e (min e f) < scaled t n f (min e f))

/-- Comparison `a <= b`; false when an operand is not a number. -/
def ble : F64 → F64 → Bool
  | nan, _ => false
  | _, nan => false
  | inf s, inf t => s || !t
  | inf s, fin _ _ _ => s
  | fin _ _ _, inf t => !t
  | fin s m e, fin t n f => decide (scaled s m e (min e f) ≤ scaled t n f (min e f))

/-- The binary64 value of the decimal literal `m * 10^e` (or `m * 10^(-e)` when
`negExp` holds). -/
def ofSci (m : Nat) (negExp : Bool) (e : Nat) : F64 :=
  if negExp then
    round false (m * 2 ^ (128 + 4 * e) / 10 ^ e) (-((128 + 4 * e : Nat) : Int))
      (decide (m * 2 ^ (128 + 4 * e) % 10 ^ e ≠ 0))
  else round false (m * 10 ^ e) 0 false

instance : Zero F64 := ⟨fin false 0 (-1074)⟩
instance : One F64 := ⟨fin false (2 ^ 52) (-52)⟩
instance : Add F64 := ⟨add⟩
instance : Sub F64 := ⟨sub⟩
instance : Neg F64 := ⟨neg⟩
instance : Mul F64 := ⟨mul⟩
instance : Div F64 := ⟨div⟩
instance : LT F64 := ⟨fun a b => blt a b = true⟩
instance : LE F64 := ⟨fun a b => ble a b = true⟩
instance : DecidableRel (fun a b : F64 => a < b) := fun a b =>
  inferInstanceAs (Decidable (blt a b = true))
instance : OfScientific F64 := ⟨ofSci⟩
instance : NatCast F64 := ⟨fun n => round false n 0 false⟩

/-- The binary64 value of `2^e` (an infinity above the range, zero below it). -/
def twoPow (e : Int) : F64 := round false 1 e false

end F64

/-- The exact value of a finite binary64 number, as a rational (zero for the
infinities and for not-a-number). -/
def F64.toRat : F64 → ℚ
  | F64.nan => 0
  | F64.inf _ => 0
  | F64.fin s m e => (if s then -1 else 1) * (m : ℚ) * (2 : ℚ) ^ e

/-- The exact coordinates of a binary64 vector. -/
def Vec3.toRat (v : Vec3 F64) : Vec3 ℚ := ⟨v.x.toRat, v.y.toRat, v.z.toRat⟩

/-! # Theorems -/

section Basic

variable {K : Type} [LinearOrderedField K]

@[simp] theorem Vec3.add_x (a b : Vec3 K) : (a + b).x = a.x + b.x := rfl
@[simp] theorem Vec3.add_y (a b : Vec3 K) : (a + b).y = a.y + b.y := rfl
@[simp] theorem Vec3.add_z (a b : Vec3 K) : (a + b).z = a.z + b.z := rfl
@[simp] theorem Vec3.sub_x (a b : Vec3 K) : (a - b).x = a.x - b.x := rfl
@[simp] theorem Vec3.sub_y (a b : Vec3 K) : (a - b).y = a.y - b.y := rfl
@[simp] theorem Vec3.sub_z (a b : Vec3 K) : (a - b).z = a.z - b.z := rfl
@[simp] theorem Vec3.smul_x (c : K) (a : Vec3 K) : (c • a).x = c * a.x := rfl
@[simp] theorem Vec3.smul_y (c : K) (a : Vec3 K) : (c • a).y = c * a.y := rfl
@[simp] theorem Vec3.smul_z (c : K) (a : Vec3 K) : (c • a).z = c * a.z := rfl
@[simp] theorem Vec3.zero_x : (0 : Vec3 K).x = 0 := rfl
@[simp] theorem Vec3.zero_y : (0 : Vec3 K).y = 0 := rfl
@[simp] theorem Vec3.zero_z : (0 : Vec3 K).z = 0 := rfl
@[simp] theorem Vec3.div_x (a : Vec3 K) (c : K) : (a.div c).x = a.x / c := rfl
@[simp] theorem Vec3.div_y (a : Vec3 K) (c : K) : (a.div c).y = a.y / c := rfl
@[simp] theorem Vec3.div_z (a : Vec3 K) (c : K) : (a.div c).z = a.z / c := rfl
@[simp] theorem Vec3.get_zero (v : Vec3 K) : v.get 0 = v.x := rfl
@[simp] theorem Vec3.get_one (v : Vec3 K) : v.get 1 = v.y := rfl
@[simp] theorem Vec3.get_two (v : Vec3 K) : v.get 2 = v.z := rfl

theorem Mat3.col_setCol_same (m : Mat3 K) (j : Fin 3) (v : Vec3 K) :
    (m.setCol j v).col j = v := by
  fin_cases j <;> rfl

theorem Mat3.col_setCol_ne (m : Mat3 K) {i j : Fin 3} (h : i ≠ j) (v : Vec3 K) :
    (m.setCol j v).col i = m.col i := by
  fin_cases i <;> fin_cases j <;> first | rfl | exact absurd rfl h

@[simp] theorem Mat3.col0_setCol0 (m : Mat3 K) (v : Vec3 K) : (m.setCol 0 v).col 0 = v := rfl
@[simp] theorem Mat3.col1_setCol1 (m : Mat3 K) (v : Vec3 K) : (m.setCol 1 v).col 1 = v := rfl
@[simp] theorem Mat3.col2_setCol2 (m : Mat3 K) (v : Vec3 K) : (m.setCol 2 v).col 2 = v := rfl
@[simp] theorem Mat3.col0_setCol1 (m : Mat3 K) (v : Vec3 K) :
    (m.setCol 1 v).col 0 = m.col 0 := rfl
@[simp] theorem Mat3.col0_setCol2 (m : Mat3 K) (v : Vec3 K) :
    (m.setCol 2 v).col 0 = m.col 0 := rfl
@[simp] theorem Mat3.col1_setCol0 (m : Mat3 K) (v : Vec3 K) :
    (m.setCol 0 v).col 1 = m.col 1 := rfl
@[simp] theorem Mat3.col1_setCol2 (m : Mat3 K) (v : Vec3 K) :
    (m.setCol 2 v).col 1 = m.col 1 := rfl
@[simp] theorem Mat3.col2_setCol0 (m : Mat3 K) (v : Vec3 K) :
    (m.setCol 0 v).col 2 = m.col 2 := rfl
@[simp] theorem Mat3.col2_setCol1 (m : Mat3 K) (v : Vec3 K) :
    (m.setCol 1 v).col 2 = m.col 2 := rfl

@[simp] theorem OBB.setAxis_axis (bv : OBB K) (m : Mat3 K) : (bv.setAxis m).axis = m := rfl
@[simp] theorem OBB.setAxis_To (bv : OBB K) (m : Mat3 K) : (bv.setAxis m).To = bv.To := rfl
@[simp] theorem OBB.setAxis_extent (bv : OBB K) (m : Mat3 K) :
    (bv.setAxis m).extent = bv.extent := rfl
@[simp] theorem OBB.setTo_axis (bv : OBB K) (v : Vec3 K) : (bv.setTo v).axis = bv.axis := rfl
@[simp] theorem OBB.setTo_To (bv : OBB K) (v : Vec3 K) : (bv.setTo v).To = v := rfl
@[simp] theorem OBB.setTo_extent (bv : OBB K) (v : Vec3 K) :
    (bv.setTo v).extent = bv.extent := rfl
@[simp] theorem OBB.setExtent_axis (bv : OBB K) (v : Vec3 K) :
    (bv.setExtent v).axis = bv.axis := rfl
@[simp] theorem OBB.setExtent_To (bv : OBB K) (v : Vec3 K) : (bv.setExtent v).To = bv.To := rfl
@[simp] theorem OBB.setExtent_extent (bv : OBB K) (v : Vec3 K) :
    (bv.setExtent v).extent = v := rfl

@[simp] theorem kIOS.setNum_num (bv : kIOS K) (k : Nat) : (bv.setNum k).num_spheres = k := rfl
@[simp] theorem kIOS.setNum_obb (bv : kIOS K) (k : Nat) : (bv.setNum k).obb = bv.obb := rfl
@[simp] theorem kIOS.setNum_spheres (bv : kIOS K) (k : Nat) :
    (bv.setNum k).spheres = bv.spheres := rfl
@[simp] theorem kIOS.setObb_num (bv : kIOS K) (b : OBB K) :
    (bv.setObb b).num_spheres = bv.num_spheres := rfl
@[simp] theorem kIOS.setObb_obb (bv : kIOS K) (b : OBB K) : (bv.setObb b).obb = b := rfl
@[simp] theorem kIOS.setObb_spheres (bv : kIOS K) (b : OBB K) :
    (bv.setObb b).spheres = bv.spheres := rfl
@[simp] theorem kIOS.setO_num (bv : kIOS K) (i : Fin 5) (o : Vec3 K) :
    (bv.setO i o).num_spheres = bv.num_spheres := rfl
@[simp] theorem kIOS.setO_obb (bv : kIOS K) (i : Fin 5) (o : Vec3 K) :
    (bv.setO i o).obb = bv.obb := rfl
@[simp] theorem kIOS.setR_num (bv : kIOS K) (i : Fin 5) (r : K) :
    (bv.setR i r).num_spheres = bv.num_spheres := rfl
@[simp] theorem kIOS.setR_obb (bv : kIOS K) (i : Fin 5) (r : K) :
    (bv.setR i r).obb = bv.obb := rfl

theorem kIOS.setO_spheres (bv : kIOS K) (i j : Fin 5) (o : Vec3 K) :
    (bv.setO i o).spheres j = if j = i then ⟨o, (bv.spheres i).r⟩ else bv.spheres j := by
  unfold kIOS.setO
  by_cases h : j = i
  · subst h; simp
  · simp [Function.update_noteq h, h]

theorem kIOS.setR_spheres (bv : kIOS K) (i j : Fin 5) (r : K) :
    (bv.setR i r).spheres j = if j = i then ⟨(bv.spheres i).o, r⟩ else bv.spheres j := by
  unfold kIOS.setR
  by_cases h : j = i
  · subst h; simp
  · simp [Function.update_noteq h, h]

@[simp] theorem kIOS_decide_k_obb (extent : Vec3 K) (bv : kIOS K) :
    (kIOS_decide_k extent bv).obb = bv.obb := by
  unfold kIOS_decide_k; split_ifs <;> rfl

@[simp] theorem kIOS_decide_k_spheres (extent : Vec3 K) (bv : kIOS K) :
    (kIOS_decide_k extent bv).spheres = bv.spheres := by
  unfold kIOS_decide_k; split_ifs <;> rfl

theorem kIOS_decide_k_num (extent : Vec3 K) (bv : kIOS K) :
    (kIOS_decide_k extent bv).num_spheres =
      if extent.get 0 ≤ 1.5 * extent.get 2 then 1
      else if extent.get 0 ≤ 1.5 * extent.get 1 then 3 else 5 := by
  unfold kIOS_decide_k kIOS_RATIO
  split_ifs <;> first | rfl | (exfalso; linarith)

@[simp] theorem kIOS_spheres_12_num (sqrt : K → K) (maxDist : Vec3 K → K)
    (center extent : Vec3 K) (r0 : K) (bv : kIOS K) :
    (kIOS_spheres_12 sqrt maxDist center extent r0 bv).num_spheres = bv.num_spheres := by
  unfold kIOS_spheres_12; split_ifs <;> rfl

@[simp] theorem kIOS_spheres_12_obb (sqrt : K → K) (maxDist : Vec3 K → K)
    (center extent : Vec3 K) (r0 : K) (bv : kIOS K) :
    (kIOS_spheres_12 sqrt maxDist center extent r0 bv).obb = bv.obb := by
  unfold kIOS_spheres_12; split_ifs <;> rfl

@[simp] theorem kIOS_spheres_12_zero (sqrt : K → K) (maxDist : Vec3 K → K)
    (center extent : Vec3 K) (r0 : K) (bv : kIOS K) :
    (kIOS_spheres_12 sqrt maxDist center extent r0 bv).spheres 0 = bv.spheres 0 := by
  unfold kIOS_spheres_12; split_ifs <;> rfl

@[simp] theorem kIOS_spheres_34_num (sqrt : K → K) (maxDist : Vec3 K → K)
    (extent : Vec3 K) (bv : kIOS K) :
    (kIOS_spheres_34 sqrt maxDist extent bv).num_spheres = bv.num_spheres := by
  unfold kIOS_spheres_34; split_ifs <;> rfl

@[simp] theorem kIOS_spheres_34_obb (sqrt : K → K) (maxDist : Vec3 K → K)
    (extent : Vec3 K) (bv : kIOS K) :
    (kIOS_spheres_34 sqrt maxDist extent bv).obb = bv.obb := by
  unfold kIOS_spheres_34; split_ifs <;> rfl

@[simp] theorem kIOS_spheres_34_zero (sqrt : K → K) (maxDist : Vec3 K → K)
    (extent : Vec3 K) (bv : kIOS K) :
    (kIOS_spheres_34 sqrt maxDist extent bv).spheres 0 = bv.spheres 0 := by
  unfold kIOS_spheres_34; split_ifs <;> rfl

theorem kIOS_fitn_num (U : Utility K) (ps : Ptr K) (n : Int) (bv : kIOS K) :
    (kIOS_fit_functions.fitn U ps n bv).num_spheres =
      if (kIOS_fit_functions.fitn U ps n bv).obb.extent.get 0 ≤
          1.5 * (kIOS_fit_functions.fitn U ps n bv).obb.extent.get 2 then 1
      else if (kIOS_fit_functions.fitn U ps n bv).obb.extent.get 0 ≤
          1.5 * (kIOS_fit_functions.fitn U ps n bv).obb.extent.get 1 then 3
      else 5 := by
  simp only [kIOS_fit_functions.fitn, kIOS_spheres_34_num, kIOS_spheres_12_num,
    kIOS.setR_num, kIOS.setO_num, kIOS_decide_k_num, kIOS_spheres_34_obb,
    kIOS_spheres_12_obb, kIOS.setR_obb, kIOS.setO_obb, kIOS_decide_k_obb,
    kIOS.setObb_obb, OBB.setExtent_extent]

theorem BVFitter_kIOS_num (U : Utility K) (F : BVFitter K)
    (primitive_indices : Option (Nat → Nat)) (num_primitives : Int) (bv : kIOS K) :
    (BVFitter.fit_kIOS U F primitive_indices num_primitives bv).num_spheres =
      if (BVFitter.fit_kIOS U F primitive_indices num_primitives bv).obb.extent.get 0 ≤
          1.5 * (BVFitter.fit_kIOS U F primitive_indices num_primitives bv).obb.extent.get 2
      then 1
      else if (BVFitter.fit_kIOS U F primitive_indices num_primitives bv).obb.extent.get 0 ≤
          1.5 * (BVFitter.fit_kIOS U F primitive_indices num_primitives bv).obb.extent.get 1
      then 3
      else 5 := by
  simp only [BVFitter.fit_kIOS, kIOS_spheres_34_num, kIOS_spheres_12_num,
    kIOS.setR_num, kIOS.setO_num, kIOS_decide_k_num, kIOS_spheres_34_obb,
    kIOS_spheres_12_obb, kIOS.setR_obb, kIOS.setO_obb, kIOS_decide_k_obb,
    kIOS.setObb_obb, OBB.setExtent_extent]

end Basic

/-! ## The axis orderer -/

section AxisOrder

variable {K : Type} [LinearOrderedField K]

/-- C2. For every eigenvalue triple `s` and eigenvector matrix `E`, the indices
`(min, mid, max)` picked by `axisFromEigen` are pairwise distinct (a permutation
of 0, 1, 2) with `s[max] ≥ s[mid] ≥ s[min]`; column 0 of the result is row `max`
of `E`, column 1 is row `mid` of `E`, and column 2 is the cross product of
these two (row `min` of `E` is not read). -/
theorem axisFromEigen_sorted_rows (E : Mat3 K) (s : Vec3 K) (axis : Mat3 K) :
    ((eigenOrder s).2.2 ≠ (eigenOrder s).2.1 ∧ (eigenOrder s).2.1 ≠ (eigenOrder s).1 ∧
      (eigenOrder s).2.2 ≠ (eigenOrder s).1) ∧
    s.get (eigenOrder s).2.2 ≥ s.get (eigenOrder s).2.1 ∧
    s.get (eigenOrder s).2.1 ≥ s.get (eigenOrder s).1 ∧
    (axisFromEigen E s axis).col 0 = E.row (eigenOrder s).2.2 ∧
    (axisFromEigen E s axis).col 1 = E.row (eigenOrder s).2.1 ∧
    (axisFromEigen E s axis).col 2 =
      (E.row (eigenOrder s).2.2).cross (E.row (eigenOrder s).2.1) := by
  refine ⟨?_, ?_, ?_, ?_, ?_, ?_⟩
  · unfold eigenOrder
    simp only []
    split_ifs <;> simp
  · unfold eigenOrder
    simp only []
    split_ifs <;> simp_all <;> linarith
  · unfold eigenOrder
    simp only []
    split_ifs <;> simp_all <;> linarith
  · simp [axisFromEigen]
  · simp [axisFromEigen]
  · simp [axisFromEigen]

/-- C8. For every triple of squared edge lengths the index `imax` chosen by
`fit3` is that of a greatest entry, and every earlier entry is strictly
smaller: on ties the first edge in the order 0, 1, 2 is taken. -/
theorem fit3_imax_first_longest (len : Fin 3 → K) :
    (∀ i : Fin 3, len i ≤ len (fit3_imax len)) ∧
    (∀ j : Fin 3, j < fit3_imax len → len j < len (fit3_imax len)) := by
  unfold fit3_imax
  simp only []
  constructor
  · intro i
    fin_cases i <;> split_ifs <;> simp_all <;> linarith
  · intro j
    fin_cases j <;> split_ifs <;> simp_all <;> linarith

end AxisOrder

/-! ## Single points and sphere counts -/

section Counts

variable {K : Type} [LinearOrderedField K]

/-- C4. For every point `ps[0]`, the direct fit of that single point (`n = 1`)
is the degenerate volume: the OBB has centre `ps[0]`, identity axes and zero
extent; the RSS has origin `ps[0]`, identity axes, zero lengths and radius;
the kIOS has one sphere, centred at `ps[0]` with radius 0, and the degenerate
OBB; the OBBRSS is the pair of the degenerate OBB and RSS. -/
theorem fit_one_point_degenerate (U : Utility K) (ps : Ptr K)
    (bo : OBB K) (br : RSS K) (bk : kIOS K) (bh : OBBRSS K) :
    fit_OBB U ps 1 bo = ⟨Mat3.identity, ps 0, ⟨0, 0, 0⟩⟩ ∧
    fit_RSS U ps 1 br = ⟨Mat3.identity, ps 0, 0, 0, 0⟩ ∧
    ((fit_kIOS U ps 1 bk).num_spheres = 1 ∧
      ((fit_kIOS U ps 1 bk).spheres 0).o = ps 0 ∧
      ((fit_kIOS U ps 1 bk).spheres 0).r = 0 ∧
      (fit_kIOS U ps 1 bk).obb = ⟨Mat3.identity, ps 0, ⟨0, 0, 0⟩⟩) ∧
    fit_OBBRSS U ps 1 bh =
      ⟨⟨Mat3.identity, ps 0, ⟨0, 0, 0⟩⟩, ⟨Mat3.identity, ps 0, 0, 0, 0⟩⟩ := by
  refine ⟨rfl, rfl, ⟨rfl, ?_, ?_, rfl⟩, rfl⟩
  · simp [fit_kIOS, kIOS_fit_functions.fit1, kIOS.setO_spheres, kIOS.setR_spheres]
  · simp [fit_kIOS, kIOS_fit_functions.fit1, kIOS.setO_spheres, kIOS.setR_spheres]

/-- In exact arithmetic (a linearly ordered field) the branches of the general-n
path read: the sphere count is 1 if `extent0 ≤ 1.5 * extent2`, otherwise 3 if
`extent0 ≤ 1.5 * extent1`, otherwise 5. -/
theorem kIOS_num_spheres_exact (U : Utility K) (ps : Ptr K) (n : Int)
    (F : BVFitter K) (primitive_indices : Option (Nat → Nat)) (num_primitives : Int)
    (bv : kIOS K) :
    (kIOS_fit_functions.fitn U ps n bv).num_spheres =
      (if (kIOS_fit_functions.fitn U ps n bv).obb.extent.get 0 ≤
            1.5 * (kIOS_fit_functions.fitn U ps n bv).obb.extent.get 2 then 1
       else if (kIOS_fit_functions.fitn U ps n bv).obb.extent.get 0 ≤
            1.5 * (kIOS_fit_functions.fitn U ps n bv).obb.extent.get 1 then 3
       else 5) ∧
    (BVFitter.fit_kIOS U F primitive_indices num_primitives bv).num_spheres =
      (if (BVFitter.fit_kIOS U F primitive_indices num_primitives bv).obb.extent.get 0 ≤
            1.5 * (BVFitter.fit_kIOS U F primitive_indices num_primitives bv).obb.extent.get 2
        then 1
       else if (BVFitter.fit_kIOS U F primitive_indices num_primitives bv).obb.extent.get 0 ≤
            1.5 * (BVFitter.fit_kIOS U F primitive_indices num_primitives bv).obb.extent.get 1
        then 3
       else 5) ∧
    ((kIOS_fit_functions.fitn U ps n bv).num_spheres = 1 ∨
      (kIOS_fit_functions.fitn U ps n bv).num_spheres = 3 ∨
      (kIOS_fit_functions.fitn U ps n bv).num_spheres = 5) ∧
    ((BVFitter.fit_kIOS U F primitive_indices num_primitives bv).num_spheres = 1 ∨
      (BVFitter.fit_kIOS U F primitive_indices num_primitives bv).num_spheres = 3 ∨
      (BVFitter.fit_kIOS U F primitive_indices num_primitives bv).num_spheres = 5) ∧
    (kIOS_fit_functions.fit1 ps bv).num_spheres = 1 ∧
    (kIOS_fit_functions.fit2 U ps bv).num_spheres = 5 ∧
    (kIOS_fit_functions.fit3 U ps bv).num_spheres = 3 := by
  refine ⟨kIOS_fitn_num U ps n bv, BVFitter_kIOS_num U F primitive_indices num_primitives bv,
    ?_, ?_, rfl, rfl, rfl⟩
  · rw [kIOS_fitn_num]
    split_ifs <;> simp
  · rw [BVFitter_kIOS_num]
    split_ifs <;> simp

end Counts

/-! ## Vector algebra -/

section Geometry

variable {K : Type} [LinearOrderedField K]

theorem Vec3.dot_comm (a b : Vec3 K) : a.dot b = b.dot a := by
  simp only [Vec3.dot]; ring

theorem Vec3.squaredNorm_nonneg (v : Vec3 K) : 0 ≤ v.squaredNorm := by
  simp only [Vec3.squaredNorm, Vec3.dot]
  nlinarith [mul_self_nonneg v.x, mul_self_nonneg v.y, mul_self_nonneg v.z]

theorem Vec3.eq_zero_of_squaredNorm_eq_zero (v : Vec3 K) (h : v.squaredNorm = 0) :
    v = 0 := by
  simp only [Vec3.squaredNorm, Vec3.dot] at h
  have hx : v.x = 0 := by
    nlinarith [mul_self_nonneg v.x, mul_self_nonneg v.y, mul_self_nonneg v.z]
  have hy : v.y = 0 := by
    nlinarith [mul_self_nonneg v.x, mul_self_nonneg v.y, mul_self_nonneg v.z]
  have hz : v.z = 0 := by
    nlinarith [mul_self_nonneg v.x, mul_self_nonneg v.y, mul_self_nonneg v.z]
  ext <;> simp [hx, hy, hz]

theorem Vec3.squaredNorm_pos (v : Vec3 K) (h : v ≠ 0) : 0 < v.squaredNorm :=
  lt_of_le_of_ne v.squaredNorm_nonneg
    (fun h0 => h (v.eq_zero_of_squaredNorm_eq_zero h0.symm))

theorem Vec3.sub_ne_zero_of_ne {a b : Vec3 K} (h : a ≠ b) : a - b ≠ 0 := by
  intro h0
  apply h
  have hx : (a - b).x = 0 := by rw [h0]; rfl
  have hy : (a - b).y = 0 := by rw [h0]; rfl
  have hz : (a - b).z = 0 := by rw [h0]; rfl
  simp only [Vec3.sub_x, Vec3.sub_y, Vec3.sub_z] at hx hy hz
  ext
  · linarith
  · linarith
  · linarith

theorem Vec3.cross_squaredNorm (a b : Vec3 K) :
    (a.cross b).squaredNorm = a.squaredNorm * b.squaredNorm - a.dot b * a.dot b := by
  simp only [Vec3.squaredNorm, Vec3.dot, Vec3.cross]; ring

theorem Vec3.dot_cross_left (a b : Vec3 K) : a.dot (a.cross b) = 0 := by
  simp only [Vec3.dot, Vec3.cross]; ring

theorem Vec3.dot_cross_right (a b : Vec3 K) : b.dot (a.cross b) = 0 := by
  simp only [Vec3.dot, Vec3.cross]; ring

theorem Vec3.cross_cross_self (a c : Vec3 K) (ha : a.squaredNorm = 1) (hac : a.dot c = 0) :
    a.cross (c.cross a) = c := by
  simp only [Vec3.squaredNorm, Vec3.dot] at ha hac
  ext
  · simp only [Vec3.cross]
    linear_combination c.x * ha - a.x * hac
  · simp only [Vec3.cross]
    linear_combination c.y * ha - a.y * hac
  · simp only [Vec3.cross]
    linear_combination c.z * ha - a.z * hac

theorem Mat3.det_eq_cols (m : Mat3 K) :
    m.det = (m.col 0).dot ((m.col 1).cross (m.col 2)) := by
  simp only [Mat3.det, Mat3.col, Vec3.dot, Vec3.cross, Vec3.get_zero, Vec3.get_one,
    Vec3.get_two]
  ring

theorem Mat3.eq_of_cols {m m' : Mat3 K} (h0 : m.col 0 = m'.col 0) (h1 : m.col 1 = m'.col 1)
    (h2 : m.col 2 = m'.col 2) : m = m' := by
  simp only [Mat3.col, Vec3.get_zero, Vec3.get_one, Vec3.get_two, Vec3.mk.injEq] at h0 h1 h2
  obtain ⟨a0, a1, a2⟩ := h0
  obtain ⟨b0, b1, b2⟩ := h1
  obtain ⟨c0, c1, c2⟩ := h2
  ext <;> assumption

/-! ### The exact square root -/

theorem IsSqrt.nonneg {sqrt : K → K} (hs : IsSqrt sqrt) {x : K} (hx : 0 ≤ x) :
    0 ≤ sqrt x := (hs x hx).1

theorem IsSqrt.mul_self {sqrt : K → K} (hs : IsSqrt sqrt) {x : K} (hx : 0 ≤ x) :
    sqrt x * sqrt x = x := (hs x hx).2

theorem IsSqrt.pos {sqrt : K → K} (hs : IsSqrt sqrt) {x : K} (hx : 0 < x) :
    0 < sqrt x := by
  rcases lt_or_eq_of_le (hs.nonneg hx.le) with h | h
  · exact h
  · have := hs.mul_self hx.le
    rw [← h] at this
    simp at this
    exact absurd this.symm (ne_of_gt hx)

theorem IsSqrt.eq_of_mul_self {sqrt : K → K} (hs : IsSqrt sqrt) {x y : K} (hy : 0 ≤ y)
    (h : y * y = x) : sqrt x = y := by
  have hx : 0 ≤ x := by rw [← h]; exact mul_self_nonneg y
  have h1 := hs.nonneg hx
  have h2 := hs.mul_self hx
  nlinarith [mul_self_nonneg (sqrt x - y), mul_nonneg h1 hy]

theorem isSqrt_real : IsSqrt Real.sqrt :=
  fun x hx => ⟨Real.sqrt_nonneg x, Real.mul_self_sqrt hx⟩

/-! ### Normalisation -/

theorem Vec3.normalized_of_ne (sqrt : K → K) {v : Vec3 K} (h : v ≠ 0) :
    v.normalized sqrt = v.div (v.norm sqrt) := by
  simp only [Vec3.normalized, Vec3.norm]
  rw [if_pos (v.squaredNorm_pos h)]

theorem Vec3.norm_pos {sqrt : K → K} (hs : IsSqrt sqrt) {v : Vec3 K} (h : v ≠ 0) :
    0 < v.norm sqrt := hs.pos (v.squaredNorm_pos h)

theorem Vec3.norm_mul_self {sqrt : K → K} (hs : IsSqrt sqrt) (v : Vec3 K) :
    v.norm sqrt * v.norm sqrt = v.squaredNorm := hs.mul_self v.squaredNorm_nonneg

theorem Vec3.div_dot (a b : Vec3 K) (c : K) : (a.div c).dot b = a.dot b / c := by
  simp only [Vec3.dot, Vec3.div_x, Vec3.div_y, Vec3.div_z]; ring

theorem Vec3.dot_div (a b : Vec3 K) (c : K) : a.dot (b.div c) = a.dot b / c := by
  simp only [Vec3.dot, Vec3.div_x, Vec3.div_y, Vec3.div_z]; ring

theorem Vec3.squaredNorm_normalized {sqrt : K → K} (hs : IsSqrt sqrt) {v : Vec3 K}
    (h : v ≠ 0) : (v.normalized sqrt).squaredNorm = 1 := by
  rw [Vec3.normalized_of_ne sqrt h, Vec3.squaredNorm, Vec3.div_dot, Vec3.dot_div]
  have hp := Vec3.norm_pos hs h
  have hm := Vec3.norm_mul_self hs v
  rw [Vec3.squaredNorm] at hm
  field_simp
  rw [← hm]

theorem Vec3.normalized_dot {sqrt : K → K} {v : Vec3 K} (h : v ≠ 0) (b : Vec3 K) :
    (v.normalized sqrt).dot b = v.dot b / v.norm sqrt := by
  rw [Vec3.normalized_of_ne sqrt h, Vec3.div_dot]

end Geometry

/-! ## The basis completion model -/

section Completion

variable {K : Type} [LinearOrderedField K]

theorem Vec3.cross_orthonormal (w u : Vec3 K) (hw : w.squaredNorm = 1)
    (hu : u.squaredNorm = 1) (hwu : w.dot u = 0) :
    (w.cross u).squaredNorm = 1 ∧ w.dot (w.cross u) = 0 ∧ u.dot (w.cross u) = 0 := by
  refine ⟨?_, Vec3.dot_cross_left w u, Vec3.dot_cross_right w u⟩
  rw [Vec3.cross_squaredNorm, hw, hu, hwu]; ring

theorem Mat3.colsOrthonormal_of_cross (m : Mat3 K) (h0 : (m.col 0).squaredNorm = 1)
    (h1 : (m.col 1).squaredNorm = 1) (h01 : (m.col 0).dot (m.col 1) = 0)
    (h2 : m.col 2 = (m.col 0).cross (m.col 1)) : m.ColsOrthonormal := by
  obtain ⟨a, b, c⟩ := Vec3.cross_orthonormal _ _ h0 h1 h01
  refine ⟨h0, h1, ?_, h01, ?_, ?_⟩
  · rw [h2]; exact a
  · rw [h2]; exact b
  · rw [h2]; exact c

theorem generateCoordinateSystem_model_completes {sqrt : K → K} (hs : IsSqrt sqrt) :
    CompletesBasis (generateCoordinateSystem_model sqrt) := by
  intro m hm
  unfold generateCoordinateSystem_model
  simp only []
  have hm' : (m.col 0).x * (m.col 0).x + (m.col 0).y * (m.col 0).y
      + (m.col 0).z * (m.col 0).z = 1 := hm
  split_ifs with h
  · have ha : 0 < (m.col 0).x * (m.col 0).x + (m.col 0).z * (m.col 0).z := by
      by_contra hneg
      push_neg at hneg
      have hx : (m.col 0).x = 0 := by
        nlinarith [mul_self_nonneg (m.col 0).x, mul_self_nonneg (m.col 0).z]
      have hz : (m.col 0).z = 0 := by
        nlinarith [mul_self_nonneg (m.col 0).x, mul_self_nonneg (m.col 0).z]
      have hy : (m.col 0).y = 0 := by
        rw [hx, abs_zero] at h; exact abs_nonpos_iff.mp h
      rw [hx, hy, hz] at hm'
      simp at hm'
    have hp := hs.pos ha
    have hq := hs.mul_self ha.le
    refine ⟨by simp, ?_⟩
    apply Mat3.colsOrthonormal_of_cross
    · simpa using hm
    · simp only [Mat3.col1_setCol2, Mat3.col1_setCol1, Vec3.squaredNorm, Vec3.dot]
      field_simp
      nlinarith
    · simp only [Mat3.col1_setCol2, Mat3.col1_setCol1, Mat3.col0_setCol2, Mat3.col0_setCol1,
        Vec3.dot]
      field_simp
      ring
    · simp
  · have ha : 0 < (m.col 0).y * (m.col 0).y + (m.col 0).z * (m.col 0).z := by
      have hy : (m.col 0).y ≠ 0 := by
        intro hy
        rw [hy, abs_zero] at h
        exact h (abs_nonneg _)
      have := mul_self_pos.mpr hy
      nlinarith [mul_self_nonneg (m.col 0).z]
    have hp := hs.pos ha
    have hq := hs.mul_self ha.le
    refine ⟨by simp, ?_⟩
    apply Mat3.colsOrthonormal_of_cross
    · simpa using hm
    · simp only [Mat3.col1_setCol2, Mat3.col1_setCol1, Vec3.squaredNorm, Vec3.dot]
      field_simp
      nlinarith
    · simp only [Mat3.col1_setCol2, Mat3.col1_setCol1, Mat3.col0_setCol2, Mat3.col0_setCol1,
        Vec3.dot]
      field_simp
      ring
    · simp

end Completion

/-! ## Ranges and margins -/

section Ranges

variable {K : Type} [LinearOrderedField K]

theorem SafePair.ne {p q : Vec3 K} (h : SafePair p q) : p ≠ q := by
  intro hpq
  have h3 := h.2.2
  have hsub : q - q = 0 := by ext <;> simp
  rw [hpq, hsub] at h3
  have hz : (0 : Vec3 K).squaredNorm = 0 := by simp [Vec3.squaredNorm, Vec3.dot]
  rw [hz] at h3
  have hpos : (0 : K) < 1 / 2 ^ 1000 := by positivity
  exact absurd h3 (not_le.mpr hpos)

theorem SafeTriangle.nondegenerate {p1 p2 p3 : Vec3 K} (h : SafeTriangle p1 p2 p3) :
    (p1 - p2).cross (p2 - p3) ≠ 0 := by
  intro h0
  have h4 := h.2.2.2.1
  rw [h0] at h4
  have hz : (0 : Vec3 K).squaredNorm = 0 := by simp [Vec3.squaredNorm, Vec3.dot]
  rw [hz] at h4
  have hpos : (0 : K) < 1 / 2 ^ 400 := by positivity
  exact absurd h4 (not_le.mpr hpos)

theorem lt_of_margin {x y : K} (hy : 0 ≤ y) (h : x > (1 + 1 / 2 ^ 40) * y) : x > y := by
  have hpos : (0 : K) ≤ 1 / 2 ^ 40 := by positivity
  nlinarith [mul_nonneg hpos hy]

theorem SeparatedLongestEdge.unique {a b c : Vec3 K} (h : SeparatedLongestEdge a b c) :
    UniqueLongestEdge a b c := by
  rcases h with ⟨h1, h2⟩ | ⟨h1, h2⟩ | ⟨h1, h2⟩
  · exact Or.inl ⟨lt_of_margin (Vec3.squaredNorm_nonneg _) h1,
      lt_of_margin (Vec3.squaredNorm_nonneg _) h2⟩
  · exact Or.inr (Or.inl ⟨lt_of_margin (Vec3.squaredNorm_nonneg _) h1,
      lt_of_margin (Vec3.squaredNorm_nonneg _) h2⟩)
  · exact Or.inr (Or.inr ⟨lt_of_margin (Vec3.squaredNorm_nonneg _) h1,
      lt_of_margin (Vec3.squaredNorm_nonneg _) h2⟩)

end Ranges

/-! ## Two points -/

section TwoPoints

variable {K : Type} [LinearOrderedField K]

theorem OBB_fit2_fields (U : Utility K) (ps : Ptr K) (bv : OBB K) :
    (OBB_fit_functions.fit2 U ps bv).To = (0.5 : K) • (ps 0 + ps 1) ∧
    (OBB_fit_functions.fit2 U ps bv).extent = ⟨(ps 0 - ps 1).norm U.sqrt * 0.5, 0, 0⟩ ∧
    (OBB_fit_functions.fit2 U ps bv).axis =
      U.generateCoordinateSystem (bv.axis.setCol 0 ((ps 0 - ps 1).normalized U.sqrt)) :=
  ⟨rfl, rfl, rfl⟩

theorem RSS_fit2_fields (U : Utility K) (ps : Ptr K) (bv : RSS K) :
    (RSS_fit_functions.fit2 U ps bv).Tr = ps 1 ∧
    (RSS_fit_functions.fit2 U ps bv).l0 = (ps 0 - ps 1).norm U.sqrt ∧
    (RSS_fit_functions.fit2 U ps bv).l1 = 0 ∧
    (RSS_fit_functions.fit2 U ps bv).r = 0 ∧
    (RSS_fit_functions.fit2 U ps bv).axis =
      U.generateCoordinateSystem (bv.axis.setCol 0 ((ps 0 - ps 1).normalized U.sqrt)) :=
  ⟨rfl, rfl, rfl, rfl, rfl⟩

/-- C5 (amended). For every pair of points `p1 = ps[0]`, `p2 = ps[1]` in the
range `SafePair` (coordinates of magnitude at most `2^500`, distance at least
`2^(-500)`), with a basis completion that meets its contract, OBB `fit2` returns
the centre `(p1 + p2)/2`, the extent `(|p1 - p2|/2, 0, 0)` and
`axis0 = (p1 - p2)/|p1 - p2|`, a unit vector; `|p1 - p2|` is the positive number
whose square is the squared distance.  Rounding apart, `FCL_REAL` computes these
values on that range: the squared distance neither overflows nor underflows. -/
theorem OBB_fit2_midpoint_half_length (U : Utility K) (hs : IsSqrt U.sqrt)
    (hg : CompletesBasis U.generateCoordinateSystem) (ps : Ptr K) (bv : OBB K)
    (hsafe : SafePair (ps 0) (ps 1)) :
    (0 < (ps 0 - ps 1).norm U.sqrt ∧
      (ps 0 - ps 1).norm U.sqrt * (ps 0 - ps 1).norm U.sqrt = (ps 0 - ps 1).squaredNorm) ∧
    (OBB_fit_functions.fit2 U ps bv).To = (1 / 2 : K) • (ps 0 + ps 1) ∧
    (OBB_fit_functions.fit2 U ps bv).extent = ⟨(ps 0 - ps 1).norm U.sqrt / 2, 0, 0⟩ ∧
    (OBB_fit_functions.fit2 U ps bv).axis.col 0 = (ps 0 - ps 1).div ((ps 0 - ps 1).norm U.sqrt) ∧
    ((OBB_fit_functions.fit2 U ps bv).axis.col 0).squaredNorm = 1 := by
  have hne : ps 0 ≠ ps 1 := hsafe.ne
  have hv : ps 0 - ps 1 ≠ 0 := Vec3.sub_ne_zero_of_ne hne
  obtain ⟨hTo, hext, hax⟩ := OBB_fit2_fields U ps bv
  have hunit : ((bv.axis.setCol 0 ((ps 0 - ps 1).normalized U.sqrt)).col 0).squaredNorm = 1 := by
    rw [Mat3.col0_setCol0]; exact Vec3.squaredNorm_normalized hs hv
  have hc0 := (hg _ hunit).1
  rw [Mat3.col0_setCol0] at hc0
  refine ⟨⟨Vec3.norm_pos hs hv, Vec3.norm_mul_self hs _⟩, ?_, ?_, ?_, ?_⟩
  · rw [hTo, show (0.5 : K) = 1 / 2 by norm_num]
  · rw [hext, show (0.5 : K) = 1 / 2 by norm_num, mul_one_div]
  · rw [hax, hc0, Vec3.normalized_of_ne _ hv]
  · rw [hax, hc0]; exact Vec3.squaredNorm_normalized hs hv


/-- C1 (amended). Containment for `n = 2`: for points `p1 = ps[0]`, `p2 = ps[1]`
in the range `SafePair` (coordinates of magnitude at most `2^500`, distance at
least `2^(-500)`), assuming the basis completion leaves axis0 unchanged and
returns an orthonormal frame, (a) the OBB of `fit2` contains both points:
`|(p - To) . axis_i| ≤ extent_i` for every axis `i` and both points; (b) the
RSS of `fit2` has `p2 = Tr + 0 * axis0`, `p1 = Tr + l[0] * axis0`, `l[1] = 0`
and `r = 0`.  Rounding apart, `FCL_REAL` computes these values on that range:
the squared distance neither overflows nor underflows. -/
theorem fit2_contains_both_points (U : Utility K) (hs : IsSqrt U.sqrt)
    (hg : CompletesBasis U.generateCoordinateSystem) (ps : Ptr K) (bo : OBB K) (br : RSS K)
    (hsafe : SafePair (ps 0) (ps 1)) :
    (∀ i : Fin 3,
      |(ps 0 - (OBB_fit_functions.fit2 U ps bo).To).dot
          ((OBB_fit_functions.fit2 U ps bo).axis.col i)| ≤
        (OBB_fit_functions.fit2 U ps bo).extent.get i ∧
      |(ps 1 - (OBB_fit_functions.fit2 U ps bo).To).dot
          ((OBB_fit_functions.fit2 U ps bo).axis.col i)| ≤
        (OBB_fit_functions.fit2 U ps bo).extent.get i) ∧
    (ps 1 = (RSS_fit_functions.fit2 U ps br).Tr +
        (0 : K) • (RSS_fit_functions.fit2 U ps br).axis.col 0 ∧
      ps 0 = (RSS_fit_functions.fit2 U ps br).Tr +
        (RSS_fit_functions.fit2 U ps br).l0 • (RSS_fit_functions.fit2 U ps br).axis.col 0 ∧
      (RSS_fit_functions.fit2 U ps br).l1 = 0 ∧
      (RSS_fit_functions.fit2 U ps br).r = 0) := by
  have hne : ps 0 ≠ ps 1 := hsafe.ne
  have hv : ps 0 - ps 1 ≠ 0 := Vec3.sub_ne_zero_of_ne hne
  have hd := Vec3.norm_pos hs hv
  have hdd := Vec3.norm_mul_self hs (ps 0 - ps 1)
  obtain ⟨hTo, hext, hax⟩ := OBB_fit2_fields U ps bo
  obtain ⟨hTr, hl0, hl1, hr, haxr⟩ := RSS_fit2_fields U ps br
  have hunit : ∀ m : Mat3 K,
      ((m.setCol 0 ((ps 0 - ps 1).normalized U.sqrt)).col 0).squaredNorm = 1 := by
    intro m; rw [Mat3.col0_setCol0]; exact Vec3.squaredNorm_normalized hs hv
  constructor
  · obtain ⟨hc0, hu0, hu1, hu2, h01, h02, h12⟩ := hg _ (hunit bo.axis)
    rw [← hax] at hc0 hu0 h01 h02
    rw [Mat3.col0_setCol0, Vec3.normalized_of_ne _ hv] at hc0
    set A := (OBB_fit_functions.fit2 U ps bo).axis with hA
    set d := (ps 0 - ps 1).norm U.sqrt with hdef
    -- the two points are at ±d/2 along axis 0 from the centre
    have e0 : ps 0 - (OBB_fit_functions.fit2 U ps bo).To = (d / 2) • A.col 0 := by
      rw [hTo, hc0]
      ext <;> simp <;> field_simp <;> ring
    have e1 : ps 1 - (OBB_fit_functions.fit2 U ps bo).To = (-(d / 2)) • A.col 0 := by
      rw [hTo, hc0]
      ext <;> simp <;> field_simp <;> ring
    have hsm : ∀ (c : K) (a b : Vec3 K), (c • a).dot b = c * a.dot b := by
      intro c a b; simp only [Vec3.dot, Vec3.smul_x, Vec3.smul_y, Vec3.smul_z]; ring
    have hu0' : (A.col 0).dot (A.col 0) = 1 := hu0
    intro i
    rw [e0, e1, hsm, hsm, hext]
    fin_cases i
    · simp only [Fin.zero_eta, hu0', mul_one, Vec3.get_zero]
      rw [abs_neg, abs_of_pos (by positivity)]
      norm_num
      linarith
    · simp [h01]
    · simp [h02]
  · obtain ⟨hc0, -⟩ := hg _ (hunit br.axis)
    rw [← haxr] at hc0
    rw [Mat3.col0_setCol0, Vec3.normalized_of_ne _ hv] at hc0
    refine ⟨?_, ?_, hl1, hr⟩
    · rw [hTr]; ext <;> simp
    · rw [hTr, hl0, hc0]
      ext <;> simp <;> field_simp

theorem Vec3.norm_eq_of_sq {sqrt : K → K} (hs : IsSqrt sqrt) (v : Vec3 K) {d : K} (hd : 0 ≤ d)
    (h : d * d = v.squaredNorm) : v.norm sqrt = d :=
  hs.eq_of_mul_self hd h

/-- The points (0,0,0) and (2,0,0) are at distance 2. -/
theorem norm_two_points :
    ((Ptr.ofList [(⟨0, 0, 0⟩ : Vec3 ℝ), ⟨2, 0, 0⟩]) 0 -
      (Ptr.ofList [(⟨0, 0, 0⟩ : Vec3 ℝ), ⟨2, 0, 0⟩]) 1).norm Real.sqrt = 2 := by
  apply Vec3.norm_eq_of_sq isSqrt_real _ (by norm_num)
  simp [Ptr.ofList, Vec3.squaredNorm, Vec3.dot]

/-- The points (0,0,0) and (2,0,0) are in the range `SafePair`. -/
theorem two_points_safe :
    SafePair ((Ptr.ofList [(⟨0, 0, 0⟩ : Vec3 ℝ), ⟨2, 0, 0⟩]) 0)
      ((Ptr.ofList [(⟨0, 0, 0⟩ : Vec3 ℝ), ⟨2, 0, 0⟩]) 1) := by
  have h0 : (Ptr.ofList [(⟨0, 0, 0⟩ : Vec3 ℝ), ⟨2, 0, 0⟩]) 0 = ⟨0, 0, 0⟩ := rfl
  have h1 : (Ptr.ofList [(⟨0, 0, 0⟩ : Vec3 ℝ), ⟨2, 0, 0⟩]) 1 = ⟨2, 0, 0⟩ := rfl
  rw [h0, h1]
  refine ⟨⟨?_, ?_, ?_⟩, ⟨?_, ?_, ?_⟩, ?_⟩ <;>
    norm_num [Vec3.squaredNorm, Vec3.dot]

/-- Witness of the amended C5: for `p1 = (0,0,0)`, `p2 = (2,0,0)` over the reals, the
centre is `(1,0,0)`, the extent `(1,0,0)` and axis0 is `(-1,0,0)`. -/
theorem OBB_fit2_midpoint_half_length_witness :
    (OBB_fit_functions.fit2 (Utility.model Real.sqrt)
        (Ptr.ofList [⟨0, 0, 0⟩, ⟨2, 0, 0⟩]) OBB.fresh).To = ⟨1, 0, 0⟩ ∧
    (OBB_fit_functions.fit2 (Utility.model Real.sqrt)
        (Ptr.ofList [⟨0, 0, 0⟩, ⟨2, 0, 0⟩]) OBB.fresh).extent = ⟨1, 0, 0⟩ ∧
    (OBB_fit_functions.fit2 (Utility.model Real.sqrt)
        (Ptr.ofList [⟨0, 0, 0⟩, ⟨2, 0, 0⟩]) OBB.fresh).axis.col 0 = ⟨-1, 0, 0⟩ := by
  obtain ⟨-, hTo, hext, hax, -⟩ :=
    OBB_fit2_midpoint_half_length (Utility.model Real.sqrt) isSqrt_real
      (generateCoordinateSystem_model_completes isSqrt_real)
      (Ptr.ofList [⟨0, 0, 0⟩, ⟨2, 0, 0⟩]) OBB.fresh two_points_safe
  have hn : ((Ptr.ofList [(⟨0, 0, 0⟩ : Vec3 ℝ), ⟨2, 0, 0⟩]) 0 -
      (Ptr.ofList [(⟨0, 0, 0⟩ : Vec3 ℝ), ⟨2, 0, 0⟩]) 1).norm
        (Utility.model Real.sqrt).sqrt = 2 := norm_two_points
  rw [hn] at hext hax
  refine ⟨?_, ?_, ?_⟩
  · rw [hTo]; ext <;> simp [Ptr.ofList]
  · rw [hext]; norm_num
  · rw [hax]; ext <;> simp [Ptr.ofList]


/-- Witness of the amended C1: the points `(0,0,0)`, `(2,0,0)` over the reals, with the
basis completion model. -/
theorem fit2_contains_both_points_witness :
    (∀ i : Fin 3,
      |((⟨0, 0, 0⟩ : Vec3 ℝ) - (OBB_fit_functions.fit2 (Utility.model Real.sqrt)
          (Ptr.ofList [⟨0, 0, 0⟩, ⟨2, 0, 0⟩]) OBB.fresh).To).dot
          ((OBB_fit_functions.fit2 (Utility.model Real.sqrt)
            (Ptr.ofList [⟨0, 0, 0⟩, ⟨2, 0, 0⟩]) OBB.fresh).axis.col i)| ≤
        (OBB_fit_functions.fit2 (Utility.model Real.sqrt)
          (Ptr.ofList [⟨0, 0, 0⟩, ⟨2, 0, 0⟩]) OBB.fresh).extent.get i) ∧
    (⟨0, 0, 0⟩ : Vec3 ℝ) =
      (RSS_fit_functions.fit2 (Utility.model Real.sqrt)
          (Ptr.ofList [⟨0, 0, 0⟩, ⟨2, 0, 0⟩]) RSS.fresh).Tr +
        (RSS_fit_functions.fit2 (Utility.model Real.sqrt)
          (Ptr.ofList [⟨0, 0, 0⟩, ⟨2, 0, 0⟩]) RSS.fresh).l0 •
        (RSS_fit_functions.fit2 (Utility.model Real.sqrt)
          (Ptr.ofList [⟨0, 0, 0⟩, ⟨2, 0, 0⟩]) RSS.fresh).axis.col 0 :=
  have h := fit2_contains_both_points (Utility.model Real.sqrt) isSqrt_real
    (generateCoordinateSystem_model_completes isSqrt_real)
    (Ptr.ofList [⟨0, 0, 0⟩, ⟨2, 0, 0⟩]) OBB.fresh RSS.fresh two_points_safe
  ⟨fun i => (h.1 i).1, h.2.2.1⟩

/-- Counterexample to C6: for `(0,0,0)` and `(2,0,0)` RSS `fit2` returns the
length `l[0] = 2` (not 1) and the origin `Tr = (2,0,0)` (not `(1,0,0)`). -/
theorem RSS_fit2_not_half_length :
    (RSS_fit_functions.fit2 (Utility.model Real.sqrt)
        (Ptr.ofList [⟨0, 0, 0⟩, ⟨2, 0, 0⟩]) RSS.fresh).l0 = 2 ∧
    (RSS_fit_functions.fit2 (Utility.model Real.sqrt)
        (Ptr.ofList [⟨0, 0, 0⟩, ⟨2, 0, 0⟩]) RSS.fresh).Tr = ⟨2, 0, 0⟩ ∧
    ¬ ((RSS_fit_functions.fit2 (Utility.model Real.sqrt)
        (Ptr.ofList [⟨0, 0, 0⟩, ⟨2, 0, 0⟩]) RSS.fresh).l0 = 1) ∧
    ¬ ((RSS_fit_functions.fit2 (Utility.model Real.sqrt)
        (Ptr.ofList [⟨0, 0, 0⟩, ⟨2, 0, 0⟩]) RSS.fresh).Tr = ⟨1, 0, 0⟩) := by
  obtain ⟨hTr, hl0, -⟩ := RSS_fit2_fields (Utility.model Real.sqrt)
    (Ptr.ofList [⟨0, 0, 0⟩, ⟨2, 0, 0⟩]) RSS.fresh
  have hn : ((Ptr.ofList [(⟨0, 0, 0⟩ : Vec3 ℝ), ⟨2, 0, 0⟩]) 0 -
      (Ptr.ofList [(⟨0, 0, 0⟩ : Vec3 ℝ), ⟨2, 0, 0⟩]) 1).norm
        (Utility.model Real.sqrt).sqrt = 2 := norm_two_points
  rw [hn] at hl0
  have hp : Ptr.ofList [(⟨0, 0, 0⟩ : Vec3 ℝ), ⟨2, 0, 0⟩] 1 = ⟨2, 0, 0⟩ := rfl
  rw [hp] at hTr
  refine ⟨hl0, hTr, ?_, ?_⟩
  · rw [hl0]; norm_num
  · rw [hTr]; simp

/-- C6 (amended). For every pair of points `p1 = ps[0]`, `p2 = ps[1]` in the
range `SafePair` (coordinates of magnitude at most `2^500`, distance at least
`2^(-500)`), RSS `fit2` returns the length `l[0] = |p1 - p2|` (the whole
distance) and the origin `Tr = p2`; the midpoint `(p1 + p2)/2` is the middle of
the side, `Tr + (l[0]/2) * axis0`.  Rounding apart, `FCL_REAL` computes these
values on that range: the squared distance neither overflows nor underflows. -/
theorem RSS_fit2_origin_and_length (U : Utility K) (hs : IsSqrt U.sqrt)
    (hg : CompletesBasis U.generateCoordinateSystem) (ps : Ptr K) (bv : RSS K)
    (hsafe : SafePair (ps 0) (ps 1)) :
    (0 < (ps 0 - ps 1).norm U.sqrt ∧
      (ps 0 - ps 1).norm U.sqrt * (ps 0 - ps 1).norm U.sqrt = (ps 0 - ps 1).squaredNorm) ∧
    (RSS_fit_functions.fit2 U ps bv).l0 = (ps 0 - ps 1).norm U.sqrt ∧
    (RSS_fit_functions.fit2 U ps bv).Tr = ps 1 ∧
    (RSS_fit_functions.fit2 U ps bv).Tr +
        ((RSS_fit_functions.fit2 U ps bv).l0 / 2) • (RSS_fit_functions.fit2 U ps bv).axis.col 0 =
      (1 / 2 : K) • (ps 0 + ps 1) := by
  have hne : ps 0 ≠ ps 1 := hsafe.ne
  have hv : ps 0 - ps 1 ≠ 0 := Vec3.sub_ne_zero_of_ne hne
  have hd := Vec3.norm_pos hs hv
  obtain ⟨hTr, hl0, -, -, hax⟩ := RSS_fit2_fields U ps bv
  have hunit : ((bv.axis.setCol 0 ((ps 0 - ps 1).normalized U.sqrt)).col 0).squaredNorm = 1 := by
    rw [Mat3.col0_setCol0]; exact Vec3.squaredNorm_normalized hs hv
  obtain ⟨hc0, -⟩ := hg _ hunit
  rw [← hax] at hc0
  rw [Mat3.col0_setCol0, Vec3.normalized_of_ne _ hv] at hc0
  refine ⟨⟨hd, Vec3.norm_mul_self hs _⟩, hl0, hTr, ?_⟩
  rw [hTr, hl0, hc0]
  ext <;> simp <;> field_simp <;> ring

/-- Witness of the amended C6: for `(0,0,0)` and `(2,0,0)` the middle of the
side is `(1,0,0)`. -/
theorem RSS_fit2_origin_and_length_witness :
    (RSS_fit_functions.fit2 (Utility.model Real.sqrt)
        (Ptr.ofList [⟨0, 0, 0⟩, ⟨2, 0, 0⟩]) RSS.fresh).Tr +
      ((RSS_fit_functions.fit2 (Utility.model Real.sqrt)
        (Ptr.ofList [⟨0, 0, 0⟩, ⟨2, 0, 0⟩]) RSS.fresh).l0 / 2) •
      (RSS_fit_functions.fit2 (Utility.model Real.sqrt)
        (Ptr.ofList [⟨0, 0, 0⟩, ⟨2, 0, 0⟩]) RSS.fresh).axis.col 0 = ⟨1, 0, 0⟩ := by
  have h := (RSS_fit2_origin_and_length (Utility.model Real.sqrt) isSqrt_real
    (generateCoordinateSystem_model_completes isSqrt_real)
    (Ptr.ofList [⟨0, 0, 0⟩, ⟨2, 0, 0⟩]) RSS.fresh two_points_safe).2.2.2
  rw [h]
  ext <;> simp [Ptr.ofList]

end TwoPoints

/-! ## The general-n frame -/

section Frame

variable {K : Type} [LinearOrderedField K]

theorem eigenOrder_max_ne_mid (s : Vec3 K) : (eigenOrder s).2.2 ≠ (eigenOrder s).2.1 := by
  unfold eigenOrder
  simp only []
  split_ifs <;> simp

theorem axisFromEigen_cols (E : Mat3 K) (s : Vec3 K) (axis : Mat3 K) :
    (axisFromEigen E s axis).col 0 = E.row (eigenOrder s).2.2 ∧
    (axisFromEigen E s axis).col 1 = E.row (eigenOrder s).2.1 ∧
    (axisFromEigen E s axis).col 2 =
      ((axisFromEigen E s axis).col 0).cross ((axisFromEigen E s axis).col 1) := by
  simp [axisFromEigen]

theorem Mat3.RowsOrthonormal.row_unit {E : Mat3 K} (h : E.RowsOrthonormal) (i : Fin 3) :
    (E.row i).squaredNorm = 1 := by
  obtain ⟨h0, h1, h2, -⟩ := h
  fin_cases i
  · exact h0
  · exact h1
  · exact h2

theorem Mat3.RowsOrthonormal.row_dot {E : Mat3 K} (h : E.RowsOrthonormal) {i j : Fin 3}
    (hij : i ≠ j) : (E.row i).dot (E.row j) = 0 := by
  obtain ⟨-, -, -, h01, h02, h12⟩ := h
  fin_cases i <;> fin_cases j
  · exact absurd rfl hij
  · exact h01
  · exact h02
  · rw [Vec3.dot_comm]; exact h01
  · exact absurd rfl hij
  · exact h12
  · rw [Vec3.dot_comm]; exact h02
  · rw [Vec3.dot_comm]; exact h12
  · exact absurd rfl hij

theorem Mat3.isRightHandedFrame_of_cross (m : Mat3 K) (h0 : (m.col 0).squaredNorm = 1)
    (h1 : (m.col 1).squaredNorm = 1) (h01 : (m.col 0).dot (m.col 1) = 0)
    (h2 : m.col 2 = (m.col 0).cross (m.col 1)) : m.IsRightHandedFrame := by
  refine ⟨Mat3.colsOrthonormal_of_cross m h0 h1 h01 h2, ?_, h2⟩
  rw [Mat3.det_eq_cols, h2]
  simp only [Vec3.squaredNorm, Vec3.dot] at h0 h1 h01
  simp only [Vec3.dot, Vec3.cross]
  linear_combination
    ((m.col 1).x * (m.col 1).x + (m.col 1).y * (m.col 1).y + (m.col 1).z * (m.col 1).z) * h0
    + h1 - ((m.col 0).x * (m.col 1).x + (m.col 0).y * (m.col 1).y
      + (m.col 0).z * (m.col 1).z) * h01

theorem axisFromEigen_frame (E : Mat3 K) (s : Vec3 K) (axis : Mat3 K)
    (hE : E.RowsOrthonormal) : (axisFromEigen E s axis).IsRightHandedFrame := by
  obtain ⟨h0, h1, h2⟩ := axisFromEigen_cols E s axis
  apply Mat3.isRightHandedFrame_of_cross _ _ _ _ h2
  · rw [h0]; exact hE.row_unit _
  · rw [h1]; exact hE.row_unit _
  · rw [h0, h1]; exact hE.row_dot (eigenOrder_max_ne_mid s)

theorem kIOS_fitn_axis (U : Utility K) (ps : Ptr K) (n : Int) (bv : kIOS K) :
    (kIOS_fit_functions.fitn U ps n bv).obb.axis =
      axisFromEigen (U.eigen (U.getCovariance ps none none none n)).2
        (U.eigen (U.getCovariance ps none none none n)).1 bv.obb.axis := by
  simp only [kIOS_fit_functions.fitn, kIOS_spheres_34_obb,
    kIOS_spheres_12_obb, kIOS.setR_obb, kIOS.setO_obb, kIOS_decide_k_obb,
    kIOS.setObb_obb, OBB.setExtent_axis, OBB.setTo_axis, OBB.setAxis_axis]

theorem BVFitter_kIOS_axis (U : Utility K) (F : BVFitter K)
    (primitive_indices : Option (Nat → Nat)) (num_primitives : Int) (bv : kIOS K) :
    (BVFitter.fit_kIOS U F primitive_indices num_primitives bv).obb.axis =
      axisFromEigen
        (U.eigen (U.getCovariance F.vertices F.prev_vertices F.tri_indices
          primitive_indices num_primitives)).2
        (U.eigen (U.getCovariance F.vertices F.prev_vertices F.tri_indices
          primitive_indices num_primitives)).1 bv.obb.axis := by
  simp only [BVFitter.fit_kIOS, kIOS_spheres_34_obb,
    kIOS_spheres_12_obb, kIOS.setR_obb, kIOS.setO_obb, kIOS_decide_k_obb,
    kIOS.setObb_obb, OBB.setExtent_axis, OBB.setTo_axis, OBB.setAxis_axis]

/-- C3. Orthonormality of the general-n frame: for every eigenvalue triple `s`
and every eigenvector matrix `E` whose rows are unit vectors orthogonal to one
another, the frame of `axisFromEigen` has unit, pairwise orthogonal columns,
determinant 1 and `axis2 = axis0 × axis1`; hence, when the eigen-solver returns
such matrices, so has the frame of every general-n fit (`fitn` for OBB, RSS,
kIOS and OBBRSS, and the four indexed fitters). -/
theorem general_fit_frame_orthonormal (U : Utility K)
    (hU : ∀ M : Mat3 K, (U.eigen M).2.RowsOrthonormal)
    (E : Mat3 K) (s : Vec3 K) (axis : Mat3 K) (hE : E.RowsOrthonormal)
    (ps : Ptr K) (n : Int) (F : BVFitter K) (primitive_indices : Option (Nat → Nat))
    (num_primitives : Int) (bo : OBB K) (br : RSS K) (bk : kIOS K) (bh : OBBRSS K) :
    (axisFromEigen E s axis).IsRightHandedFrame ∧
    (OBB_fit_functions.fitn U ps n bo).axis.IsRightHandedFrame ∧
    (RSS_fit_functions.fitn U ps n br).axis.IsRightHandedFrame ∧
    (kIOS_fit_functions.fitn U ps n bk).obb.axis.IsRightHandedFrame ∧
    (OBBRSS_fit_functions.fitn U ps n bh).obb.axis.IsRightHandedFrame ∧
    (OBBRSS_fit_functions.fitn U ps n bh).rss.axis.IsRightHandedFrame ∧
    (BVFitter.fit_OBB U F primitive_indices num_primitives bo).axis.IsRightHandedFrame ∧
    (BVFitter.fit_RSS U F primitive_indices num_primitives br).axis.IsRightHandedFrame ∧
    (BVFitter.fit_kIOS U F primitive_indices num_primitives bk).obb.axis.IsRightHandedFrame ∧
    (BVFitter.fit_OBBRSS U F primitive_indices num_primitives bh).obb.axis.IsRightHandedFrame ∧
    (BVFitter.fit_OBBRSS U F primitive_indices num_primitives bh).rss.axis.IsRightHandedFrame := by
  refine ⟨axisFromEigen_frame E s axis hE, ?_, ?_, ?_, ?_, ?_, ?_, ?_, ?_, ?_, ?_⟩
  · exact axisFromEigen_frame _ _ _ (hU _)
  · exact axisFromEigen_frame _ _ _ (hU _)
  · rw [kIOS_fitn_axis]; exact axisFromEigen_frame _ _ _ (hU _)
  · exact axisFromEigen_frame _ _ _ (hU _)
  · exact axisFromEigen_frame _ _ _ (hU _)
  · exact axisFromEigen_frame _ _ _ (hU _)
  · exact axisFromEigen_frame _ _ _ (hU _)
  · rw [BVFitter_kIOS_axis]; exact axisFromEigen_frame _ _ _ (hU _)
  · exact axisFromEigen_frame _ _ _ (hU _)
  · exact axisFromEigen_frame _ _ _ (hU _)

theorem rowsOrthonormal_identity : (Mat3.identity : Mat3 K).RowsOrthonormal := by
  simp [Mat3.RowsOrthonormal, Mat3.identity, Mat3.row, Vec3.squaredNorm, Vec3.dot]

/-- Witness of C3: a rotated eigenvector matrix with eigenvalues `(1, 3, 2)`,
and the OBB `fitn` of four points, over the reals. -/
theorem general_fit_frame_orthonormal_witness :
    (axisFromEigen (⟨⟨3 / 5, 4 / 5, 0⟩, ⟨-4 / 5, 3 / 5, 0⟩, ⟨0, 0, 1⟩⟩ : Mat3 ℝ) ⟨1, 3, 2⟩
        Mat3.identity).IsRightHandedFrame ∧
    (OBB_fit_functions.fitn (Utility.model Real.sqrt)
        (Ptr.ofList [⟨2, 0, 0⟩, ⟨-2, 0, 0⟩, ⟨0, 1, 0⟩, ⟨0, -1, 0⟩]) 4
        OBB.fresh).axis.IsRightHandedFrame :=
  have h := general_fit_frame_orthonormal (Utility.model Real.sqrt)
    (fun _ => rowsOrthonormal_identity)
    (⟨⟨3 / 5, 4 / 5, 0⟩, ⟨-4 / 5, 3 / 5, 0⟩, ⟨0, 0, 1⟩⟩ : Mat3 ℝ) ⟨1, 3, 2⟩ Mat3.identity
    (by simp [Mat3.RowsOrthonormal, Mat3.row, Vec3.squaredNorm, Vec3.dot]; norm_num)
    (Ptr.ofList [⟨2, 0, 0⟩, ⟨-2, 0, 0⟩, ⟨0, 1, 0⟩, ⟨0, -1, 0⟩]) 4
    ⟨fun _ => 0, none, none⟩ none 0 OBB.fresh RSS.fresh
    kIOS.fresh OBBRSS.fresh
  ⟨h.1, h.2.1⟩

end Frame

/-! ## Three points -/

section Triangle

variable {K : Type} [LinearOrderedField K]

theorem fit3_imax_max (len : Fin 3 → K) (i : Fin 3) : len i ≤ len (fit3_imax len) := by
  unfold fit3_imax
  simp only []
  fin_cases i <;> split_ifs <;> simp_all <;> linarith

theorem triangle_edge_perp (p1 p2 p3 : Vec3 K) (i : Fin 3) :
    ((p1 - p2).cross (p2 - p3)).dot (arr3 (p1 - p2) (p2 - p3) (p3 - p1) i) = 0 := by
  fin_cases i <;>
    simp only [arr3, Vec3.dot, Vec3.cross, Vec3.sub_x, Vec3.sub_y, Vec3.sub_z] <;> ring

theorem Vec3.cross_zero_left (b : Vec3 K) : (0 : Vec3 K).cross b = 0 := by
  ext <;> simp [Vec3.cross]

theorem triangle_longest_ne_zero (p1 p2 p3 : Vec3 K)
    (hnd : (p1 - p2).cross (p2 - p3) ≠ 0) :
    arr3 (p1 - p2) (p2 - p3) (p3 - p1)
      (fit3_imax (arr3 (p1 - p2).squaredNorm (p2 - p3).squaredNorm
        (p3 - p1).squaredNorm)) ≠ 0 := by
  intro h0
  have hmax := fit3_imax_max
    (arr3 (p1 - p2).squaredNorm (p2 - p3).squaredNorm (p3 - p1).squaredNorm) 0
  have hlen : ∀ i : Fin 3,
      arr3 (p1 - p2).squaredNorm (p2 - p3).squaredNorm (p3 - p1).squaredNorm i =
        (arr3 (p1 - p2) (p2 - p3) (p3 - p1) i).squaredNorm := by
    intro i; fin_cases i <;> rfl
  rw [hlen, hlen, h0] at hmax
  have hz : (0 : Vec3 K).squaredNorm = 0 := by simp [Vec3.squaredNorm, Vec3.dot]
  rw [hz] at hmax
  have he0 : p1 - p2 = 0 :=
    Vec3.eq_zero_of_squaredNorm_eq_zero _ (le_antisymm hmax (Vec3.squaredNorm_nonneg _))
  apply hnd
  rw [he0, Vec3.cross_zero_left]

theorem isTriangleFrame_of_cols {sqrt : K → K} (hs : IsSqrt sqrt) (p1 p2 p3 : Vec3 K)
    (hnd : (p1 - p2).cross (p2 - p3) ≠ 0) (A : Mat3 K)
    (h2 : A.col 2 = ((p1 - p2).cross (p2 - p3)).normalized sqrt)
    (h0 : A.col 0 =
      (arr3 (p1 - p2) (p2 - p3) (p3 - p1)
        (fit3_imax (arr3 (p1 - p2).squaredNorm (p2 - p3).squaredNorm
          (p3 - p1).squaredNorm))).normalized sqrt)
    (h1 : A.col 1 = (A.col 2).cross (A.col 0)) :
    IsTriangleFrame sqrt p1 p2 p3 A := by
  have hm := triangle_longest_ne_zero p1 p2 p3 hnd
  have hperp := triangle_edge_perp p1 p2 p3
  have u2 : (A.col 2).squaredNorm = 1 := by rw [h2]; exact Vec3.squaredNorm_normalized hs hnd
  have u0 : (A.col 0).squaredNorm = 1 := by rw [h0]; exact Vec3.squaredNorm_normalized hs hm
  have d2 : ∀ i : Fin 3, (A.col 2).dot (arr3 (p1 - p2) (p2 - p3) (p3 - p1) i) = 0 := by
    intro i
    rw [h2, Vec3.normalized_dot hnd, hperp, zero_div]
  have d20 : (A.col 2).dot (A.col 0) = 0 := by
    rw [h0, Vec3.normalized_of_ne _ hm, Vec3.dot_div, d2, zero_div]
  have d02 : (A.col 0).dot (A.col 2) = 0 := by rw [Vec3.dot_comm]; exact d20
  obtain ⟨u1, d21, d01⟩ := Vec3.cross_orthonormal _ _ u2 u0 d20
  rw [← h1] at u1 d21 d01
  have hcc : A.col 2 = (A.col 0).cross (A.col 1) := by
    rw [h1]; exact (Vec3.cross_cross_self _ _ u0 d02).symm
  refine ⟨?_, ⟨d2 0, d2 1, d2 2⟩, ?_, u0, h1, ?_⟩
  · rw [h2, Vec3.normalized_of_ne _ hnd]
  · rw [h0, Vec3.normalized_of_ne _ hm]
  · exact Mat3.isRightHandedFrame_of_cross A u0 u1 d01 hcc

theorem OBB_fit3_axis_cols (U : Utility K) (ps : Ptr K) (bv : OBB K) :
    (OBB_fit_functions.fit3 U ps bv).axis.col 2 =
      ((ps 0 - ps 1).cross (ps 1 - ps 2)).normalized U.sqrt ∧
    (OBB_fit_functions.fit3 U ps bv).axis.col 0 =
      (arr3 (ps 0 - ps 1) (ps 1 - ps 2) (ps 2 - ps 0)
        (fit3_imax (arr3 (ps 0 - ps 1).squaredNorm (ps 1 - ps 2).squaredNorm
          (ps 2 - ps 0).squaredNorm))).normalized U.sqrt ∧
    (OBB_fit_functions.fit3 U ps bv).axis.col 1 =
      ((OBB_fit_functions.fit3 U ps bv).axis.col 2).cross
        ((OBB_fit_functions.fit3 U ps bv).axis.col 0) := by
  refine ⟨?_, ?_, ?_⟩ <;> simp [OBB_fit_functions.fit3, arr3]

theorem RSS_fit3_axis_cols (U : Utility K) (ps : Ptr K) (bv : RSS K) :
    (RSS_fit_functions.fit3 U ps bv).axis.col 2 =
      ((ps 0 - ps 1).cross (ps 1 - ps 2)).normalized U.sqrt ∧
    (RSS_fit_functions.fit3 U ps bv).axis.col 0 =
      (arr3 (ps 0 - ps 1) (ps 1 - ps 2) (ps 2 - ps 0)
        (fit3_imax (arr3 (ps 0 - ps 1).squaredNorm (ps 1 - ps 2).squaredNorm
          (ps 2 - ps 0).squaredNorm))).normalized U.sqrt ∧
    (RSS_fit_functions.fit3 U ps bv).axis.col 1 =
      ((RSS_fit_functions.fit3 U ps bv).axis.col 2).cross
        ((RSS_fit_functions.fit3 U ps bv).axis.col 0) :=
  ⟨rfl, rfl, rfl⟩

theorem kIOS_fit3_axis_cols (U : Utility K) (ps : Ptr K) (bv : kIOS K) :
    (kIOS_fit_functions.fit3 U ps bv).obb.axis.col 2 =
      ((ps 0 - ps 1).cross (ps 1 - ps 2)).normalized U.sqrt ∧
    (kIOS_fit_functions.fit3 U ps bv).obb.axis.col 0 =
      (arr3 (ps 0 - ps 1) (ps 1 - ps 2) (ps 2 - ps 0)
        (fit3_imax (arr3 (ps 0 - ps 1).squaredNorm (ps 1 - ps 2).squaredNorm
          (ps 2 - ps 0).squaredNorm))).normalized U.sqrt ∧
    (kIOS_fit_functions.fit3 U ps bv).obb.axis.col 1 =
      ((kIOS_fit_functions.fit3 U ps bv).obb.axis.col 2).cross
        ((kIOS_fit_functions.fit3 U ps bv).obb.axis.col 0) :=
  ⟨rfl, rfl, rfl⟩

theorem IsTriangleFrame.longEdge {sqrt : K → K} {p1 p2 p3 : Vec3 K} {A : Mat3 K}
    (h : IsTriangleFrame sqrt p1 p2 p3 A) : IsLongEdgeFrame sqrt p1 p2 p3 A := by
  obtain ⟨h2, hperp, h0, hu, h1, hf⟩ := h
  refine ⟨h2, hperp, ⟨_, h0, ?_⟩, hu, h1, hf⟩
  intro j
  have hlen : ∀ i : Fin 3,
      arr3 (p1 - p2).squaredNorm (p2 - p3).squaredNorm (p3 - p1).squaredNorm i =
        (arr3 (p1 - p2) (p2 - p3) (p3 - p1) i).squaredNorm := by
    intro i; fin_cases i <;> rfl
  have hmax := fit3_imax_max
    (arr3 (p1 - p2).squaredNorm (p2 - p3).squaredNorm (p3 - p1).squaredNorm) j
  rw [hlen, hlen] at hmax
  have hpos : (0 : K) ≤ 1 / 2 ^ 40 := by positivity
  nlinarith [mul_nonneg hpos (Vec3.squaredNorm_nonneg (arr3 (p1 - p2) (p2 - p3) (p3 - p1)
    (fit3_imax (arr3 (p1 - p2).squaredNorm (p2 - p3).squaredNorm (p3 - p1).squaredNorm))))]

/-- C7 (amended). The `n = 3` frame: for every triangle in the range `SafeTriangle`
(coordinates of magnitude at most `2^250`, not a sliver) the frame built by
`fit3`, in the OBB, RSS and kIOS variants alike, has
`axis2 = (e0 × e1)/|e0 × e1|`, perpendicular to the three edge vectors; `axis0` is
the unit vector along one of the edges `e[i]`, and no edge is longer than `e[i]`
by more than the factor `1 + 2^(-40)` in squared length; `axis1 = axis2 × axis0`;
and the frame is orthonormal and right-handed (`axis0 × axis1 = axis2`,
determinant 1).  In exact arithmetic the edge is the first longest one in the
order `e0, e1, e2`; the slack covers the rounding of the squared lengths in
`FCL_REAL`, with which the comparison can select an edge shorter than the
longest by a rounding error. -/
theorem fit3_triangle_frame (U : Utility K) (hs : IsSqrt U.sqrt) (ps : Ptr K)
    (bo : OBB K) (br : RSS K) (bk : kIOS K)
    (hsafe : SafeTriangle (ps 0) (ps 1) (ps 2)) :
    IsLongEdgeFrame U.sqrt (ps 0) (ps 1) (ps 2) (OBB_fit_functions.fit3 U ps bo).axis ∧
    IsLongEdgeFrame U.sqrt (ps 0) (ps 1) (ps 2) (RSS_fit_functions.fit3 U ps br).axis ∧
    IsLongEdgeFrame U.sqrt (ps 0) (ps 1) (ps 2) (kIOS_fit_functions.fit3 U ps bk).obb.axis := by
  have hnd := hsafe.nondegenerate
  obtain ⟨a2, a0, a1⟩ := OBB_fit3_axis_cols U ps bo
  obtain ⟨b2, b0, b1⟩ := RSS_fit3_axis_cols U ps br
  obtain ⟨c2, c0, c1⟩ := kIOS_fit3_axis_cols U ps bk
  exact ⟨(isTriangleFrame_of_cols hs _ _ _ hnd _ a2 a0 a1).longEdge,
    (isTriangleFrame_of_cols hs _ _ _ hnd _ b2 b0 b1).longEdge,
    (isTriangleFrame_of_cols hs _ _ _ hnd _ c2 c0 c1).longEdge⟩

theorem triangle345_nondegenerate :
    ((Ptr.ofList [(⟨0, 0, 0⟩ : Vec3 ℝ), ⟨3, 0, 0⟩, ⟨0, 4, 0⟩]) 0 -
        (Ptr.ofList [(⟨0, 0, 0⟩ : Vec3 ℝ), ⟨3, 0, 0⟩, ⟨0, 4, 0⟩]) 1).cross
      ((Ptr.ofList [(⟨0, 0, 0⟩ : Vec3 ℝ), ⟨3, 0, 0⟩, ⟨0, 4, 0⟩]) 1 -
        (Ptr.ofList [(⟨0, 0, 0⟩ : Vec3 ℝ), ⟨3, 0, 0⟩, ⟨0, 4, 0⟩]) 2) ≠ 0 := by
  intro h
  have hz := congrArg Vec3.z h
  simp [Ptr.ofList, Vec3.cross] at hz

/-- The triangle `(0,0,0)`, `(3,0,0)`, `(0,4,0)` is in the range `SafeTriangle`. -/
theorem triangle345_safe :
    SafeTriangle ((Ptr.ofList [(⟨0, 0, 0⟩ : Vec3 ℝ), ⟨3, 0, 0⟩, ⟨0, 4, 0⟩]) 0)
      ((Ptr.ofList [(⟨0, 0, 0⟩ : Vec3 ℝ), ⟨3, 0, 0⟩, ⟨0, 4, 0⟩]) 1)
      ((Ptr.ofList [(⟨0, 0, 0⟩ : Vec3 ℝ), ⟨3, 0, 0⟩, ⟨0, 4, 0⟩]) 2) := by
  have h0 : (Ptr.ofList [(⟨0, 0, 0⟩ : Vec3 ℝ), ⟨3, 0, 0⟩, ⟨0, 4, 0⟩]) 0 = ⟨0, 0, 0⟩ := rfl
  have h1 : (Ptr.ofList [(⟨0, 0, 0⟩ : Vec3 ℝ), ⟨3, 0, 0⟩, ⟨0, 4, 0⟩]) 1 = ⟨3, 0, 0⟩ := rfl
  have h2 : (Ptr.ofList [(⟨0, 0, 0⟩ : Vec3 ℝ), ⟨3, 0, 0⟩, ⟨0, 4, 0⟩]) 2 = ⟨0, 4, 0⟩ := rfl
  rw [h0, h1, h2]
  refine ⟨⟨?_, ?_, ?_⟩, ⟨?_, ?_, ?_⟩, ⟨?_, ?_, ?_⟩, ?_, ?_⟩ <;>
    norm_num [Vec3.squaredNorm, Vec3.dot, Vec3.cross]

/-- Witness of the amended C7: the triangle `(0,0,0)`, `(3,0,0)`, `(0,4,0)` over the
reals. -/
theorem fit3_triangle_frame_witness :
    IsLongEdgeFrame Real.sqrt (⟨0, 0, 0⟩ : Vec3 ℝ) ⟨3, 0, 0⟩ ⟨0, 4, 0⟩
      (OBB_fit_functions.fit3 (Utility.model Real.sqrt)
        (Ptr.ofList [⟨0, 0, 0⟩, ⟨3, 0, 0⟩, ⟨0, 4, 0⟩]) OBB.fresh).axis :=
  (fit3_triangle_frame (Utility.model Real.sqrt) isSqrt_real
    (Ptr.ofList [⟨0, 0, 0⟩, ⟨3, 0, 0⟩, ⟨0, 4, 0⟩]) OBB.fresh RSS.fresh
    kIOS.fresh triangle345_safe).1

end Triangle

/-! ## The primary sphere of a kIOS -/

section PrimarySphere

variable {K : Type} [LinearOrderedField K]

/-- The box projector model on three points, written out. -/
theorem getExtentAndCenter_model_three (ps : Ptr K) (A : Mat3 K) :
    (getExtentAndCenter_model ps 3 A).1 =
      ((max (max (max ((A.col 0).dot (ps 0)) ((A.col 0).dot (ps 0))) ((A.col 0).dot (ps 1)))
            ((A.col 0).dot (ps 2)) +
          min (min (min ((A.col 0).dot (ps 0)) ((A.col 0).dot (ps 0))) ((A.col 0).dot (ps 1)))
            ((A.col 0).dot (ps 2))) / 2) • A.col 0 +
      ((max (max (max ((A.col 1).dot (ps 0)) ((A.col 1).dot (ps 0))) ((A.col 1).dot (ps 1)))
            ((A.col 1).dot (ps 2)) +
          min (min (min ((A.col 1).dot (ps 0)) ((A.col 1).dot (ps 0))) ((A.col 1).dot (ps 1)))
            ((A.col 1).dot (ps 2))) / 2) • A.col 1 +
      ((max (max (max ((A.col 2).dot (ps 0)) ((A.col 2).dot (ps 0))) ((A.col 2).dot (ps 1)))
            ((A.col 2).dot (ps 2)) +
          min (min (min ((A.col 2).dot (ps 0)) ((A.col 2).dot (ps 0))) ((A.col 2).dot (ps 1)))
            ((A.col 2).dot (ps 2))) / 2) • A.col 2 := rfl

/-- The frame of the triangle (0,0,0), (3,0,0), (0,4,0) in kIOS fit3. -/
theorem triangle345_axis :
    (kIOS_fit_functions.fit3 (Utility.model Real.sqrt)
        (Ptr.ofList [⟨0, 0, 0⟩, ⟨3, 0, 0⟩, ⟨0, 4, 0⟩]) kIOS.fresh).obb.axis =
      ⟨⟨3 / 5, 4 / 5, 0⟩, ⟨-4 / 5, 3 / 5, 0⟩, ⟨0, 0, 1⟩⟩ := by
  obtain ⟨c2, c0, c1⟩ := kIOS_fit3_axis_cols (Utility.model Real.sqrt)
    (Ptr.ofList [⟨0, 0, 0⟩, ⟨3, 0, 0⟩, ⟨0, 4, 0⟩]) kIOS.fresh
  have p0 : Ptr.ofList [(⟨0, 0, 0⟩ : Vec3 ℝ), ⟨3, 0, 0⟩, ⟨0, 4, 0⟩] 0 = ⟨0, 0, 0⟩ := rfl
  have p1 : Ptr.ofList [(⟨0, 0, 0⟩ : Vec3 ℝ), ⟨3, 0, 0⟩, ⟨0, 4, 0⟩] 1 = ⟨3, 0, 0⟩ := rfl
  have p2 : Ptr.ofList [(⟨0, 0, 0⟩ : Vec3 ℝ), ⟨3, 0, 0⟩, ⟨0, 4, 0⟩] 2 = ⟨0, 4, 0⟩ := rfl
  have hs : (Utility.model Real.sqrt).sqrt = Real.sqrt := rfl
  rw [p0, p1, p2, hs] at c2 c0
  have e0 : (⟨0, 0, 0⟩ : Vec3 ℝ) - ⟨3, 0, 0⟩ = ⟨-3, 0, 0⟩ := by ext <;> simp
  have e1 : (⟨3, 0, 0⟩ : Vec3 ℝ) - ⟨0, 4, 0⟩ = ⟨3, -4, 0⟩ := by ext <;> simp
  have e2 : (⟨0, 4, 0⟩ : Vec3 ℝ) - ⟨0, 0, 0⟩ = ⟨0, 4, 0⟩ := by ext <;> simp
  rw [e0, e1, e2] at c0
  rw [e0, e1] at c2
  have hcross : (⟨-3, 0, 0⟩ : Vec3 ℝ).cross ⟨3, -4, 0⟩ = ⟨0, 0, 12⟩ := by
    ext <;> simp [Vec3.cross]
    norm_num
  have himax : fit3_imax (arr3 (⟨-3, 0, 0⟩ : Vec3 ℝ).squaredNorm
      (⟨3, -4, 0⟩ : Vec3 ℝ).squaredNorm (⟨0, 4, 0⟩ : Vec3 ℝ).squaredNorm) = 1 := by
    simp [fit3_imax, arr3, Vec3.squaredNorm, Vec3.dot]
  rw [hcross] at c2
  rw [himax] at c0
  have n2 : (⟨0, 0, 12⟩ : Vec3 ℝ).normalized Real.sqrt = ⟨0, 0, 1⟩ := by
    have hne : (⟨0, 0, 12⟩ : Vec3 ℝ) ≠ 0 := by
      intro h; have := congrArg Vec3.z h; simp at this
    rw [Vec3.normalized_of_ne _ hne,
      Vec3.norm_eq_of_sq isSqrt_real _ (d := 12) (by norm_num)
        (by simp [Vec3.squaredNorm, Vec3.dot])]
    ext <;> simp
  have n0 : (arr3 (⟨-3, 0, 0⟩ : Vec3 ℝ) ⟨3, -4, 0⟩ ⟨0, 4, 0⟩ 1).normalized Real.sqrt =
      ⟨3 / 5, -4 / 5, 0⟩ := by
    have hv : arr3 (⟨-3, 0, 0⟩ : Vec3 ℝ) ⟨3, -4, 0⟩ ⟨0, 4, 0⟩ 1 = ⟨3, -4, 0⟩ := rfl
    rw [hv]
    have hne : (⟨3, -4, 0⟩ : Vec3 ℝ) ≠ 0 := by
      intro h; have := congrArg Vec3.x h; simp at this
    rw [Vec3.normalized_of_ne _ hne,
      Vec3.norm_eq_of_sq isSqrt_real _ (d := 5) (by norm_num)
        (by simp [Vec3.squaredNorm, Vec3.dot]; norm_num)]
    ext <;> simp
  rw [n2] at c2
  rw [n0] at c0
  rw [c2, c0] at c1
  apply Mat3.eq_of_cols
  · rw [c0]; rfl
  · rw [c1]
    ext <;> simp [Mat3.col, Vec3.cross]
    norm_num
  · rw [c2]; rfl

theorem maximumDistance_model_one (sqrt : K → K) (ps : Ptr K) (q : Vec3 K) :
    maximumDistance_model sqrt ps 1 q = max 0 ((ps 0 - q).norm sqrt) := rfl

theorem maximumDistance_model_two (sqrt : K → K) (ps : Ptr K) (q : Vec3 K) :
    maximumDistance_model sqrt ps 2 q =
      max (max 0 ((ps 0 - q).norm sqrt)) ((ps 1 - q).norm sqrt) := rfl

theorem kIOS_fit1_sphere0 (ps : Ptr K) (bv : kIOS K) :
    ((kIOS_fit_functions.fit1 ps bv).spheres 0).o = ps 0 ∧
    ((kIOS_fit_functions.fit1 ps bv).spheres 0).r = 0 ∧
    (kIOS_fit_functions.fit1 ps bv).obb.To = ps 0 := by
  refine ⟨?_, ?_, rfl⟩ <;>
    simp [kIOS_fit_functions.fit1, kIOS.setO_spheres, kIOS.setR_spheres]

theorem kIOS_fit2_sphere0 (U : Utility K) (ps : Ptr K) (bv : kIOS K) :
    ((kIOS_fit_functions.fit2 U ps bv).spheres 0).o = (0.5 : K) • (ps 0 + ps 1) ∧
    ((kIOS_fit_functions.fit2 U ps bv).spheres 0).r = (ps 0 - ps 1).norm U.sqrt * 0.5 ∧
    (kIOS_fit_functions.fit2 U ps bv).obb.To = (0.5 : K) • (ps 0 + ps 1) := by
  refine ⟨?_, ?_, rfl⟩ <;>
    simp [kIOS_fit_functions.fit2, kIOS.setO_spheres, kIOS.setR_spheres]

theorem kIOS_fit3_sphere0 (U : Utility K) (ps : Ptr K) (bv : kIOS K) :
    ((kIOS_fit_functions.fit3 U ps bv).spheres 0).o =
      (U.circumCircleComputation (ps 0) (ps 1) (ps 2)).1 ∧
    ((kIOS_fit_functions.fit3 U ps bv).spheres 0).r =
      (U.circumCircleComputation (ps 0) (ps 1) (ps 2)).2 := by
  constructor <;>
    simp [kIOS_fit_functions.fit3, kIOS.setO_spheres, kIOS.setR_spheres]

theorem kIOS_fitn_sphere0 (U : Utility K) (ps : Ptr K) (n : Int) (bv : kIOS K) :
    ((kIOS_fit_functions.fitn U ps n bv).spheres 0).o =
      (kIOS_fit_functions.fitn U ps n bv).obb.To ∧
    ((kIOS_fit_functions.fitn U ps n bv).spheres 0).r =
      U.maximumDistance ps none none none n (kIOS_fit_functions.fitn U ps n bv).obb.To := by
  constructor <;>
    simp only [kIOS_fit_functions.fitn, kIOS_spheres_34_zero, kIOS_spheres_12_zero,
      kIOS.setR_spheres, kIOS.setO_spheres, kIOS_spheres_34_obb, kIOS_spheres_12_obb,
      kIOS.setR_obb, kIOS.setO_obb, kIOS_decide_k_obb, kIOS.setObb_obb, OBB.setExtent_To,
      OBB.setTo_To, if_true]

theorem half_norm_of_midpoint {sqrt : K → K} (hs : IsSqrt sqrt) (p1 p2 : Vec3 K) :
    (p1 - (0.5 : K) • (p1 + p2)).norm sqrt = (p1 - p2).norm sqrt * 0.5 ∧
    (p2 - (0.5 : K) • (p1 + p2)).norm sqrt = (p1 - p2).norm sqrt * 0.5 := by
  have hdd := Vec3.norm_mul_self hs (p1 - p2)
  have hd : 0 ≤ (p1 - p2).norm sqrt := hs.nonneg (Vec3.squaredNorm_nonneg _)
  have h5 : (0.5 : K) = 1 / 2 := by norm_num
  rw [h5]
  simp only [Vec3.squaredNorm, Vec3.dot, Vec3.sub_x, Vec3.sub_y, Vec3.sub_z] at hdd
  constructor
  · apply Vec3.norm_eq_of_sq hs _ (by positivity)
    simp only [Vec3.squaredNorm, Vec3.dot, Vec3.sub_x, Vec3.sub_y, Vec3.sub_z, Vec3.smul_x,
      Vec3.smul_y, Vec3.smul_z, Vec3.add_x, Vec3.add_y, Vec3.add_z]
    linear_combination (1 / 4 : K) * hdd
  · apply Vec3.norm_eq_of_sq hs _ (by positivity)
    simp only [Vec3.squaredNorm, Vec3.dot, Vec3.sub_x, Vec3.sub_y, Vec3.sub_z, Vec3.smul_x,
      Vec3.smul_y, Vec3.smul_z, Vec3.add_x, Vec3.add_y, Vec3.add_z]
    linear_combination (1 / 4 : K) * hdd

end PrimarySphere

/-! ## Dispatch on the point count -/

section Dispatch

variable {K : Type} [LinearOrderedField K]

/-- OBB `fit3` overwrites every field: the result does not depend on the content of `bv`. -/
theorem OBB_fit3_overwrites (U : Utility K) (ps : Ptr K) (b b' : OBB K) :
    OBB_fit_functions.fit3 U ps b = OBB_fit_functions.fit3 U ps b' := by
  obtain ⟨a2, a0, a1⟩ := OBB_fit3_axis_cols U ps b
  obtain ⟨c2, c0, c1⟩ := OBB_fit3_axis_cols U ps b'
  have hax : (OBB_fit_functions.fit3 U ps b).axis = (OBB_fit_functions.fit3 U ps b').axis := by
    apply Mat3.eq_of_cols
    · rw [a0, c0]
    · rw [a1, c1, a2, c2, a0, c0]
    · rw [a2, c2]
  have hTo : (OBB_fit_functions.fit3 U ps b).To =
      (U.getExtentAndCenter ps none none none 3 (OBB_fit_functions.fit3 U ps b).axis).1 := rfl
  have hTo' : (OBB_fit_functions.fit3 U ps b').To =
      (U.getExtentAndCenter ps none none none 3 (OBB_fit_functions.fit3 U ps b').axis).1 := rfl
  have hex : (OBB_fit_functions.fit3 U ps b).extent =
      (U.getExtentAndCenter ps none none none 3 (OBB_fit_functions.fit3 U ps b).axis).2 := rfl
  have hex' : (OBB_fit_functions.fit3 U ps b').extent =
      (U.getExtentAndCenter ps none none none 3 (OBB_fit_functions.fit3 U ps b').axis).2 := rfl
  have e1 : (OBB_fit_functions.fit3 U ps b).To = (OBB_fit_functions.fit3 U ps b').To := by
    rw [hTo, hTo', hax]
  have e2 : (OBB_fit_functions.fit3 U ps b).extent = (OBB_fit_functions.fit3 U ps b').extent := by
    rw [hex, hex', hax]
  cases h : OBB_fit_functions.fit3 U ps b
  cases h' : OBB_fit_functions.fit3 U ps b'
  rw [h, h'] at hax e1 e2
  simp only at hax e1 e2
  rw [hax, e1, e2]

/-- C12. The direct OBB fit dispatches on the count: `fit1` for `n = 1`, `fit2`
for `n = 2`, `fit3` for `n = 3`, for `n = 6` the merge `fit3(ps[0..2]) +
fit3(ps[3..5])` of the two triangle fits (each independent of the content of
its local volume; the second reads the points 3, 4, 5), and the covariance
path `fitn` for every other `n`. -/
theorem fit_OBB_dispatch (U : Utility K) (ps : Ptr K) (n : Int) (bv b1 b2 : OBB K)
    (h1 : n ≠ 1) (h2 : n ≠ 2) (h3 : n ≠ 3) (h6 : n ≠ 6) :
    fit_OBB U ps 1 bv = OBB_fit_functions.fit1 ps bv ∧
    fit_OBB U ps 2 bv = OBB_fit_functions.fit2 U ps bv ∧
    fit_OBB U ps 3 bv = OBB_fit_functions.fit3 U ps bv ∧
    fit_OBB U ps 6 bv = OBB_fit_functions.fit6 U ps bv ∧
    OBB_fit_functions.fit6 U ps bv =
      U.mergeOBB (OBB_fit_functions.fit3 U ps b1) (OBB_fit_functions.fit3 U (ps.offset 3) b2) ∧
    (OBB_fit_functions.fit3 U (ps.offset 3) b2).axis.col 0 =
      (arr3 (ps 3 - ps 4) (ps 4 - ps 5) (ps 5 - ps 3)
        (fit3_imax (arr3 (ps 3 - ps 4).squaredNorm (ps 4 - ps 5).squaredNorm
          (ps 5 - ps 3).squaredNorm))).normalized U.sqrt ∧
    fit_OBB U ps n bv = OBB_fit_functions.fitn U ps n bv := by
  refine ⟨rfl, rfl, rfl, rfl, ?_, ?_, ?_⟩
  · show U.mergeOBB (OBB_fit_functions.fit3 U ps OBB.fresh)
        (OBB_fit_functions.fit3 U (ps.offset 3) OBB.fresh) = _
    rw [OBB_fit3_overwrites U ps OBB.fresh b1, OBB_fit3_overwrites U (ps.offset 3) OBB.fresh b2]
  · exact (OBB_fit3_axis_cols U (ps.offset 3) b2).2.1
  · simp [fit_OBB, h1, h2, h3, h6]

/-- Witness of C12: four points take the covariance path. -/
theorem fit_OBB_dispatch_witness :
    fit_OBB (Utility.model Real.sqrt)
        (Ptr.ofList [⟨2, 0, 0⟩, ⟨-2, 0, 0⟩, ⟨0, 1, 0⟩, ⟨0, -1, 0⟩]) 4 OBB.fresh =
      OBB_fit_functions.fitn (Utility.model Real.sqrt)
        (Ptr.ofList [⟨2, 0, 0⟩, ⟨-2, 0, 0⟩, ⟨0, 1, 0⟩, ⟨0, -1, 0⟩]) 4 OBB.fresh :=
  (fit_OBB_dispatch (Utility.model Real.sqrt)
    (Ptr.ofList [⟨2, 0, 0⟩, ⟨-2, 0, 0⟩, ⟨0, 1, 0⟩, ⟨0, -1, 0⟩]) 4 OBB.fresh OBB.fresh OBB.fresh
    (by decide) (by decide) (by decide) (by decide)).2.2.2.2.2.2

/-- Counterexample to C13: on six points the direct RSS, kIOS and OBBRSS fits
are computed by the covariance path `fitn`. -/
theorem fit_six_points_uses_fitn :
    fit_RSS (Utility.model Real.sqrt)
        (Ptr.ofList [⟨0, 0, 0⟩, ⟨3, 0, 0⟩, ⟨0, 4, 0⟩, ⟨0, 0, 1⟩, ⟨3, 0, 1⟩, ⟨0, 4, 1⟩]) 6
        RSS.fresh =
      RSS_fit_functions.fitn (Utility.model Real.sqrt)
        (Ptr.ofList [⟨0, 0, 0⟩, ⟨3, 0, 0⟩, ⟨0, 4, 0⟩, ⟨0, 0, 1⟩, ⟨3, 0, 1⟩, ⟨0, 4, 1⟩]) 6
        RSS.fresh ∧
    fit_kIOS (Utility.model Real.sqrt)
        (Ptr.ofList [⟨0, 0, 0⟩, ⟨3, 0, 0⟩, ⟨0, 4, 0⟩, ⟨0, 0, 1⟩, ⟨3, 0, 1⟩, ⟨0, 4, 1⟩]) 6
        kIOS.fresh =
      kIOS_fit_functions.fitn (Utility.model Real.sqrt)
        (Ptr.ofList [⟨0, 0, 0⟩, ⟨3, 0, 0⟩, ⟨0, 4, 0⟩, ⟨0, 0, 1⟩, ⟨3, 0, 1⟩, ⟨0, 4, 1⟩]) 6
        kIOS.fresh ∧
    fit_OBBRSS (Utility.model Real.sqrt)
        (Ptr.ofList [⟨0, 0, 0⟩, ⟨3, 0, 0⟩, ⟨0, 4, 0⟩, ⟨0, 0, 1⟩, ⟨3, 0, 1⟩, ⟨0, 4, 1⟩]) 6
        OBBRSS.fresh =
      OBBRSS_fit_functions.fitn (Utility.model Real.sqrt)
        (Ptr.ofList [⟨0, 0, 0⟩, ⟨3, 0, 0⟩, ⟨0, 4, 0⟩, ⟨0, 0, 1⟩, ⟨3, 0, 1⟩, ⟨0, 4, 1⟩]) 6
        OBBRSS.fresh :=
  ⟨rfl, rfl, rfl⟩

/-- C13 (amended). For the kIOS and OBBRSS families, which have no two-triangle
construction, the direct fit of exactly 6 points is computed by the general
covariance path `fitn(ps, 6)` (for OBBRSS: the OBB and the RSS `fitn`). -/
theorem fit_six_points_kIOS_OBBRSS (U : Utility K) (ps : Ptr K) (bk : kIOS K) (bh : OBBRSS K) :
    fit_kIOS U ps 6 bk = kIOS_fit_functions.fitn U ps 6 bk ∧
    fit_OBBRSS U ps 6 bh = OBBRSS_fit_functions.fitn U ps 6 bh ∧
    (fit_OBBRSS U ps 6 bh).obb = OBB_fit_functions.fitn U ps 6 bh.obb ∧
    (fit_OBBRSS U ps 6 bh).rss = RSS_fit_functions.fitn U ps 6 bh.rss :=
  ⟨rfl, rfl, rfl, rfl⟩

end Dispatch

/-! ## Ties between eigenvalues -/

section Ties

variable {K : Type} [LinearOrderedField K]

/-- Counterexample to C16: for the eigenvalues `(1, 1, 2)` the tied indices are
0 and 1 and `mid` is 1; for `(1, 2, 1)` the tied indices are 0 and 2 and `mid`
is 2. -/
theorem axisFromEigen_tie_mid_not_smaller :
    (⟨1, 1, 2⟩ : Vec3 ℚ).get 0 = (⟨1, 1, 2⟩ : Vec3 ℚ).get 1 ∧
    (eigenOrder (⟨1, 1, 2⟩ : Vec3 ℚ)).2.1 = 1 ∧
    (⟨1, 2, 1⟩ : Vec3 ℚ).get 0 = (⟨1, 2, 1⟩ : Vec3 ℚ).get 2 ∧
    (eigenOrder (⟨1, 2, 1⟩ : Vec3 ℚ)).2.1 = 2 := by
  refine ⟨rfl, ?_, rfl, ?_⟩ <;> simp [eigenOrder]

/-- C16 (amended). For every eigenvalue triple in which two eigenvalues are
equal, the index assigned to `mid` is 2 when `s[2]` equals `s[0]` or `s[1]`;
otherwise (`s[0] = s[1]`) it is 0 when `s[2] < s[0]` and 1 when `s[2] > s[0]`. -/
theorem axisFromEigen_tie_break (s : Vec3 K)
    (htie : s.get 0 = s.get 1 ∨ s.get 0 = s.get 2 ∨ s.get 1 = s.get 2) :
    (eigenOrder s).2.1 =
      if s.get 2 = s.get 0 ∨ s.get 2 = s.get 1 then 2
      else if s.get 2 < s.get 0 then 0 else 1 := by
  unfold eigenOrder
  simp only [Vec3.get_zero, Vec3.get_one, Vec3.get_two] at htie ⊢
  rcases htie with h | h | h <;> split_ifs <;> simp_all <;>
    first
    | linarith
    | exact absurd (le_antisymm ‹s.z ≤ s.y› ‹s.y ≤ s.z›) ‹¬s.z = s.y›

/-- Witness of the amended C16: eigenvalues `(2, 2, 1)` give `mid = 0`. -/
theorem axisFromEigen_tie_break_witness :
    (eigenOrder (⟨2, 2, 1⟩ : Vec3 ℚ)).2.1 = 0 :=
  (axisFromEigen_tie_break (⟨2, 2, 1⟩ : Vec3 ℚ) (Or.inl rfl)).trans (by simp)

end Ties

/-! ## The sphere placement blocks -/

section Blocks

variable {K : Type} [LinearOrderedField K]

theorem axisFromEigen_overwrites (E : Mat3 K) (s : Vec3 K) (a a' : Mat3 K) :
    axisFromEigen E s a = axisFromEigen E s a' := by
  obtain ⟨h0, h1, h2⟩ := axisFromEigen_cols E s a
  obtain ⟨g0, g1, g2⟩ := axisFromEigen_cols E s a'
  apply Mat3.eq_of_cols
  · rw [h0, g0]
  · rw [h1, g1]
  · rw [h2, g2, h0, g0, h1, g1]

theorem kIOS_spheres_12_of_lt (sqrt : K → K) (maxDist : Vec3 K → K)
    (center extent : Vec3 K) (r0 : K) (bv : kIOS K) (h : ¬ bv.num_spheres ≥ 3) :
    kIOS_spheres_12 sqrt maxDist center extent r0 bv = bv := by
  unfold kIOS_spheres_12; rw [if_neg h]

theorem kIOS_spheres_34_of_lt (sqrt : K → K) (maxDist : Vec3 K → K)
    (extent : Vec3 K) (bv : kIOS K) (h : ¬ bv.num_spheres ≥ 5) :
    kIOS_spheres_34 sqrt maxDist extent bv = bv := by
  unfold kIOS_spheres_34; rw [if_neg h]

theorem kIOS_spheres_12_values (sqrt : K → K) (maxDist : Vec3 K → K)
    (center extent : Vec3 K) (r0 : K) (bv : kIOS K) (h : bv.num_spheres ≥ 3) :
    (kIOS_spheres_12 sqrt maxDist center extent r0 bv).spheres 1 =
      ⟨(center - (sqrt (r0 * r0 - extent.get 2 * extent.get 2) * invSinA * cosA sqrt
            - extent.get 2) • bv.obb.axis.col 2) +
          (-(sqrt (r0 * r0 - extent.get 2 * extent.get 2) * invSinA) +
            maxDist (center - (sqrt (r0 * r0 - extent.get 2 * extent.get 2) * invSinA
              * cosA sqrt - extent.get 2) • bv.obb.axis.col 2)) • bv.obb.axis.col 2,
        sqrt (r0 * r0 - extent.get 2 * extent.get 2) * invSinA⟩ ∧
    (kIOS_spheres_12 sqrt maxDist center extent r0 bv).spheres 2 =
      ⟨(center + (sqrt (r0 * r0 - extent.get 2 * extent.get 2) * invSinA * cosA sqrt
            - extent.get 2) • bv.obb.axis.col 2) +
          (sqrt (r0 * r0 - extent.get 2 * extent.get 2) * invSinA -
            maxDist (center + (sqrt (r0 * r0 - extent.get 2 * extent.get 2) * invSinA
              * cosA sqrt - extent.get 2) • bv.obb.axis.col 2)) • bv.obb.axis.col 2,
        sqrt (r0 * r0 - extent.get 2 * extent.get 2) * invSinA⟩ ∧
    (kIOS_spheres_12 sqrt maxDist center extent r0 bv).spheres 3 = bv.spheres 3 ∧
    (kIOS_spheres_12 sqrt maxDist center extent r0 bv).spheres 4 = bv.spheres 4 := by
  unfold kIOS_spheres_12
  rw [if_pos h]
  refine ⟨?_, ?_, ?_, ?_⟩ <;>
    simp [kIOS.setO_spheres, kIOS.setR_spheres]

theorem kIOS_spheres_34_values (sqrt : K → K) (maxDist : Vec3 K → K)
    (extent : Vec3 K) (bv : kIOS K) (h : bv.num_spheres ≥ 5) :
    (kIOS_spheres_34 sqrt maxDist extent bv).spheres 3 =
      ⟨((bv.spheres 0).o - (sqrt ((bv.spheres 1).r * (bv.spheres 1).r
            - extent.get 0 * extent.get 0 - extent.get 2 * extent.get 2)
            - extent.get 1) • bv.obb.axis.col 1) +
          (-(bv.spheres 1).r +
            maxDist ((bv.spheres 0).o - (sqrt ((bv.spheres 1).r * (bv.spheres 1).r
              - extent.get 0 * extent.get 0 - extent.get 2 * extent.get 2)
              - extent.get 1) • bv.obb.axis.col 1)) • bv.obb.axis.col 1,
        (bv.spheres 1).r⟩ ∧
    (kIOS_spheres_34 sqrt maxDist extent bv).spheres 4 =
      ⟨((bv.spheres 0).o + (sqrt ((bv.spheres 1).r * (bv.spheres 1).r
            - extent.get 0 * extent.get 0 - extent.get 2 * extent.get 2)
            - extent.get 1) • bv.obb.axis.col 1) +
          ((bv.spheres 1).r -
            maxDist ((bv.spheres 0).o + (sqrt ((bv.spheres 1).r * (bv.spheres 1).r
              - extent.get 0 * extent.get 0 - extent.get 2 * extent.get 2)
              - extent.get 1) • bv.obb.axis.col 1)) • bv.obb.axis.col 1,
        (bv.spheres 1).r⟩ := by
  unfold kIOS_spheres_34
  rw [if_pos h]
  refine ⟨?_, ?_⟩ <;>
    simp [kIOS.setO_spheres, kIOS.setR_spheres]

theorem kIOS_spheres_34_low (sqrt : K → K) (maxDist : Vec3 K → K)
    (extent : Vec3 K) (bv : kIOS K) :
    (kIOS_spheres_34 sqrt maxDist extent bv).spheres 1 = bv.spheres 1 ∧
    (kIOS_spheres_34 sqrt maxDist extent bv).spheres 2 = bv.spheres 2 := by
  unfold kIOS_spheres_34
  split_ifs
  · constructor <;> simp [kIOS.setO_spheres, kIOS.setR_spheres]
  · exact ⟨rfl, rfl⟩

/-- The two placement blocks read only `obb`, `num_spheres` and sphere 0 of their input. -/
theorem kIOS_blocks_agree (sqrt : K → K) (maxDist : Vec3 K → K) (center extent : Vec3 K)
    (r0 : K) (b b' : kIOS K) (hobb : b.obb = b'.obb) (hnum : b.num_spheres = b'.num_spheres)
    (h0 : b.spheres 0 = b'.spheres 0)
    (hk : b.num_spheres = 1 ∨ b.num_spheres = 3 ∨ b.num_spheres = 5)
    (i : Fin 5) (hi : i.val < b.num_spheres) :
    (kIOS_spheres_34 sqrt maxDist extent
        (kIOS_spheres_12 sqrt maxDist center extent r0 b)).spheres i =
      (kIOS_spheres_34 sqrt maxDist extent
        (kIOS_spheres_12 sqrt maxDist center extent r0 b')).spheres i := by
  have A0 : (kIOS_spheres_34 sqrt maxDist extent
        (kIOS_spheres_12 sqrt maxDist center extent r0 b)).spheres 0 =
      (kIOS_spheres_34 sqrt maxDist extent
        (kIOS_spheres_12 sqrt maxDist center extent r0 b')).spheres 0 := by
    rw [kIOS_spheres_34_zero, kIOS_spheres_34_zero, kIOS_spheres_12_zero,
      kIOS_spheres_12_zero, h0]
  have A12 : b.num_spheres ≥ 3 →
      (kIOS_spheres_12 sqrt maxDist center extent r0 b).spheres 1 =
        (kIOS_spheres_12 sqrt maxDist center extent r0 b').spheres 1 ∧
      (kIOS_spheres_12 sqrt maxDist center extent r0 b).spheres 2 =
        (kIOS_spheres_12 sqrt maxDist center extent r0 b').spheres 2 := by
    intro h3
    have h3' : b'.num_spheres ≥ 3 := hnum ▸ h3
    obtain ⟨v1, v2, -, -⟩ := kIOS_spheres_12_values sqrt maxDist center extent r0 b h3
    obtain ⟨w1, w2, -, -⟩ := kIOS_spheres_12_values sqrt maxDist center extent r0 b' h3'
    exact ⟨by rw [v1, w1, hobb], by rw [v2, w2, hobb]⟩
  have B12 : b.num_spheres ≥ 3 →
      (kIOS_spheres_34 sqrt maxDist extent
          (kIOS_spheres_12 sqrt maxDist center extent r0 b)).spheres 1 =
        (kIOS_spheres_34 sqrt maxDist extent
          (kIOS_spheres_12 sqrt maxDist center extent r0 b')).spheres 1 ∧
      (kIOS_spheres_34 sqrt maxDist extent
          (kIOS_spheres_12 sqrt maxDist center extent r0 b)).spheres 2 =
        (kIOS_spheres_34 sqrt maxDist extent
          (kIOS_spheres_12 sqrt maxDist center extent r0 b')).spheres 2 := by
    intro h3
    obtain ⟨e1, e2⟩ := A12 h3
    obtain ⟨l1, l2⟩ := kIOS_spheres_34_low sqrt maxDist extent
      (kIOS_spheres_12 sqrt maxDist center extent r0 b)
    obtain ⟨m1, m2⟩ := kIOS_spheres_34_low sqrt maxDist extent
      (kIOS_spheres_12 sqrt maxDist center extent r0 b')
    exact ⟨l1.trans (e1.trans m1.symm), l2.trans (e2.trans m2.symm)⟩
  have B34 : b.num_spheres ≥ 5 →
      (kIOS_spheres_34 sqrt maxDist extent
          (kIOS_spheres_12 sqrt maxDist center extent r0 b)).spheres 3 =
        (kIOS_spheres_34 sqrt maxDist extent
          (kIOS_spheres_12 sqrt maxDist center extent r0 b')).spheres 3 ∧
      (kIOS_spheres_34 sqrt maxDist extent
          (kIOS_spheres_12 sqrt maxDist center extent r0 b)).spheres 4 =
        (kIOS_spheres_34 sqrt maxDist extent
          (kIOS_spheres_12 sqrt maxDist center extent r0 b')).spheres 4 := by
    intro h5
    obtain ⟨e1, -⟩ := A12 (le_trans (by decide) h5)
    have e0 : (kIOS_spheres_12 sqrt maxDist center extent r0 b).spheres 0 =
        (kIOS_spheres_12 sqrt maxDist center extent r0 b').spheres 0 := by
      rw [kIOS_spheres_12_zero, kIOS_spheres_12_zero, h0]
    have g5 : (kIOS_spheres_12 sqrt maxDist center extent r0 b).num_spheres ≥ 5 := by
      rw [kIOS_spheres_12_num]; exact h5
    have g5' : (kIOS_spheres_12 sqrt maxDist center extent r0 b').num_spheres ≥ 5 := by
      rw [kIOS_spheres_12_num, ← hnum]; exact h5
    obtain ⟨x3, x4⟩ := kIOS_spheres_34_values sqrt maxDist extent _ g5
    obtain ⟨y3, y4⟩ := kIOS_spheres_34_values sqrt maxDist extent _ g5'
    constructor
    · rw [x3, y3, e0, e1, kIOS_spheres_12_obb, kIOS_spheres_12_obb, hobb]
    · rw [x4, y4, e0, e1, kIOS_spheres_12_obb, kIOS_spheres_12_obb, hobb]
  have hcases : i = 0 ∨ (i = 1 ∧ b.num_spheres ≥ 3) ∨ (i = 2 ∧ b.num_spheres ≥ 3) ∨
      (i = 3 ∧ b.num_spheres ≥ 5) ∨ (i = 4 ∧ b.num_spheres ≥ 5) := by
    fin_cases i <;> simp at hi ⊢ <;> omega
  rcases hcases with h | ⟨h, g⟩ | ⟨h, g⟩ | ⟨h, g⟩ | ⟨h, g⟩
  · rw [h]; exact A0
  · rw [h]; exact (B12 g).1
  · rw [h]; exact (B12 g).2
  · rw [h]; exact (B34 g).1
  · rw [h]; exact (B34 g).2

/-- The direct general-n kIOS fit as the composition of its blocks. -/
theorem kIOS_fitn_blocks (U : Utility K) (ps : Ptr K) (n : Int) (bv : kIOS K) :
    kIOS_fit_functions.fitn U ps n bv =
      kIOS_spheres_34 U.sqrt (fun q => U.maximumDistance ps none none none n q)
        (kIOS_fit_functions.fitn U ps n bv).obb.extent
        (kIOS_spheres_12 U.sqrt (fun q => U.maximumDistance ps none none none n q)
          (kIOS_fit_functions.fitn U ps n bv).obb.To
          (kIOS_fit_functions.fitn U ps n bv).obb.extent
          (U.maximumDistance ps none none none n (kIOS_fit_functions.fitn U ps n bv).obb.To)
          (((kIOS_decide_k (kIOS_fit_functions.fitn U ps n bv).obb.extent
              (bv.setObb (kIOS_fit_functions.fitn U ps n bv).obb)).setO 0
              (kIOS_fit_functions.fitn U ps n bv).obb.To).setR 0
            (U.maximumDistance ps none none none n
              (kIOS_fit_functions.fitn U ps n bv).obb.To))) := by
  have hobb : (kIOS_fit_functions.fitn U ps n bv).obb =
      ((bv.obb.setAxis (axisFromEigen (U.eigen (U.getCovariance ps none none none n)).2
          (U.eigen (U.getCovariance ps none none none n)).1 bv.obb.axis)).setTo
        (U.getExtentAndCenter ps none none none n
          (axisFromEigen (U.eigen (U.getCovariance ps none none none n)).2
            (U.eigen (U.getCovariance ps none none none n)).1 bv.obb.axis)).1).setExtent
        (U.getExtentAndCenter ps none none none n
          (axisFromEigen (U.eigen (U.getCovariance ps none none none n)).2
            (U.eigen (U.getCovariance ps none none none n)).1 bv.obb.axis)).2 := by
    simp only [kIOS_fit_functions.fitn, kIOS_spheres_34_obb, kIOS_spheres_12_obb,
      kIOS.setR_obb, kIOS.setO_obb, kIOS_decide_k_obb, kIOS.setObb_obb, OBB.setAxis_axis,
      OBB.setTo_axis]
  rw [hobb]
  rfl

/-- The indexed kIOS fitter with the same initial content. -/
theorem BVFitter_kIOS_eq_fitn (U : Utility K) (F : BVFitter K)
    (primitive_indices : Option (Nat → Nat)) (num_primitives : Int) (ps : Ptr K) (n : Int)
    (bv : kIOS K)
    (hcov : U.getCovariance F.vertices F.prev_vertices F.tri_indices primitive_indices
        num_primitives = U.getCovariance ps none none none n)
    (hext : ∀ axis : Mat3 K,
      U.getExtentAndCenter F.vertices F.prev_vertices F.tri_indices primitive_indices
        num_primitives axis = U.getExtentAndCenter ps none none none n axis)
    (hmax : ∀ q : Vec3 K,
      U.maximumDistance F.vertices F.prev_vertices F.tri_indices primitive_indices
        num_primitives q = U.maximumDistance ps none none none n q) :
    BVFitter.fit_kIOS U F primitive_indices num_primitives bv =
      kIOS_fit_functions.fitn U ps n bv := by
  have hm : (fun q => U.maximumDistance F.vertices F.prev_vertices F.tri_indices
      primitive_indices num_primitives q) =
      (fun q => U.maximumDistance ps none none none n q) := funext hmax
  simp only [BVFitter.fit_kIOS, kIOS_fit_functions.fitn, hcov, hext, hmax, hm]

end Blocks

/-! ## The indexed kIOS fitter -/

section Indexed

variable {K : Type} [LinearOrderedField K]

theorem kIOS_decide_k_cases (extent : Vec3 K) (bv : kIOS K) :
    (kIOS_decide_k extent bv).num_spheres = 1 ∨ (kIOS_decide_k extent bv).num_spheres = 3 ∨
      (kIOS_decide_k extent bv).num_spheres = 5 := by
  rw [kIOS_decide_k_num]
  split_ifs <;> simp

theorem kIOS_fitn_obb (U : Utility K) (ps : Ptr K) (n : Int) (bv : kIOS K) :
    (kIOS_fit_functions.fitn U ps n bv).obb =
      ⟨axisFromEigen (U.eigen (U.getCovariance ps none none none n)).2
          (U.eigen (U.getCovariance ps none none none n)).1 bv.obb.axis,
        (U.getExtentAndCenter ps none none none n
          (axisFromEigen (U.eigen (U.getCovariance ps none none none n)).2
            (U.eigen (U.getCovariance ps none none none n)).1 bv.obb.axis)).1,
        (U.getExtentAndCenter ps none none none n
          (axisFromEigen (U.eigen (U.getCovariance ps none none none n)).2
            (U.eigen (U.getCovariance ps none none none n)).1 bv.obb.axis)).2⟩ := by
  simp only [kIOS_fit_functions.fitn, kIOS_spheres_34_obb, kIOS_spheres_12_obb,
    kIOS.setR_obb, kIOS.setO_obb, kIOS_decide_k_obb, kIOS.setObb_obb, OBB.setAxis_axis,
    OBB.setTo_axis]
  rfl

/-- The general-n kIOS fit does not depend on the content of `bv`, up to the
spheres that are not in use. -/
theorem kIOS_fitn_overwrites (U : Utility K) (ps : Ptr K) (n : Int) (bv bv' : kIOS K) :
    (kIOS_fit_functions.fitn U ps n bv).obb = (kIOS_fit_functions.fitn U ps n bv').obb ∧
    (kIOS_fit_functions.fitn U ps n bv).num_spheres =
      (kIOS_fit_functions.fitn U ps n bv').num_spheres ∧
    ∀ i : Fin 5, i.val < (kIOS_fit_functions.fitn U ps n bv).num_spheres →
      (kIOS_fit_functions.fitn U ps n bv).spheres i =
        (kIOS_fit_functions.fitn U ps n bv').spheres i := by
  have hobb : (kIOS_fit_functions.fitn U ps n bv).obb =
      (kIOS_fit_functions.fitn U ps n bv').obb := by
    rw [kIOS_fitn_obb, kIOS_fitn_obb, axisFromEigen_overwrites _ _ bv.obb.axis bv'.obb.axis]
  have hnum : (kIOS_fit_functions.fitn U ps n bv).num_spheres =
      (kIOS_fit_functions.fitn U ps n bv').num_spheres := by
    rw [kIOS_fitn_num, kIOS_fitn_num, hobb]
  refine ⟨hobb, hnum, ?_⟩
  intro i hi
  have hn1 : (kIOS_fit_functions.fitn U ps n bv).num_spheres =
      (kIOS_decide_k (kIOS_fit_functions.fitn U ps n bv).obb.extent
        (bv.setObb (kIOS_fit_functions.fitn U ps n bv).obb)).num_spheres := by
    rw [kIOS_fitn_num, kIOS_decide_k_num]
  rw [kIOS_fitn_blocks U ps n bv, kIOS_fitn_blocks U ps n bv', ← hobb]
  apply kIOS_blocks_agree
  · simp only [kIOS.setR_obb, kIOS.setO_obb, kIOS_decide_k_obb, kIOS.setObb_obb]
  · simp only [kIOS.setR_num, kIOS.setO_num, kIOS_decide_k_num]
  · simp [kIOS.setR_spheres, kIOS.setO_spheres]
  · simp only [kIOS.setR_num, kIOS.setO_num]
    exact kIOS_decide_k_cases _ _
  · simp only [kIOS.setR_num, kIOS.setO_num]
    rw [← hn1]; exact hi

/-- C20. The indexed kIOS fitter refines the direct general-n fit: if the
covariance estimator, the box projector and the maximum-distance routine return
on the indexed data what they return on the point array, then
`BVFitter<kIOS>::fit` returns the same kIOS as `kIOS_fit_functions::fitn` when
both start from the same content, and for any content of its local volume the
same OBB, sphere count and spheres in use; this holds for every primitive
count, so no closed-form path is taken. -/
theorem BVFitter_kIOS_refines_fitn (U : Utility K) (F : BVFitter K)
    (primitive_indices : Option (Nat → Nat)) (num_primitives : Int) (ps : Ptr K) (n : Int)
    (bv bv' : kIOS K)
    (hcov : U.getCovariance F.vertices F.prev_vertices F.tri_indices primitive_indices
        num_primitives = U.getCovariance ps none none none n)
    (hext : ∀ axis : Mat3 K,
      U.getExtentAndCenter F.vertices F.prev_vertices F.tri_indices primitive_indices
        num_primitives axis = U.getExtentAndCenter ps none none none n axis)
    (hmax : ∀ q : Vec3 K,
      U.maximumDistance F.vertices F.prev_vertices F.tri_indices primitive_indices
        num_primitives q = U.maximumDistance ps none none none n q) :
    BVFitter.fit_kIOS U F primitive_indices num_primitives bv =
      kIOS_fit_functions.fitn U ps n bv ∧
    (BVFitter.fit_kIOS U F primitive_indices num_primitives bv').obb =
      (kIOS_fit_functions.fitn U ps n bv).obb ∧
    (BVFitter.fit_kIOS U F primitive_indices num_primitives bv').num_spheres =
      (kIOS_fit_functions.fitn U ps n bv).num_spheres ∧
    ∀ i : Fin 5, i.val < (kIOS_fit_functions.fitn U ps n bv).num_spheres →
      (BVFitter.fit_kIOS U F primitive_indices num_primitives bv').spheres i =
        (kIOS_fit_functions.fitn U ps n bv).spheres i := by
  have e := BVFitter_kIOS_eq_fitn U F primitive_indices num_primitives ps n bv hcov hext hmax
  have e' := BVFitter_kIOS_eq_fitn U F primitive_indices num_primitives ps n bv' hcov hext hmax
  obtain ⟨a, b, c⟩ := kIOS_fitn_overwrites U ps n bv bv'
  rw [e']
  exact ⟨e, a.symm, b.symm, fun i hi => (c i hi).symm⟩

/-- Witness of C20: the vertex buffer is the point array, no index list. -/
theorem BVFitter_kIOS_refines_fitn_witness :
    BVFitter.fit_kIOS (Utility.model Real.sqrt)
        ⟨Ptr.ofList [⟨12, 0, 0⟩, ⟨-12, 0, 0⟩, ⟨0, 37 / 4, 10⟩, ⟨0, -37 / 4, 10⟩], none, none⟩
        none 4 kIOS.fresh =
      kIOS_fit_functions.fitn (Utility.model Real.sqrt)
        (Ptr.ofList [⟨12, 0, 0⟩, ⟨-12, 0, 0⟩, ⟨0, 37 / 4, 10⟩, ⟨0, -37 / 4, 10⟩]) 4
        kIOS.fresh :=
  (BVFitter_kIOS_refines_fitn (Utility.model Real.sqrt)
    ⟨Ptr.ofList [⟨12, 0, 0⟩, ⟨-12, 0, 0⟩, ⟨0, 37 / 4, 10⟩, ⟨0, -37 / 4, 10⟩], none, none⟩
    none 4 (Ptr.ofList [⟨12, 0, 0⟩, ⟨-12, 0, 0⟩, ⟨0, 37 / 4, 10⟩, ⟨0, -37 / 4, 10⟩]) 4
    kIOS.fresh kIOS.fresh rfl (fun _ => rfl) (fun _ => rfl)).1

end Indexed

/-! ## Spheres of the closed-form kIOS fits -/

section ClosedSpheres

variable {K : Type} [LinearOrderedField K]

/-- The fields written by kIOS `fit2`. -/
theorem kIOS_fit2_fields (U : Utility K) (ps : Ptr K) (bv : kIOS K) :
    (kIOS_fit_functions.fit2 U ps bv).obb.axis =
      U.generateCoordinateSystem
        (bv.obb.axis.setCol 0 ((ps 0 - ps 1).normalized U.sqrt)) ∧
    (kIOS_fit_functions.fit2 U ps bv).obb.extent = ⟨(ps 0 - ps 1).norm U.sqrt * 0.5, 0, 0⟩ ∧
    (kIOS_fit_functions.fit2 U ps bv).spheres 1 =
      ⟨(0.5 : K) • (ps 0 + ps 1) -
          ((ps 0 - ps 1).norm U.sqrt * 0.5 * invSinA * cosA U.sqrt) •
            (kIOS_fit_functions.fit2 U ps bv).obb.axis.col 1,
        (ps 0 - ps 1).norm U.sqrt * 0.5 * invSinA⟩ ∧
    (kIOS_fit_functions.fit2 U ps bv).spheres 2 =
      ⟨(0.5 : K) • (ps 0 + ps 1) +
          ((ps 0 - ps 1).norm U.sqrt * 0.5 * invSinA * cosA U.sqrt) •
            (kIOS_fit_functions.fit2 U ps bv).obb.axis.col 1,
        (ps 0 - ps 1).norm U.sqrt * 0.5 * invSinA⟩ ∧
    (kIOS_fit_functions.fit2 U ps bv).spheres 3 =
      ⟨(0.5 : K) • (ps 0 + ps 1) -
          ((ps 0 - ps 1).norm U.sqrt * 0.5 * invSinA * cosA U.sqrt) •
            (kIOS_fit_functions.fit2 U ps bv).obb.axis.col 2,
        (ps 0 - ps 1).norm U.sqrt * 0.5 * invSinA⟩ ∧
    (kIOS_fit_functions.fit2 U ps bv).spheres 4 =
      ⟨(0.5 : K) • (ps 0 + ps 1) +
          ((ps 0 - ps 1).norm U.sqrt * 0.5 * invSinA * cosA U.sqrt) •
            (kIOS_fit_functions.fit2 U ps bv).obb.axis.col 2,
        (ps 0 - ps 1).norm U.sqrt * 0.5 * invSinA⟩ := by
  refine ⟨rfl, rfl, ?_, ?_, ?_, ?_⟩ <;>
    simp [kIOS_fit_functions.fit2, kIOS.setO_spheres, kIOS.setR_spheres]

/-- The fields written by kIOS `fit3` to spheres 1 and 2. -/
theorem kIOS_fit3_fields (U : Utility K) (ps : Ptr K) (bv : kIOS K) :
    (kIOS_fit_functions.fit3 U ps bv).spheres 1 =
      ⟨(U.circumCircleComputation (ps 0) (ps 1) (ps 2)).1 -
          ((U.circumCircleComputation (ps 0) (ps 1) (ps 2)).2 * invSinA * cosA U.sqrt) •
            (kIOS_fit_functions.fit3 U ps bv).obb.axis.col 2,
        (U.circumCircleComputation (ps 0) (ps 1) (ps 2)).2 * invSinA⟩ ∧
    (kIOS_fit_functions.fit3 U ps bv).spheres 2 =
      ⟨(U.circumCircleComputation (ps 0) (ps 1) (ps 2)).1 +
          ((U.circumCircleComputation (ps 0) (ps 1) (ps 2)).2 * invSinA * cosA U.sqrt) •
            (kIOS_fit_functions.fit3 U ps bv).obb.axis.col 2,
        (U.circumCircleComputation (ps 0) (ps 1) (ps 2)).2 * invSinA⟩ := by
  constructor <;>
    simp [kIOS_fit_functions.fit3, kIOS.setO_spheres, kIOS.setR_spheres]

theorem invSinA_mul_cosA {sqrt : K → K} (r : K) :
    r * invSinA * cosA sqrt = sqrt 3 * r := by
  unfold invSinA cosA
  norm_num
  ring

theorem sqrt_three_sq {sqrt : K → K} (hs : IsSqrt sqrt) : sqrt 3 * sqrt 3 = 3 :=
  hs.mul_self (by norm_num)

/-- Pythagoras: a point at `x` along a unit vector `a` and `y` along a vector `b` that is
perpendicular to it. -/
theorem Vec3.squaredNorm_add_perp (u v : Vec3 K) (h : u.dot v = 0) :
    (u + v).squaredNorm = u.squaredNorm + v.squaredNorm ∧
    (u - v).squaredNorm = u.squaredNorm + v.squaredNorm := by
  simp only [Vec3.squaredNorm, Vec3.dot, Vec3.add_x, Vec3.add_y, Vec3.add_z, Vec3.sub_x,
    Vec3.sub_y, Vec3.sub_z] at h ⊢
  constructor
  · linear_combination 2 * h
  · linear_combination (-2) * h

theorem Vec3.squaredNorm_smul (c : K) (v : Vec3 K) :
    (c • v).squaredNorm = c * c * v.squaredNorm := by
  simp only [Vec3.squaredNorm, Vec3.dot, Vec3.smul_x, Vec3.smul_y, Vec3.smul_z]; ring

theorem Vec3.dot_smul (c : K) (u v : Vec3 K) : u.dot (c • v) = c * u.dot v := by
  simp only [Vec3.dot, Vec3.smul_x, Vec3.smul_y, Vec3.smul_z]; ring

theorem Vec3.smul_dot (c : K) (u v : Vec3 K) : (c • u).dot v = c * u.dot v := by
  simp only [Vec3.dot, Vec3.smul_x, Vec3.smul_y, Vec3.smul_z]; ring

/-- A point `p` at squared distance `r²` from `c`, with `p - c` perpendicular to the unit
vector `a`, is at distance `2 r` from `c - (√3 r) a` and from `c + (√3 r) a`. -/
theorem dist_to_offset_center {sqrt : K → K} (hs : IsSqrt sqrt) (p c a : Vec3 K) (r : K)
    (hr : 0 ≤ r) (hp : (p - c).squaredNorm = r * r) (ha : a.squaredNorm = 1)
    (hperp : (p - c).dot a = 0) :
    (p - c).norm sqrt = r ∧
    (p - (c - (sqrt 3 * r) • a)).norm sqrt = 2 * r ∧
    (p - (c + (sqrt 3 * r) • a)).norm sqrt = 2 * r := by
  have h3 := sqrt_three_sq hs
  have e1 : p - (c - (sqrt 3 * r) • a) = (p - c) + (sqrt 3 * r) • a := by
    ext <;> simp <;> ring
  have e2 : p - (c + (sqrt 3 * r) • a) = (p - c) - (sqrt 3 * r) • a := by
    ext <;> simp <;> ring
  have hd : (p - c).dot ((sqrt 3 * r) • a) = 0 := by rw [Vec3.dot_smul, hperp, mul_zero]
  obtain ⟨s1, s2⟩ := Vec3.squaredNorm_add_perp _ _ hd
  refine ⟨Vec3.norm_eq_of_sq hs _ hr hp.symm, ?_, ?_⟩
  · apply Vec3.norm_eq_of_sq hs _ (by positivity)
    rw [e1, s1, hp, Vec3.squaredNorm_smul, ha]
    linear_combination (-(r * r)) * h3
  · apply Vec3.norm_eq_of_sq hs _ (by positivity)
    rw [e2, s2, hp, Vec3.squaredNorm_smul, ha]
    linear_combination (-(r * r)) * h3

end ClosedSpheres

/-! ## Covering by the closed-form kIOS spheres -/

section ClosedCover

variable {K : Type} [LinearOrderedField K]

/-- C19 (amended). kIOS `fit2` on points `p1`, `p2` in the range `SafePair`
(coordinates of magnitude at most `2^500`, distance at least `2^(-500)`), with a
basis completion that meets its contract (so `axis0 = (p1 - p2)/|p1 - p2|` and
the frame is orthonormal): five spheres; `spheres[0]` is the midpoint with
radius `r0 = |p1 - p2|/2`; the four others have radius `2 r0` and centres
`midpoint ∓ √3 r0 axis1`, `midpoint ∓ √3 r0 axis2`; in exact arithmetic both
points are at distance exactly `r0` from `spheres[0].o` and exactly `2 r0` from
each other centre.  Rounding apart, `FCL_REAL` computes these values on that
range: the squared distance neither overflows nor underflows. -/
theorem kIOS_fit2_five_spheres (U : Utility K) (hs : IsSqrt U.sqrt)
    (hg : CompletesBasis U.generateCoordinateSystem) (ps : Ptr K) (bv : kIOS K)
    (hsafe : SafePair (ps 0) (ps 1)) :
    (kIOS_fit_functions.fit2 U ps bv).num_spheres = 5 ∧
    (kIOS_fit_functions.fit2 U ps bv).obb.axis.col 0 =
      (ps 0 - ps 1).div ((ps 0 - ps 1).norm U.sqrt) ∧
    (kIOS_fit_functions.fit2 U ps bv).spheres 0 =
      ⟨(1 / 2 : K) • (ps 0 + ps 1), (ps 0 - ps 1).norm U.sqrt / 2⟩ ∧
    (kIOS_fit_functions.fit2 U ps bv).spheres 1 =
      ⟨(1 / 2 : K) • (ps 0 + ps 1) - (U.sqrt 3 * ((ps 0 - ps 1).norm U.sqrt / 2)) •
          (kIOS_fit_functions.fit2 U ps bv).obb.axis.col 1,
        2 * ((ps 0 - ps 1).norm U.sqrt / 2)⟩ ∧
    (kIOS_fit_functions.fit2 U ps bv).spheres 2 =
      ⟨(1 / 2 : K) • (ps 0 + ps 1) + (U.sqrt 3 * ((ps 0 - ps 1).norm U.sqrt / 2)) •
          (kIOS_fit_functions.fit2 U ps bv).obb.axis.col 1,
        2 * ((ps 0 - ps 1).norm U.sqrt / 2)⟩ ∧
    (kIOS_fit_functions.fit2 U ps bv).spheres 3 =
      ⟨(1 / 2 : K) • (ps 0 + ps 1) - (U.sqrt 3 * ((ps 0 - ps 1).norm U.sqrt / 2)) •
          (kIOS_fit_functions.fit2 U ps bv).obb.axis.col 2,
        2 * ((ps 0 - ps 1).norm U.sqrt / 2)⟩ ∧
    (kIOS_fit_functions.fit2 U ps bv).spheres 4 =
      ⟨(1 / 2 : K) • (ps 0 + ps 1) + (U.sqrt 3 * ((ps 0 - ps 1).norm U.sqrt / 2)) •
          (kIOS_fit_functions.fit2 U ps bv).obb.axis.col 2,
        2 * ((ps 0 - ps 1).norm U.sqrt / 2)⟩ ∧
    ∀ i : Fin 5,
      (ps 0 - ((kIOS_fit_functions.fit2 U ps bv).spheres i).o).norm U.sqrt =
          ((kIOS_fit_functions.fit2 U ps bv).spheres i).r ∧
      (ps 1 - ((kIOS_fit_functions.fit2 U ps bv).spheres i).o).norm U.sqrt =
          ((kIOS_fit_functions.fit2 U ps bv).spheres i).r := by
  have hne : ps 0 ≠ ps 1 := hsafe.ne
  have hv : ps 0 - ps 1 ≠ 0 := Vec3.sub_ne_zero_of_ne hne
  have hd := Vec3.norm_pos hs hv
  have hdd := Vec3.norm_mul_self hs (ps 0 - ps 1)
  have h5 : (0.5 : K) = 1 / 2 := by norm_num
  obtain ⟨hax, -, f1, f2, f3, f4⟩ := kIOS_fit2_fields U ps bv
  obtain ⟨f0o, f0r, -⟩ := kIOS_fit2_sphere0 U ps bv
  have hunit : ((bv.obb.axis.setCol 0 ((ps 0 - ps 1).normalized U.sqrt)).col 0).squaredNorm
      = 1 := by
    rw [Mat3.col0_setCol0]; exact Vec3.squaredNorm_normalized hs hv
  obtain ⟨hc0, hu0, hu1, hu2, h01, h02, -⟩ := hg _ hunit
  rw [← hax] at hc0 hu0 hu1 hu2 h01 h02
  rw [Mat3.col0_setCol0, Vec3.normalized_of_ne _ hv] at hc0
  set B := kIOS_fit_functions.fit2 U ps bv with hB
  set d := (ps 0 - ps 1).norm U.sqrt with hdef
  have g0 : B.spheres 0 = ⟨(1 / 2 : K) • (ps 0 + ps 1), d / 2⟩ := by
    cases hsp : B.spheres 0 with
    | mk o r =>
      rw [hsp] at f0o f0r
      simp only at f0o f0r
      rw [f0o, f0r, h5, mul_one_div]
  have hk : d * 0.5 * invSinA * cosA U.sqrt = U.sqrt 3 * (d / 2) := by
    rw [invSinA_mul_cosA, h5, mul_one_div]
  have hr1 : d * 0.5 * invSinA = 2 * (d / 2) := by
    unfold invSinA; rw [h5]; ring
  rw [hk, hr1, h5] at f1 f2 f3 f4
  refine ⟨rfl, hc0, g0, f1, f2, f3, f4, ?_⟩
  -- the two points are at ±d/2 along axis 0 from the midpoint
  have q0 : ps 0 - (1 / 2 : K) • (ps 0 + ps 1) = (d / 2) • B.obb.axis.col 0 := by
    rw [hc0]; ext <;> simp <;> field_simp <;> ring
  have q1 : ps 1 - (1 / 2 : K) • (ps 0 + ps 1) = (-(d / 2)) • B.obb.axis.col 0 := by
    rw [hc0]; ext <;> simp <;> field_simp <;> ring
  have n0 : (ps 0 - (1 / 2 : K) • (ps 0 + ps 1)).squaredNorm = d / 2 * (d / 2) := by
    rw [q0, Vec3.squaredNorm_smul, hu0, mul_one]
  have n1 : (ps 1 - (1 / 2 : K) • (ps 0 + ps 1)).squaredNorm = d / 2 * (d / 2) := by
    rw [q1, Vec3.squaredNorm_smul, hu0, mul_one]; ring
  have p01 : (ps 0 - (1 / 2 : K) • (ps 0 + ps 1)).dot (B.obb.axis.col 1) = 0 := by
    rw [q0, Vec3.smul_dot, h01, mul_zero]
  have p02 : (ps 0 - (1 / 2 : K) • (ps 0 + ps 1)).dot (B.obb.axis.col 2) = 0 := by
    rw [q0, Vec3.smul_dot, h02, mul_zero]
  have p11 : (ps 1 - (1 / 2 : K) • (ps 0 + ps 1)).dot (B.obb.axis.col 1) = 0 := by
    rw [q1, Vec3.smul_dot, h01, mul_zero]
  have p12 : (ps 1 - (1 / 2 : K) • (ps 0 + ps 1)).dot (B.obb.axis.col 2) = 0 := by
    rw [q1, Vec3.smul_dot, h02, mul_zero]
  have hr : (0 : K) ≤ d / 2 := by positivity
  obtain ⟨a0, a1, a2⟩ := dist_to_offset_center hs (ps 0) _ _ (d / 2) hr n0 hu1 p01
  obtain ⟨-, a3, a4⟩ := dist_to_offset_center hs (ps 0) _ _ (d / 2) hr n0 hu2 p02
  obtain ⟨b0, b1, b2⟩ := dist_to_offset_center hs (ps 1) _ _ (d / 2) hr n1 hu1 p11
  obtain ⟨-, b3, b4⟩ := dist_to_offset_center hs (ps 1) _ _ (d / 2) hr n1 hu2 p12
  intro i
  have hcases : i = 0 ∨ i = 1 ∨ i = 2 ∨ i = 3 ∨ i = 4 := by
    fin_cases i <;> simp
  rcases hcases with h | h | h | h | h <;> rw [h]
  · rw [g0]; exact ⟨a0, b0⟩
  · rw [f1]; exact ⟨a1, b1⟩
  · rw [f2]; exact ⟨a2, b2⟩
  · rw [f3]; exact ⟨a3, b3⟩
  · rw [f4]; exact ⟨a4, b4⟩


theorem circumCircle_triangle345 :
    circumCircleComputation_model Real.sqrt (⟨0, 0, 0⟩ : Vec3 ℝ) ⟨3, 0, 0⟩ ⟨0, 4, 0⟩ =
      (⟨3 / 2, 2, 0⟩, 5 / 2) := by
  have h25 : Real.sqrt 25 = 5 := isSqrt_real.eq_of_mul_self (by norm_num) (by norm_num)
  have hc : (circumCircleComputation_model Real.sqrt
      (⟨0, 0, 0⟩ : Vec3 ℝ) ⟨3, 0, 0⟩ ⟨0, 4, 0⟩).1 = ⟨3 / 2, 2, 0⟩ := by
    ext <;> simp [circumCircleComputation_model, Vec3.cross, Vec3.squaredNorm, Vec3.dot] <;>
      norm_num
  have hr : (circumCircleComputation_model Real.sqrt
      (⟨0, 0, 0⟩ : Vec3 ℝ) ⟨3, 0, 0⟩ ⟨0, 4, 0⟩).2 = 5 / 2 := by
    simp only [circumCircleComputation_model, Vec3.cross, Vec3.squaredNorm, Vec3.dot,
      Vec3.sub_x, Vec3.sub_y, Vec3.sub_z]
    norm_num
    rw [h25]; norm_num
  exact Prod.ext hc hr

/-- Witness of the amended C19: the points `(0,0,0)`, `(2,0,0)` over the reals; the first point is
at distance exactly `2 r0` from the centre of `spheres[3]`. -/
theorem kIOS_fit2_five_spheres_witness :
    ((Ptr.ofList [(⟨0, 0, 0⟩ : Vec3 ℝ), ⟨2, 0, 0⟩]) 0 -
        ((kIOS_fit_functions.fit2 (Utility.model Real.sqrt)
          (Ptr.ofList [⟨0, 0, 0⟩, ⟨2, 0, 0⟩]) kIOS.fresh).spheres 3).o).norm Real.sqrt =
      ((kIOS_fit_functions.fit2 (Utility.model Real.sqrt)
        (Ptr.ofList [⟨0, 0, 0⟩, ⟨2, 0, 0⟩]) kIOS.fresh).spheres 3).r :=
  ((kIOS_fit2_five_spheres (Utility.model Real.sqrt) isSqrt_real
    (generateCoordinateSystem_model_completes isSqrt_real)
    (Ptr.ofList [⟨0, 0, 0⟩, ⟨2, 0, 0⟩]) kIOS.fresh two_points_safe).2.2.2.2.2.2.2 3).1

end ClosedCover

/-! ## Coincident points -/

section Coincident

variable {K : Type} [LinearOrderedField K]

theorem generateCoordinateSystem_model_col0 (sqrt : K → K) (m : Mat3 K) :
    (generateCoordinateSystem_model sqrt m).col 0 = m.col 0 := by
  unfold generateCoordinateSystem_model
  simp only []
  split_ifs <;> simp

theorem Vec3.sub_self_eq_zero (p : Vec3 K) : p - p = 0 := by
  ext <;> simp

theorem Vec3.normalized_zero (sqrt : K → K) : (0 : Vec3 K).normalized sqrt = 0 := by
  simp [Vec3.normalized, Vec3.squaredNorm, Vec3.dot]

theorem Vec3.norm_zero {sqrt : K → K} (hs : IsSqrt sqrt) : (0 : Vec3 K).norm sqrt = 0 :=
  Vec3.norm_eq_of_sq hs _ le_rfl (by simp [Vec3.squaredNorm, Vec3.dot])

/-- C14 (amended). For a coincident pair (`ps[1] = ps[0] = p`, coordinates of
magnitude at most `2^500`) the three `fit2` routines substitute no fallback
direction: the difference `p - p` is the zero vector, and column 0 handed to
the basis completion is what Eigen's normalisation makes of the zero vector
(whatever that is: nothing is claimed about it, nor about the columns the
completion derives from it, nor about the centres of the four auxiliary kIOS
spheres, which are built on those columns).  The extent, the lengths and all
radii are 0, and the centre (OBB, kIOS), the origin (RSS) and the centre of
`spheres[0]` are `p`. -/
theorem fit2_coincident_points (U : Utility K) (hs : IsSqrt U.sqrt) (ps : Ptr K)
    (bo : OBB K) (br : RSS K) (bk : kIOS K)
    (h : ps 1 = ps 0 ∧ (ps 0).Within (2 ^ 500)) :
    ps 0 - ps 1 = 0 ∧
    ((OBB_fit_functions.fit2 U ps bo).axis =
        U.generateCoordinateSystem (bo.axis.setCol 0 (Vec3.normalized U.sqrt 0)) ∧
      (OBB_fit_functions.fit2 U ps bo).extent = ⟨0, 0, 0⟩ ∧
      (OBB_fit_functions.fit2 U ps bo).To = ps 0) ∧
    ((RSS_fit_functions.fit2 U ps br).axis =
        U.generateCoordinateSystem (br.axis.setCol 0 (Vec3.normalized U.sqrt 0)) ∧
      (RSS_fit_functions.fit2 U ps br).l0 = 0 ∧
      (RSS_fit_functions.fit2 U ps br).l1 = 0 ∧
      (RSS_fit_functions.fit2 U ps br).r = 0 ∧
      (RSS_fit_functions.fit2 U ps br).Tr = ps 0) ∧
    ((kIOS_fit_functions.fit2 U ps bk).obb.axis =
        U.generateCoordinateSystem (bk.obb.axis.setCol 0 (Vec3.normalized U.sqrt 0)) ∧
      (kIOS_fit_functions.fit2 U ps bk).obb.extent = ⟨0, 0, 0⟩ ∧
      (kIOS_fit_functions.fit2 U ps bk).obb.To = ps 0 ∧
      (kIOS_fit_functions.fit2 U ps bk).spheres 0 = ⟨ps 0, 0⟩ ∧
      ∀ i : Fin 5, ((kIOS_fit_functions.fit2 U ps bk).spheres i).r = 0) := by
  have hz : ps 0 - ps 1 = 0 := by rw [h.1]; exact Vec3.sub_self_eq_zero _
  have hn : (ps 0 - ps 1).norm U.sqrt = 0 := by rw [hz]; exact Vec3.norm_zero hs
  have h5 : (0.5 : K) = 1 / 2 := by norm_num
  have hmid : (0.5 : K) • (ps 0 + ps 1) = ps 0 := by
    rw [h.1, h5]; ext <;> simp <;> ring
  obtain ⟨oT, oe, oa⟩ := OBB_fit2_fields U ps bo
  obtain ⟨rT, rl0, rl1, rr, ra⟩ := RSS_fit2_fields U ps br
  obtain ⟨ka, ke, k1, k2, k3, k4⟩ := kIOS_fit2_fields U ps bk
  obtain ⟨k0o, k0r, kT⟩ := kIOS_fit2_sphere0 U ps bk
  rw [hz] at oa ra ka
  simp only [hn, hmid, zero_mul] at oT oe rl0 ke kT k0o k0r
  have g0 : (kIOS_fit_functions.fit2 U ps bk).spheres 0 = ⟨ps 0, 0⟩ := by
    cases hsp : (kIOS_fit_functions.fit2 U ps bk).spheres 0 with
    | mk o r =>
      rw [hsp] at k0o k0r
      simp only at k0o k0r
      rw [k0o, k0r]
  refine ⟨hz, ⟨oa, oe, oT⟩, ⟨ra, rl0, rl1, rr, rT.trans h.1⟩, ka, ke, kT, g0, ?_⟩
  intro i
  have hcases : i = 0 ∨ i = 1 ∨ i = 2 ∨ i = 3 ∨ i = 4 := by
    fin_cases i <;> simp
  rcases hcases with g | g | g | g | g <;> rw [g]
  · rw [g0]
  · rw [k1, hn]; simp
  · rw [k2, hn]; simp
  · rw [k3, hn]; simp
  · rw [k4, hn]; simp

/-- Witness of the amended C14: the pair `(1,2,3)`, `(1,2,3)` over the reals. -/
theorem fit2_coincident_points_witness :
    (OBB_fit_functions.fit2 (Utility.model Real.sqrt)
        (Ptr.ofList [⟨1, 2, 3⟩, ⟨1, 2, 3⟩]) OBB.fresh).To = ⟨1, 2, 3⟩ ∧
    (OBB_fit_functions.fit2 (Utility.model Real.sqrt)
        (Ptr.ofList [⟨1, 2, 3⟩, ⟨1, 2, 3⟩]) OBB.fresh).extent = ⟨0, 0, 0⟩ :=
  have h := fit2_coincident_points (Utility.model Real.sqrt) isSqrt_real
    (Ptr.ofList [⟨1, 2, 3⟩, ⟨1, 2, 3⟩]) OBB.fresh RSS.fresh kIOS.fresh
    ⟨rfl, by
      have h0 : (Ptr.ofList [(⟨1, 2, 3⟩ : Vec3 ℝ), ⟨1, 2, 3⟩]) 0 = ⟨1, 2, 3⟩ := rfl
      rw [h0]
      refine ⟨?_, ?_, ?_⟩ <;> norm_num⟩
  ⟨h.2.1.2.2, h.2.1.2.1⟩

set_option exponentiation.threshold 10000 in
/-- Counterexample to C14: for the pair `(1,2,3)`, `(1,2,3)` axis0 of the three
`fit2` frames is the zero vector, not a unit vector (`Vec3.normalized` leaves a
zero vector as it is); a normalisation that divides unconditionally gives, in
binary64, the vector of three NaN, which is not a unit vector either. -/
theorem fit2_coincident_axis0_not_unit :
    (((⟨1, 2, 3⟩ : Vec3 F64) - ⟨1, 2, 3⟩).div
        (((⟨1, 2, 3⟩ : Vec3 F64) - ⟨1, 2, 3⟩).norm F64.sqrt) =
      ⟨F64.nan, F64.nan, F64.nan⟩) ∧
    (OBB_fit_functions.fit2 (Utility.model Real.sqrt)
        (Ptr.ofList [⟨1, 2, 3⟩, ⟨1, 2, 3⟩]) OBB.fresh).axis.col 0 = ⟨0, 0, 0⟩ ∧
    ((OBB_fit_functions.fit2 (Utility.model Real.sqrt)
        (Ptr.ofList [⟨1, 2, 3⟩, ⟨1, 2, 3⟩]) OBB.fresh).axis.col 0).squaredNorm ≠ 1 ∧
    (RSS_fit_functions.fit2 (Utility.model Real.sqrt)
        (Ptr.ofList [⟨1, 2, 3⟩, ⟨1, 2, 3⟩]) RSS.fresh).axis.col 0 = ⟨0, 0, 0⟩ ∧
    (kIOS_fit_functions.fit2 (Utility.model Real.sqrt)
        (Ptr.ofList [⟨1, 2, 3⟩, ⟨1, 2, 3⟩]) kIOS.fresh).obb.axis.col 0 = ⟨0, 0, 0⟩ := by
  have hz : (Ptr.ofList [(⟨1, 2, 3⟩ : Vec3 ℝ), ⟨1, 2, 3⟩]) 0 -
      (Ptr.ofList [(⟨1, 2, 3⟩ : Vec3 ℝ), ⟨1, 2, 3⟩]) 1 = 0 := Vec3.sub_self_eq_zero _
  have hnz : ((Ptr.ofList [(⟨1, 2, 3⟩ : Vec3 ℝ), ⟨1, 2, 3⟩]) 0 -
      (Ptr.ofList [(⟨1, 2, 3⟩ : Vec3 ℝ), ⟨1, 2, 3⟩]) 1).normalized
        (Utility.model Real.sqrt).sqrt = 0 := by
    rw [hz]; exact Vec3.normalized_zero _
  obtain ⟨-, -, oa⟩ := OBB_fit2_fields (Utility.model Real.sqrt)
    (Ptr.ofList [⟨1, 2, 3⟩, ⟨1, 2, 3⟩]) OBB.fresh
  obtain ⟨-, -, -, -, ra⟩ := RSS_fit2_fields (Utility.model Real.sqrt)
    (Ptr.ofList [⟨1, 2, 3⟩, ⟨1, 2, 3⟩]) RSS.fresh
  obtain ⟨ka, -⟩ := kIOS_fit2_fields (Utility.model Real.sqrt)
    (Ptr.ofList [⟨1, 2, 3⟩, ⟨1, 2, 3⟩]) kIOS.fresh
  rw [hnz] at oa ra ka
  have hg : ∀ m : Mat3 ℝ, ((Utility.model Real.sqrt).generateCoordinateSystem
      (m.setCol 0 0)).col 0 = ⟨0, 0, 0⟩ := by
    intro m
    exact (generateCoordinateSystem_model_col0 Real.sqrt _).trans rfl
  rw [oa, ra, ka, hg, hg, hg]
  refine ⟨by decide, rfl, ?_, rfl, rfl⟩
  simp [Vec3.squaredNorm, Vec3.dot]

end Coincident

/-! ## Radii of the general-n kIOS spheres -/

section GeneralRadii

variable {K : Type} [LinearOrderedField K]

/-- The arguments of the two square roots of the general-n kIOS blocks. -/
theorem kIOS_sqrt_args {sqrt : K → K} (hs : IsSqrt sqrt) (e0 e2 r0 : K)
    (h0 : 0 ≤ e0) (h2 : 0 ≤ e2) (hr0 : e0 ≤ r0) (hr2 : e2 ≤ r0) :
    0 ≤ r0 * r0 - e2 * e2 ∧ 0 ≤ sqrt (r0 * r0 - e2 * e2) * invSinA ∧
    (e0 > 1.5 * e2 →
      0 ≤ sqrt (r0 * r0 - e2 * e2) * invSinA * (sqrt (r0 * r0 - e2 * e2) * invSinA)
        - e0 * e0 - e2 * e2) := by
  have ha : 0 ≤ r0 * r0 - e2 * e2 := by nlinarith
  have hsn := hs.nonneg ha
  have hsq := hs.mul_self ha
  refine ⟨ha, ?_, ?_⟩
  · unfold invSinA; positivity
  · intro hgt
    unfold invSinA
    have h15 : (1.5 : K) = 3 / 2 := by norm_num
    rw [h15] at hgt
    have hee : e2 * e2 * 9 ≤ e0 * e0 * 4 := by nlinarith
    have hrr : e0 * e0 ≤ r0 * r0 := by nlinarith
    nlinarith

/-- The radii written by the blocks of the general-n kIOS fitters. -/
theorem kIOS_blocks_radii (sqrt : K → K) (maxDist : Vec3 K → K) (center extent : Vec3 K)
    (r0 : K) (bv B : kIOS K)
    (hB : B = kIOS_spheres_34 sqrt maxDist extent
      (kIOS_spheres_12 sqrt maxDist center extent r0
        (((kIOS_decide_k extent bv).setO 0 center).setR 0 r0))) :
    (B.num_spheres = 1 ∨ B.num_spheres = 3 ∨ B.num_spheres = 5) ∧
    (B.num_spheres = 5 → extent.get 0 > 1.5 * extent.get 2) ∧
    (B.spheres 0).r = r0 ∧
    (B.num_spheres ≥ 3 →
      (B.spheres 1).r = sqrt (r0 * r0 - extent.get 2 * extent.get 2) * invSinA ∧
      (B.spheres 2).r = sqrt (r0 * r0 - extent.get 2 * extent.get 2) * invSinA) ∧
    (B.num_spheres ≥ 5 →
      (B.spheres 3).r = (B.spheres 1).r ∧ (B.spheres 4).r = (B.spheres 1).r) := by
  subst hB
  have hnum : (kIOS_spheres_34 sqrt maxDist extent
      (kIOS_spheres_12 sqrt maxDist center extent r0
        (((kIOS_decide_k extent bv).setO 0 center).setR 0 r0))).num_spheres =
      (kIOS_decide_k extent bv).num_spheres := by
    simp only [kIOS_spheres_34_num, kIOS_spheres_12_num, kIOS.setR_num, kIOS.setO_num]
  obtain ⟨l1, l2⟩ := kIOS_spheres_34_low sqrt maxDist extent
    (kIOS_spheres_12 sqrt maxDist center extent r0
      (((kIOS_decide_k extent bv).setO 0 center).setR 0 r0))
  have h12 : (kIOS_decide_k extent bv).num_spheres ≥ 3 →
      ((kIOS_spheres_12 sqrt maxDist center extent r0
        (((kIOS_decide_k extent bv).setO 0 center).setR 0 r0)).spheres 1).r =
        sqrt (r0 * r0 - extent.get 2 * extent.get 2) * invSinA ∧
      ((kIOS_spheres_12 sqrt maxDist center extent r0
        (((kIOS_decide_k extent bv).setO 0 center).setR 0 r0)).spheres 2).r =
        sqrt (r0 * r0 - extent.get 2 * extent.get 2) * invSinA := by
    intro h3
    obtain ⟨v1, v2, -, -⟩ := kIOS_spheres_12_values sqrt maxDist center extent r0
      (((kIOS_decide_k extent bv).setO 0 center).setR 0 r0)
      (by simp only [kIOS.setR_num, kIOS.setO_num]; exact h3)
    rw [v1, v2]
    exact ⟨rfl, rfl⟩
  rw [hnum]
  refine ⟨kIOS_decide_k_cases extent bv, ?_, ?_, ?_, ?_⟩
  · intro h5
    rw [kIOS_decide_k_num] at h5
    split_ifs at h5 with ha hb
    · exact absurd h5 (by decide)
    · exact absurd h5 (by decide)
    · exact not_le.mp ha
  · rw [kIOS_spheres_34_zero, kIOS_spheres_12_zero]
    simp [kIOS.setR_spheres]
  · intro h3
    rw [l1, l2]
    exact h12 h3
  · intro h5
    obtain ⟨x3, x4⟩ := kIOS_spheres_34_values sqrt maxDist extent
      (kIOS_spheres_12 sqrt maxDist center extent r0
        (((kIOS_decide_k extent bv).setO 0 center).setR 0 r0))
      (by simp only [kIOS_spheres_12_num, kIOS.setR_num, kIOS.setO_num]; exact h5)
    rw [x3, x4, l1]
    exact ⟨rfl, rfl⟩

/-- The indexed general-n kIOS fit as the composition of its blocks. -/
theorem BVFitter_kIOS_blocks (U : Utility K) (F : BVFitter K)
    (primitive_indices : Option (Nat → Nat)) (num_primitives : Int) (bv : kIOS K) :
    BVFitter.fit_kIOS U F primitive_indices num_primitives bv =
      kIOS_spheres_34 U.sqrt
        (fun q => U.maximumDistance F.vertices F.prev_vertices F.tri_indices
          primitive_indices num_primitives q)
        (BVFitter.fit_kIOS U F primitive_indices num_primitives bv).obb.extent
        (kIOS_spheres_12 U.sqrt
          (fun q => U.maximumDistance F.vertices F.prev_vertices F.tri_indices
            primitive_indices num_primitives q)
          (BVFitter.fit_kIOS U F primitive_indices num_primitives bv).obb.To
          (BVFitter.fit_kIOS U F primitive_indices num_primitives bv).obb.extent
          (U.maximumDistance F.vertices F.prev_vertices F.tri_indices
            primitive_indices num_primitives
            (BVFitter.fit_kIOS U F primitive_indices num_primitives bv).obb.To)
          (((kIOS_decide_k (BVFitter.fit_kIOS U F primitive_indices num_primitives bv).obb.extent
              (bv.setObb (BVFitter.fit_kIOS U F primitive_indices num_primitives bv).obb)).setO 0
              (BVFitter.fit_kIOS U F primitive_indices num_primitives bv).obb.To).setR 0
            (U.maximumDistance F.vertices F.prev_vertices F.tri_indices
              primitive_indices num_primitives
              (BVFitter.fit_kIOS U F primitive_indices num_primitives bv).obb.To))) := by
  have hobb : (BVFitter.fit_kIOS U F primitive_indices num_primitives bv).obb =
      ((bv.obb.setAxis (axisFromEigen
          (U.eigen (U.getCovariance F.vertices F.prev_vertices F.tri_indices
            primitive_indices num_primitives)).2
          (U.eigen (U.getCovariance F.vertices F.prev_vertices F.tri_indices
            primitive_indices num_primitives)).1 bv.obb.axis)).setTo
        (U.getExtentAndCenter F.vertices F.prev_vertices F.tri_indices
            primitive_indices num_primitives
          (axisFromEigen
            (U.eigen (U.getCovariance F.vertices F.prev_vertices F.tri_indices
              primitive_indices num_primitives)).2
            (U.eigen (U.getCovariance F.vertices F.prev_vertices F.tri_indices
              primitive_indices num_primitives)).1 bv.obb.axis)).1).setExtent
        (U.getExtentAndCenter F.vertices F.prev_vertices F.tri_indices
            primitive_indices num_primitives
          (axisFromEigen
            (U.eigen (U.getCovariance F.vertices F.prev_vertices F.tri_indices
              primitive_indices num_primitives)).2
            (U.eigen (U.getCovariance F.vertices F.prev_vertices F.tri_indices
              primitive_indices num_primitives)).1 bv.obb.axis)).2 := by
    simp only [BVFitter.fit_kIOS, kIOS_spheres_34_obb, kIOS_spheres_12_obb,
      kIOS.setR_obb, kIOS.setO_obb, kIOS_decide_k_obb, kIOS.setObb_obb, OBB.setAxis_axis,
      OBB.setTo_axis]
  rw [hobb]
  rfl

/-- The radii of one general-n kIOS result, from the block decomposition. -/
theorem kIOS_general_radii {sqrt : K → K} (hs : IsSqrt sqrt) (maxDist : Vec3 K → K)
    (center extent : Vec3 K) (r0 : K) (bv B : kIOS K)
    (hB : B = kIOS_spheres_34 sqrt maxDist extent
      (kIOS_spheres_12 sqrt maxDist center extent r0
        (((kIOS_decide_k extent bv).setO 0 center).setR 0 r0)))
    (he : ∀ j : Fin 3, 0 ≤ extent.get j)
    (hr0 : extent.get 0 ≤ r0) (hr2 : extent.get 2 ≤ r0) :
    (B.num_spheres ≥ 3 →
      0 ≤ r0 * r0 - extent.get 2 * extent.get 2 ∧
      (B.spheres 1).r = sqrt (r0 * r0 - extent.get 2 * extent.get 2) * invSinA ∧
      (B.spheres 2).r = sqrt (r0 * r0 - extent.get 2 * extent.get 2) * invSinA) ∧
    (B.num_spheres = 5 →
      0 ≤ sqrt (r0 * r0 - extent.get 2 * extent.get 2) * invSinA *
            (sqrt (r0 * r0 - extent.get 2 * extent.get 2) * invSinA)
          - extent.get 0 * extent.get 0 - extent.get 2 * extent.get 2 ∧
      (B.spheres 3).r = sqrt (r0 * r0 - extent.get 2 * extent.get 2) * invSinA ∧
      (B.spheres 4).r = sqrt (r0 * r0 - extent.get 2 * extent.get 2) * invSinA) ∧
    ∀ i : Fin 5, i.val < B.num_spheres → 0 ≤ (B.spheres i).r := by
  obtain ⟨hk, h5gt, hz, h12, h34⟩ := kIOS_blocks_radii sqrt maxDist center extent r0 bv B hB
  obtain ⟨a1, a2, a3⟩ := kIOS_sqrt_args hs (extent.get 0) (extent.get 2) r0
    (he 0) (he 2) hr0 hr2
  have c12 : B.num_spheres ≥ 3 →
      0 ≤ r0 * r0 - extent.get 2 * extent.get 2 ∧
      (B.spheres 1).r = sqrt (r0 * r0 - extent.get 2 * extent.get 2) * invSinA ∧
      (B.spheres 2).r = sqrt (r0 * r0 - extent.get 2 * extent.get 2) * invSinA :=
    fun h3 => ⟨a1, (h12 h3).1, (h12 h3).2⟩
  have c34 : B.num_spheres = 5 →
      0 ≤ sqrt (r0 * r0 - extent.get 2 * extent.get 2) * invSinA *
            (sqrt (r0 * r0 - extent.get 2 * extent.get 2) * invSinA)
          - extent.get 0 * extent.get 0 - extent.get 2 * extent.get 2 ∧
      (B.spheres 3).r = sqrt (r0 * r0 - extent.get 2 * extent.get 2) * invSinA ∧
      (B.spheres 4).r = sqrt (r0 * r0 - extent.get 2 * extent.get 2) * invSinA := by
    intro h5
    have g3 : B.num_spheres ≥ 3 := by omega
    have g5 : B.num_spheres ≥ 5 := by omega
    refine ⟨a3 (h5gt h5), ?_, ?_⟩
    · rw [(h34 g5).1, (h12 g3).1]
    · rw [(h34 g5).2, (h12 g3).1]
  refine ⟨c12, c34, ?_⟩
  intro i hi
  have hcases : i = 0 ∨ (i = 1 ∧ B.num_spheres ≥ 3) ∨ (i = 2 ∧ B.num_spheres ≥ 3) ∨
      (i = 3 ∧ B.num_spheres = 5) ∨ (i = 4 ∧ B.num_spheres = 5) := by
    fin_cases i <;> simp at hi ⊢ <;> omega
  rcases hcases with h | ⟨h, g⟩ | ⟨h, g⟩ | ⟨h, g⟩ | ⟨h, g⟩
  · rw [h, hz]; exact le_trans (he 0) hr0
  · rw [h, (c12 g).2.1]; exact a2
  · rw [h, (c12 g).2.2]; exact a2
  · rw [h, (c34 g).2.1]; exact a2
  · rw [h, (c34 g).2.2]; exact a2

theorem range_four_map (ps : Ptr K) :
    (List.range (4 : Int).toNat).map ps = [ps 0, ps 1, ps 2, ps 3] := rfl

theorem maximumDistance_model_four (sqrt : K → K) (ps : Ptr K) (q : Vec3 K) :
    maximumDistance_model sqrt ps 4 q =
      max (max (max (max 0 ((ps 0 - q).norm sqrt)) ((ps 1 - q).norm sqrt))
        ((ps 2 - q).norm sqrt)) ((ps 3 - q).norm sqrt) := rfl

theorem getExtentAndCenter_model_four (ps : Ptr K) (A : Mat3 K) :
    getExtentAndCenter_model ps 4 A =
      (((max (max (max (max ((A.col 0).dot (ps 0)) ((A.col 0).dot (ps 0)))
              ((A.col 0).dot (ps 1))) ((A.col 0).dot (ps 2))) ((A.col 0).dot (ps 3)) +
          min (min (min (min ((A.col 0).dot (ps 0)) ((A.col 0).dot (ps 0)))
              ((A.col 0).dot (ps 1))) ((A.col 0).dot (ps 2))) ((A.col 0).dot (ps 3))) / 2)
          • A.col 0 +
        ((max (max (max (max ((A.col 1).dot (ps 0)) ((A.col 1).dot (ps 0)))
              ((A.col 1).dot (ps 1))) ((A.col 1).dot (ps 2))) ((A.col 1).dot (ps 3)) +
          min (min (min (min ((A.col 1).dot (ps 0)) ((A.col 1).dot (ps 0)))
              ((A.col 1).dot (ps 1))) ((A.col 1).dot (ps 2))) ((A.col 1).dot (ps 3))) / 2)
          • A.col 1 +
        ((max (max (max (max ((A.col 2).dot (ps 0)) ((A.col 2).dot (ps 0)))
              ((A.col 2).dot (ps 1))) ((A.col 2).dot (ps 2))) ((A.col 2).dot (ps 3)) +
          min (min (min (min ((A.col 2).dot (ps 0)) ((A.col 2).dot (ps 0)))
              ((A.col 2).dot (ps 1))) ((A.col 2).dot (ps 2))) ((A.col 2).dot (ps 3))) / 2)
          • A.col 2,
       ⟨(max (max (max (max ((A.col 0).dot (ps 0)) ((A.col 0).dot (ps 0)))
              ((A.col 0).dot (ps 1))) ((A.col 0).dot (ps 2))) ((A.col 0).dot (ps 3)) -
          min (min (min (min ((A.col 0).dot (ps 0)) ((A.col 0).dot (ps 0)))
              ((A.col 0).dot (ps 1))) ((A.col 0).dot (ps 2))) ((A.col 0).dot (ps 3))) / 2,
        (max (max (max (max ((A.col 1).dot (ps 0)) ((A.col 1).dot (ps 0)))
              ((A.col 1).dot (ps 1))) ((A.col 1).dot (ps 2))) ((A.col 1).dot (ps 3)) -
          min (min (min (min ((A.col 1).dot (ps 0)) ((A.col 1).dot (ps 0)))
              ((A.col 1).dot (ps 1))) ((A.col 1).dot (ps 2))) ((A.col 1).dot (ps 3))) / 2,
        (max (max (max (max ((A.col 2).dot (ps 0)) ((A.col 2).dot (ps 0)))
              ((A.col 2).dot (ps 1))) ((A.col 2).dot (ps 2))) ((A.col 2).dot (ps 3)) -
          min (min (min (min ((A.col 2).dot (ps 0)) ((A.col 2).dot (ps 0)))
              ((A.col 2).dot (ps 1))) ((A.col 2).dot (ps 2))) ((A.col 2).dot (ps 3))) / 2⟩) :=
  rfl

theorem four_points_covariance :
    getCovariance_model
        (Ptr.ofList [(⟨12, 0, 0⟩ : Vec3 ℝ), ⟨-12, 0, 0⟩, ⟨0, 37 / 4, 10⟩, ⟨0, -37 / 4, 10⟩]) 4 =
      ⟨⟨288, 0, 0⟩, ⟨0, 1369 / 8, 0⟩, ⟨0, 0, 100⟩⟩ := by
  unfold getCovariance_model
  simp only [range_four_map]
  have p0 : Ptr.ofList [(⟨12, 0, 0⟩ : Vec3 ℝ), ⟨-12, 0, 0⟩, ⟨0, 37 / 4, 10⟩,
      ⟨0, -37 / 4, 10⟩] 0 = ⟨12, 0, 0⟩ := rfl
  have p1 : Ptr.ofList [(⟨12, 0, 0⟩ : Vec3 ℝ), ⟨-12, 0, 0⟩, ⟨0, 37 / 4, 10⟩,
      ⟨0, -37 / 4, 10⟩] 1 = ⟨-12, 0, 0⟩ := rfl
  have p2 : Ptr.ofList [(⟨12, 0, 0⟩ : Vec3 ℝ), ⟨-12, 0, 0⟩, ⟨0, 37 / 4, 10⟩,
      ⟨0, -37 / 4, 10⟩] 2 = ⟨0, 37 / 4, 10⟩ := rfl
  have p3 : Ptr.ofList [(⟨12, 0, 0⟩ : Vec3 ℝ), ⟨-12, 0, 0⟩, ⟨0, 37 / 4, 10⟩,
      ⟨0, -37 / 4, 10⟩] 3 = ⟨0, -37 / 4, 10⟩ := rfl
  rw [p0, p1, p2, p3]
  simp only [List.foldl, List.map, List.sum_cons, List.sum_nil, Vec3.get_zero, Vec3.get_one,
    Vec3.get_two, Vec3.add_x, Vec3.add_y, Vec3.add_z, Vec3.zero_x, Vec3.zero_y, Vec3.zero_z]
  norm_num

theorem four_points_axis (a : Mat3 ℝ) :
    axisFromEigen Mat3.identity (⟨288, 1369 / 8, 100⟩ : Vec3 ℝ) a = Mat3.identity := by
  obtain ⟨h0, h1, h2⟩ := axisFromEigen_cols Mat3.identity (⟨288, 1369 / 8, 100⟩ : Vec3 ℝ) a
  have ho : eigenOrder (⟨288, 1369 / 8, 100⟩ : Vec3 ℝ) = (2, 1, 0) := by
    unfold eigenOrder
    norm_num [Vec3.get_zero, Vec3.get_one, Vec3.get_two]
  rw [ho] at h0 h1
  apply Mat3.eq_of_cols
  · rw [h0]; rfl
  · rw [h1]; rfl
  · rw [h2, h0, h1]
    ext <;> simp [Mat3.row, Mat3.col, Mat3.identity, Vec3.cross, Vec3.get]

theorem four_points_obb (bv : kIOS ℝ) :
    (kIOS_fit_functions.fitn (Utility.model Real.sqrt)
        (Ptr.ofList [⟨12, 0, 0⟩, ⟨-12, 0, 0⟩, ⟨0, 37 / 4, 10⟩, ⟨0, -37 / 4, 10⟩]) 4 bv).obb =
      ⟨Mat3.identity, ⟨0, 0, 5⟩, ⟨12, 37 / 4, 5⟩⟩ := by
  rw [kIOS_fitn_obb]
  have hc : (Utility.model Real.sqrt).getCovariance
      (Ptr.ofList [⟨12, 0, 0⟩, ⟨-12, 0, 0⟩, ⟨0, 37 / 4, 10⟩, ⟨0, -37 / 4, 10⟩])
      none none none 4 = ⟨⟨288, 0, 0⟩, ⟨0, 1369 / 8, 0⟩, ⟨0, 0, 100⟩⟩ := four_points_covariance
  have he : (Utility.model Real.sqrt).eigen ⟨⟨288, 0, 0⟩, ⟨0, 1369 / 8, 0⟩, ⟨0, 0, 100⟩⟩ =
      (⟨288, 1369 / 8, 100⟩, Mat3.identity) := rfl
  have hg : ∀ A : Mat3 ℝ, (Utility.model Real.sqrt).getExtentAndCenter
      (Ptr.ofList [⟨12, 0, 0⟩, ⟨-12, 0, 0⟩, ⟨0, 37 / 4, 10⟩, ⟨0, -37 / 4, 10⟩])
      none none none 4 A = getExtentAndCenter_model
      (Ptr.ofList [⟨12, 0, 0⟩, ⟨-12, 0, 0⟩, ⟨0, 37 / 4, 10⟩, ⟨0, -37 / 4, 10⟩]) 4 A :=
    fun _ => rfl
  rw [hc, he]
  simp only [four_points_axis, hg, getExtentAndCenter_model_four]
  have p0 : Ptr.ofList [(⟨12, 0, 0⟩ : Vec3 ℝ), ⟨-12, 0, 0⟩, ⟨0, 37 / 4, 10⟩,
      ⟨0, -37 / 4, 10⟩] 0 = ⟨12, 0, 0⟩ := rfl
  have p1 : Ptr.ofList [(⟨12, 0, 0⟩ : Vec3 ℝ), ⟨-12, 0, 0⟩, ⟨0, 37 / 4, 10⟩,
      ⟨0, -37 / 4, 10⟩] 1 = ⟨-12, 0, 0⟩ := rfl
  have p2 : Ptr.ofList [(⟨12, 0, 0⟩ : Vec3 ℝ), ⟨-12, 0, 0⟩, ⟨0, 37 / 4, 10⟩,
      ⟨0, -37 / 4, 10⟩] 2 = ⟨0, 37 / 4, 10⟩ := rfl
  have p3 : Ptr.ofList [(⟨12, 0, 0⟩ : Vec3 ℝ), ⟨-12, 0, 0⟩, ⟨0, 37 / 4, 10⟩,
      ⟨0, -37 / 4, 10⟩] 3 = ⟨0, -37 / 4, 10⟩ := rfl
  have c0 : (Mat3.identity : Mat3 ℝ).col 0 = ⟨1, 0, 0⟩ := rfl
  have c1 : (Mat3.identity : Mat3 ℝ).col 1 = ⟨0, 1, 0⟩ := rfl
  have c2 : (Mat3.identity : Mat3 ℝ).col 2 = ⟨0, 0, 1⟩ := rfl
  rw [p0, p1, p2, p3, c0, c1, c2]
  simp only [Vec3.dot]
  congr 1
  · ext <;> simp only [Vec3.add_x, Vec3.add_y, Vec3.add_z, Vec3.smul_x, Vec3.smul_y,
      Vec3.smul_z] <;> norm_num [max_def, min_def]
  · ext <;> norm_num [max_def, min_def]

theorem four_points_r0 :
    maximumDistance_model Real.sqrt
        (Ptr.ofList [⟨12, 0, 0⟩, ⟨-12, 0, 0⟩, ⟨0, 37 / 4, 10⟩, ⟨0, -37 / 4, 10⟩]) 4
        ⟨0, 0, 5⟩ = 13 := by
  rw [maximumDistance_model_four]
  have p0 : Ptr.ofList [(⟨12, 0, 0⟩ : Vec3 ℝ), ⟨-12, 0, 0⟩, ⟨0, 37 / 4, 10⟩,
      ⟨0, -37 / 4, 10⟩] 0 = ⟨12, 0, 0⟩ := rfl
  have p1 : Ptr.ofList [(⟨12, 0, 0⟩ : Vec3 ℝ), ⟨-12, 0, 0⟩, ⟨0, 37 / 4, 10⟩,
      ⟨0, -37 / 4, 10⟩] 1 = ⟨-12, 0, 0⟩ := rfl
  have p2 : Ptr.ofList [(⟨12, 0, 0⟩ : Vec3 ℝ), ⟨-12, 0, 0⟩, ⟨0, 37 / 4, 10⟩,
      ⟨0, -37 / 4, 10⟩] 2 = ⟨0, 37 / 4, 10⟩ := rfl
  have p3 : Ptr.ofList [(⟨12, 0, 0⟩ : Vec3 ℝ), ⟨-12, 0, 0⟩, ⟨0, 37 / 4, 10⟩,
      ⟨0, -37 / 4, 10⟩] 3 = ⟨0, -37 / 4, 10⟩ := rfl
  rw [p0, p1, p2, p3]
  have d0 : ((⟨12, 0, 0⟩ : Vec3 ℝ) - ⟨0, 0, 5⟩).norm Real.sqrt = 13 :=
    Vec3.norm_eq_of_sq isSqrt_real _ (by norm_num)
      (by simp [Vec3.squaredNorm, Vec3.dot]; norm_num)
  have d1 : ((⟨-12, 0, 0⟩ : Vec3 ℝ) - ⟨0, 0, 5⟩).norm Real.sqrt = 13 :=
    Vec3.norm_eq_of_sq isSqrt_real _ (by norm_num)
      (by simp [Vec3.squaredNorm, Vec3.dot]; norm_num)
  have d2 : ((⟨0, 37 / 4, 10⟩ : Vec3 ℝ) - ⟨0, 0, 5⟩).norm Real.sqrt ≤ 13 := by
    unfold Vec3.norm
    rw [Real.sqrt_le_left (by norm_num)]
    simp [Vec3.squaredNorm, Vec3.dot]; norm_num
  have d3 : ((⟨0, -37 / 4, 10⟩ : Vec3 ℝ) - ⟨0, 0, 5⟩).norm Real.sqrt ≤ 13 := by
    unfold Vec3.norm
    rw [Real.sqrt_le_left (by norm_num)]
    simp [Vec3.squaredNorm, Vec3.dot]; norm_num
  rw [d0, d1, max_eq_right (by norm_num : (0 : ℝ) ≤ 13), max_self, max_eq_left d2,
    max_eq_left d3]


end GeneralRadii

/-! ## The correction pass of the general-n kIOS fit -/

section Correction

variable {K : Type} [LinearOrderedField K]

theorem IsSqrt.le_of_le_mul_self {sqrt : K → K} (hs : IsSqrt sqrt) {x r : K} (hx : 0 ≤ x)
    (hr : 0 ≤ r) (h : x ≤ r * r) : sqrt x ≤ r := by
  by_contra hc
  push_neg at hc
  have h1 := hs.mul_self hx
  have h2 := hs.nonneg hx
  nlinarith

theorem IsSqrt.le_mul_self_of_le {sqrt : K → K} (hs : IsSqrt sqrt) {x m : K} (hx : 0 ≤ x)
    (h : sqrt x ≤ m) : x ≤ m * m := by
  have h1 := hs.mul_self hx
  have h2 := hs.nonneg hx
  nlinarith

/-- Cauchy-Schwarz against a unit vector. -/
theorem Vec3.dot_sq_le (w a : Vec3 K) (ha : a.squaredNorm = 1) :
    w.dot a * w.dot a ≤ w.squaredNorm := by
  have h := Vec3.cross_squaredNorm w a
  have hn := Vec3.squaredNorm_nonneg (w.cross a)
  rw [ha] at h
  linarith

theorem Vec3.abs_dot_le_norm {sqrt : K → K} (hs : IsSqrt sqrt) (w a : Vec3 K)
    (ha : a.squaredNorm = 1) : |w.dot a| ≤ w.norm sqrt := by
  have h := Vec3.dot_sq_le w a ha
  have hm : 0 ≤ w.norm sqrt := hs.nonneg (Vec3.squaredNorm_nonneg w)
  have hmm := Vec3.norm_mul_self hs w
  rw [abs_le]
  constructor <;> nlinarith

theorem Vec3.squaredNorm_add_smul (w a : Vec3 K) (t : K) :
    (w + t • a).squaredNorm = w.squaredNorm + 2 * t * w.dot a + t * t * a.squaredNorm := by
  simp only [Vec3.squaredNorm, Vec3.dot, Vec3.add_x, Vec3.add_y, Vec3.add_z, Vec3.smul_x,
    Vec3.smul_y, Vec3.smul_z]
  ring

/-- Moving the centre of a ball of radius `m` around the points by `|t| ≤ r - m` along a
unit vector keeps the points within `r`. -/
theorem norm_shift_le {sqrt : K → K} (hs : IsSqrt sqrt) (w a : Vec3 K)
    (ha : a.squaredNorm = 1) (m r t : K) (hw : w.norm sqrt ≤ m) (ht : |t| ≤ r - m) :
    (w + t • a).norm sqrt ≤ r := by
  have hn : 0 ≤ w.norm sqrt := hs.nonneg (Vec3.squaredNorm_nonneg w)
  have hnn := Vec3.norm_mul_self hs w
  have hd := Vec3.abs_dot_le_norm hs w a ha
  have ht0 : 0 ≤ |t| := abs_nonneg t
  have hr : 0 ≤ r := by linarith
  apply hs.le_of_le_mul_self (Vec3.squaredNorm_nonneg _) hr
  rw [Vec3.squaredNorm_add_smul, ha]
  have h1 : t * w.dot a ≤ |t| * w.norm sqrt := by
    calc t * w.dot a ≤ |t * w.dot a| := le_abs_self _
      _ = |t| * |w.dot a| := abs_mul _ _
      _ ≤ |t| * w.norm sqrt := mul_le_mul_of_nonneg_left hd ht0
  have h2 : t * t = |t| * |t| := (abs_mul_abs_self t).symm
  have h3 : w.norm sqrt + |t| ≤ r := by linarith
  have h4 : 0 ≤ w.norm sqrt + |t| := by linarith
  nlinarith

/-- In a right-handed orthonormal frame the squared norm is the sum of the squared
coordinates. -/
theorem Mat3.IsRightHandedFrame.parseval {m : Mat3 K} (h : m.IsRightHandedFrame)
    (w : Vec3 K) :
    w.squaredNorm = w.dot (m.col 0) * w.dot (m.col 0) + w.dot (m.col 1) * w.dot (m.col 1)
      + w.dot (m.col 2) * w.dot (m.col 2) := by
  obtain ⟨⟨h0, h1, -, h01, -, -⟩, -, h2⟩ := h
  rw [h2]
  simp only [Vec3.squaredNorm, Vec3.dot, Vec3.cross] at h0 h1 h01 ⊢
  linear_combination
    (-(w.x * w.x + w.y * w.y + w.z * w.z) *
        ((m.col 1).x * (m.col 1).x + (m.col 1).y * (m.col 1).y + (m.col 1).z * (m.col 1).z)
      + (w.x * (m.col 1).x + w.y * (m.col 1).y + w.z * (m.col 1).z) *
        (w.x * (m.col 1).x + w.y * (m.col 1).y + w.z * (m.col 1).z)) * h0
    + (-(w.x * w.x + w.y * w.y + w.z * w.z)
      + (w.x * (m.col 0).x + w.y * (m.col 0).y + w.z * (m.col 0).z) *
        (w.x * (m.col 0).x + w.y * (m.col 0).y + w.z * (m.col 0).z)) * h1
    + (-2 * (w.x * (m.col 0).x + w.y * (m.col 0).y + w.z * (m.col 0).z) *
        (w.x * (m.col 1).x + w.y * (m.col 1).y + w.z * (m.col 1).z)
      + (w.x * w.x + w.y * w.y + w.z * w.z) *
        ((m.col 0).x * (m.col 1).x + (m.col 0).y * (m.col 1).y
          + (m.col 0).z * (m.col 1).z)) * h01

theorem Vec3.sub_sub_smul (p c a : Vec3 K) (t : K) :
    p - (c - t • a) = (p - c) + t • a ∧ p - (c + t • a) = (p - c) + (-t) • a := by
  constructor <;> ext <;> simp <;> ring

theorem mul_self_le_of_abs_le {u e : K} (h : |u| ≤ e) : u * u ≤ e * e := by
  have h1 := mul_self_le_mul_self (abs_nonneg u) h
  rwa [abs_mul_abs_self] at h1

/-- The arithmetic of the first placement of spheres 1 and 2: `s` is the square root of
`r0² - e2²`, `q = √3 s`, and the offset is `t = ±(q - e2)`. -/
theorem cover12_arith (W u r0 e0 e2 s q t : K) (hW : W ≤ r0 * r0) (hu : |u| ≤ e2)
    (he0 : e0 ≤ r0) (hgt : e0 > 1.5 * e2) (hss : s * s = r0 * r0 - e2 * e2)
    (hq0 : 0 ≤ q) (hqq : q * q = 3 * (s * s)) (ht : t = q - e2 ∨ t = -(q - e2)) :
    W + 2 * t * u + t * t * 1 ≤ s * 2 * (s * 2) := by
  have he2 : 0 ≤ e2 := le_trans (abs_nonneg _) hu
  have h15 : (1.5 : K) = 3 / 2 := by norm_num
  rw [h15] at hgt
  obtain ⟨hu1, hu2⟩ := abs_le.mp hu
  have hee : (3 / 2 * e2) * (3 / 2 * e2) ≤ e0 * e0 :=
    mul_self_le_mul_self (by linarith) hgt.le
  have hrr : e0 * e0 ≤ r0 * r0 := mul_self_le_mul_self (by linarith) he0
  have hd : 0 ≤ q - e2 := by
    by_contra hc
    push_neg at hc
    have h1 : q * q < e2 * e2 := mul_self_lt_mul_self hq0 (by linarith)
    have h2 : e2 * e2 ≥ 0 := mul_self_nonneg e2
    linarith
  have hdu : t * u ≤ (q - e2) * e2 := by
    rcases ht with h | h
    · rw [h]; exact mul_le_mul_of_nonneg_left hu2 hd
    · rw [h]
      have := mul_le_mul_of_nonneg_left (by linarith : -u ≤ e2) hd
      linarith
  have htt : t * t = (q - e2) * (q - e2) := by
    rcases ht with h | h
    · rw [h]
    · rw [h]; ring
  have hexp : (q - e2) * (q - e2) + 2 * ((q - e2) * e2) = q * q - e2 * e2 := by ring
  linarith

/-- The first placement of spheres 1 and 2 (before the correction): a point within
`r0` of the centre and within `e2` of it along the unit vector `a` is within
`r10 = sqrt (r0² - e2²) * invSinA` of both centres, when `1.5 e2 < e0 ≤ r0`. -/
theorem initial_cover_12 {sqrt : K → K} (hs : IsSqrt sqrt) (p c a : Vec3 K)
    (ha : a.squaredNorm = 1) (r0 e0 e2 : K) (hw : (p - c).norm sqrt ≤ r0)
    (hu : |(p - c).dot a| ≤ e2) (he0 : e0 ≤ r0) (hgt : e0 > 1.5 * e2) :
    (p - (c - (sqrt (r0 * r0 - e2 * e2) * invSinA * cosA sqrt - e2) • a)).norm sqrt ≤
      sqrt (r0 * r0 - e2 * e2) * invSinA ∧
    (p - (c + (sqrt (r0 * r0 - e2 * e2) * invSinA * cosA sqrt - e2) • a)).norm sqrt ≤
      sqrt (r0 * r0 - e2 * e2) * invSinA := by
  have he2 : 0 ≤ e2 := le_trans (abs_nonneg _) hu
  have harg : 0 ≤ r0 * r0 - e2 * e2 := by
    have h15 : (1.5 : K) = 3 / 2 := by norm_num
    rw [h15] at hgt
    have h1 : e2 * e2 ≤ r0 * r0 := mul_self_le_mul_self he2 (by linarith)
    linarith
  have hs0 := hs.nonneg harg
  have hss := hs.mul_self harg
  have h3 := sqrt_three_sq hs
  have h3n : 0 ≤ sqrt 3 := hs.nonneg (by norm_num)
  have hww := hs.le_mul_self_of_le (Vec3.squaredNorm_nonneg (p - c)) hw
  obtain ⟨e1, e2'⟩ := Vec3.sub_sub_smul p c a
    (sqrt (r0 * r0 - e2 * e2) * invSinA * cosA sqrt - e2)
  rw [e1, e2', invSinA_mul_cosA]
  unfold invSinA
  have hq0 : 0 ≤ sqrt 3 * sqrt (r0 * r0 - e2 * e2) := mul_nonneg h3n hs0
  have hqq : (sqrt 3 * sqrt (r0 * r0 - e2 * e2)) * (sqrt 3 * sqrt (r0 * r0 - e2 * e2)) =
      3 * (sqrt (r0 * r0 - e2 * e2) * sqrt (r0 * r0 - e2 * e2)) := by
    linear_combination (sqrt (r0 * r0 - e2 * e2) * sqrt (r0 * r0 - e2 * e2)) * h3
  have hr : (0 : K) ≤ sqrt (r0 * r0 - e2 * e2) * 2 := by linarith
  constructor
  · apply hs.le_of_le_mul_self (Vec3.squaredNorm_nonneg _) hr
    rw [Vec3.squaredNorm_add_smul, ha]
    exact cover12_arith _ _ r0 e0 e2 _ _ _ hww hu he0 hgt hss hq0 hqq (Or.inl rfl)
  · apply hs.le_of_le_mul_self (Vec3.squaredNorm_nonneg _) hr
    rw [Vec3.squaredNorm_add_smul, ha]
    exact cover12_arith _ _ r0 e0 e2 _ _ _ hww hu he0 hgt hss hq0 hqq (Or.inr rfl)

/-- The arithmetic of the first placement of spheres 3 and 4: `S` is the square root of
`r10² - e0² - e2²` and the offset is `t = ±(S - e1)`. -/
theorem cover34_arith (W u0 u1 u2 e0 e1 e2 r10 S t : K)
    (hpar : W = u0 * u0 + u1 * u1 + u2 * u2)
    (h0 : |u0| ≤ e0) (h1 : |u1| ≤ e1) (h2 : |u2| ≤ e2)
    (hS0 : 0 ≤ S) (hSS : S * S = r10 * r10 - e0 * e0 - e2 * e2)
    (harg : e1 * e1 ≤ r10 * r10 - e0 * e0 - e2 * e2)
    (ht : t = S - e1 ∨ t = -(S - e1)) :
    W + 2 * t * u1 + t * t * 1 ≤ r10 * r10 := by
  have he1 : 0 ≤ e1 := le_trans (abs_nonneg _) h1
  obtain ⟨hu1, hu2⟩ := abs_le.mp h1
  have q0 := mul_self_le_of_abs_le h0
  have q2 := mul_self_le_of_abs_le h2
  have hD : 0 ≤ S - e1 := by
    by_contra hc
    push_neg at hc
    have h3 : S * S < e1 * e1 := mul_self_lt_mul_self hS0 (by linarith)
    linarith
  have hsum : |u1 + t| ≤ e1 + (S - e1) := by
    rcases ht with h | h
    · rw [h, abs_le]; constructor <;> linarith
    · rw [h, abs_le]; constructor <;> linarith
  have q1 := mul_self_le_of_abs_le hsum
  have hexp : (u1 + t) * (u1 + t) = u1 * u1 + 2 * t * u1 + t * t * 1 := by ring
  have hexp2 : (e1 + (S - e1)) * (e1 + (S - e1)) = S * S := by ring
  linarith

/-- The first placement of spheres 3 and 4 (before the correction). -/
theorem initial_cover_34 {sqrt : K → K} (hs : IsSqrt sqrt) (p c : Vec3 K) (A : Mat3 K)
    (hA : A.IsRightHandedFrame) (extent : Vec3 K) (r10 : K) (hr10 : 0 ≤ r10)
    (hu : ∀ j : Fin 3, |(p - c).dot (A.col j)| ≤ extent.get j)
    (harg : extent.get 1 * extent.get 1 ≤
      r10 * r10 - extent.get 0 * extent.get 0 - extent.get 2 * extent.get 2) :
    (p - (c - (sqrt (r10 * r10 - extent.get 0 * extent.get 0 - extent.get 2 * extent.get 2)
        - extent.get 1) • A.col 1)).norm sqrt ≤ r10 ∧
    (p - (c + (sqrt (r10 * r10 - extent.get 0 * extent.get 0 - extent.get 2 * extent.get 2)
        - extent.get 1) • A.col 1)).norm sqrt ≤ r10 := by
  have hpar := hA.parseval (p - c)
  have ha1 : (A.col 1).squaredNorm = 1 := hA.1.2.1
  have harg0 : 0 ≤ r10 * r10 - extent.get 0 * extent.get 0 - extent.get 2 * extent.get 2 :=
    le_trans (mul_self_nonneg _) harg
  have hS0 := hs.nonneg harg0
  have hSS := hs.mul_self harg0
  obtain ⟨e1, e2'⟩ := Vec3.sub_sub_smul p c (A.col 1)
    (sqrt (r10 * r10 - extent.get 0 * extent.get 0 - extent.get 2 * extent.get 2)
      - extent.get 1)
  rw [e1, e2']
  constructor
  · apply hs.le_of_le_mul_self (Vec3.squaredNorm_nonneg _) hr10
    rw [Vec3.squaredNorm_add_smul, ha1]
    exact cover34_arith _ _ _ _ _ _ _ r10 _ _ hpar (hu 0) (hu 1) (hu 2) hS0 hSS harg
      (Or.inl rfl)
  · apply hs.le_of_le_mul_self (Vec3.squaredNorm_nonneg _) hr10
    rw [Vec3.squaredNorm_add_smul, ha1]
    exact cover34_arith _ _ _ _ _ _ _ r10 _ _ hpar (hu 0) (hu 1) (hu 2) hS0 hSS harg
      (Or.inr rfl)

/-- The correction pass: if a ball of radius `r` around `o` holds all the points, then
after moving `o` by `(-r + maxDist o)` or by `(r - maxDist o)` along a unit vector the
points are still within `r`. -/
theorem corrected_cover {sqrt : K → K} (hs : IsSqrt sqrt) (maxDist : Vec3 K → K)
    (pts : Vec3 K → Prop)
    (hub : ∀ q p, pts p → (p - q).norm sqrt ≤ maxDist q)
    (hatt : ∀ q, ∃ p, pts p ∧ maxDist q = (p - q).norm sqrt)
    (o a : Vec3 K) (ha : a.squaredNorm = 1) (r : K)
    (hinit : ∀ p, pts p → (p - o).norm sqrt ≤ r) :
    maxDist (o + (-r + maxDist o) • a) ≤ r ∧ maxDist (o + (r - maxDist o) • a) ≤ r := by
  obtain ⟨p0, hp0, hm0⟩ := hatt o
  have hm : maxDist o ≤ r := by rw [hm0]; exact hinit p0 hp0
  have key : ∀ t : K, |t| ≤ r - maxDist o → maxDist (o + t • a) ≤ r := by
    intro t ht
    obtain ⟨p1, hp1, hm1⟩ := hatt (o + t • a)
    rw [hm1, (Vec3.sub_sub_smul p1 o a t).2]
    exact norm_shift_le hs (p1 - o) a ha (maxDist o) r (-t) (hub o p1 hp1)
      (by rw [abs_neg]; exact ht)
  constructor
  · apply key
    rw [abs_le]; constructor <;> linarith
  · apply key
    rw [abs_le]; constructor <;> linarith

theorem kIOS_blocks_num_gt (extent : Vec3 K) (bv : kIOS K) :
    ((kIOS_decide_k extent bv).num_spheres ≥ 3 → extent.get 0 > 1.5 * extent.get 2) ∧
    ((kIOS_decide_k extent bv).num_spheres ≥ 5 → extent.get 0 > 1.5 * extent.get 1) := by
  rw [kIOS_decide_k_num]
  constructor
  · intro h
    split_ifs at h with ha hb
    · exact absurd h (by decide)
    · exact not_le.mp ha
    · exact not_le.mp ha
  · intro h
    split_ifs at h with ha hb
    · exact absurd h (by decide)
    · exact absurd h (by decide)
    · exact not_le.mp hb

/-- The argument of the second square root is at least `e1²`. -/
theorem cover34_arg (r0 e0 e1 e2 s : K) (he1 : 0 ≤ e1) (he2 : 0 ≤ e2) (he0 : e0 ≤ r0)
    (hgt2 : e0 > 1.5 * e2) (hgt1 : e0 > 1.5 * e1) (hss : s * s = r0 * r0 - e2 * e2) :
    e1 * e1 ≤ s * invSinA * (s * invSinA) - e0 * e0 - e2 * e2 := by
  unfold invSinA
  have h15 : (1.5 : K) = 3 / 2 := by norm_num
  rw [h15] at hgt1 hgt2
  have a2 : (3 / 2 * e2) * (3 / 2 * e2) ≤ e0 * e0 :=
    mul_self_le_mul_self (by linarith) hgt2.le
  have a1 : (3 / 2 * e1) * (3 / 2 * e1) ≤ e0 * e0 :=
    mul_self_le_mul_self (by linarith) hgt1.le
  have hrr : e0 * e0 ≤ r0 * r0 := mul_self_le_mul_self (by linarith) he0
  have x1 : (3 / 2 * e2) * (3 / 2 * e2) = 9 / 4 * (e2 * e2) := by ring
  have x2 : (3 / 2 * e1) * (3 / 2 * e1) = 9 / 4 * (e1 * e1) := by ring
  have x3 : s * 2 * (s * 2) = 4 * (s * s) := by ring
  have n1 := mul_self_nonneg e1
  have n2 := mul_self_nonneg e2
  linarith

/-- After the correction pass of the two placement blocks, the greatest distance from
each auxiliary centre in use is at most the radius of its sphere. -/
theorem kIOS_blocks_cover {sqrt : K → K} (hs : IsSqrt sqrt) (maxDist : Vec3 K → K)
    (pts : Vec3 K → Prop)
    (hub : ∀ q p, pts p → (p - q).norm sqrt ≤ maxDist q)
    (hatt : ∀ q, ∃ p, pts p ∧ maxDist q = (p - q).norm sqrt)
    (center extent : Vec3 K) (r0 : K) (bv B : kIOS K)
    (hB : B = kIOS_spheres_34 sqrt maxDist extent
      (kIOS_spheres_12 sqrt maxDist center extent r0
        (((kIOS_decide_k extent bv).setO 0 center).setR 0 r0)))
    (hA : bv.obb.axis.IsRightHandedFrame)
    (hbox : ∀ p, pts p → ∀ j : Fin 3,
      |(p - center).dot (bv.obb.axis.col j)| ≤ extent.get j)
    (hr0 : r0 = maxDist center) (he0 : extent.get 0 ≤ r0) :
    (B.num_spheres ≥ 3 →
      maxDist (B.spheres 1).o ≤ (B.spheres 1).r ∧ maxDist (B.spheres 2).o ≤ (B.spheres 2).r) ∧
    (B.num_spheres ≥ 5 →
      maxDist (B.spheres 3).o ≤ (B.spheres 3).r ∧ maxDist (B.spheres 4).o ≤ (B.spheres 4).r) := by
  obtain ⟨g3, g5⟩ := kIOS_blocks_num_gt extent bv
  obtain ⟨p0, hp0, -⟩ := hatt center
  have hext : ∀ j : Fin 3, 0 ≤ extent.get j := fun j =>
    le_trans (abs_nonneg _) (hbox p0 hp0 j)
  have ha2 : (bv.obb.axis.col 2).squaredNorm = 1 := hA.1.2.2.1
  have ha1 : (bv.obb.axis.col 1).squaredNorm = 1 := hA.1.2.1
  have hw : ∀ p, pts p → (p - center).norm sqrt ≤ r0 := fun p hp => by
    rw [hr0]; exact hub center p hp
  have hax : (((kIOS_decide_k extent bv).setO 0 center).setR 0 r0).obb.axis = bv.obb.axis := by
    simp only [kIOS.setR_obb, kIOS.setO_obb, kIOS_decide_k_obb]
  have hn0 : (((kIOS_decide_k extent bv).setO 0 center).setR 0 r0).num_spheres =
      (kIOS_decide_k extent bv).num_spheres := by
    simp only [kIOS.setR_num, kIOS.setO_num]
  have hz0 : ((((kIOS_decide_k extent bv).setO 0 center).setR 0 r0).spheres 0).o = center := by
    simp [kIOS.setR_spheres, kIOS.setO_spheres]
  obtain ⟨mid, hmid⟩ : ∃ m, m = kIOS_spheres_12 sqrt maxDist center extent r0
      (((kIOS_decide_k extent bv).setO 0 center).setR 0 r0) := ⟨_, rfl⟩
  rw [← hmid] at hB
  have hmn : mid.num_spheres = (kIOS_decide_k extent bv).num_spheres := by
    rw [hmid, kIOS_spheres_12_num, hn0]
  have hmo : mid.obb.axis = bv.obb.axis := by rw [hmid, kIOS_spheres_12_obb, hax]
  have hmz : (mid.spheres 0).o = center := by rw [hmid, kIOS_spheres_12_zero, hz0]
  have hBn : B.num_spheres = (kIOS_decide_k extent bv).num_spheres := by
    rw [hB, kIOS_spheres_34_num, hmn]
  obtain ⟨l1, l2⟩ := kIOS_spheres_34_low sqrt maxDist extent mid
  rw [← hB] at l1 l2
  have h15 : (1.5 : K) = 3 / 2 := by norm_num
  have he2r : (kIOS_decide_k extent bv).num_spheres ≥ 3 → extent.get 2 ≤ r0 := by
    intro h
    have h1 := g3 h
    rw [h15] at h1
    have h2 := hext 2
    linarith
  have hv : (kIOS_decide_k extent bv).num_spheres ≥ 3 →
      mid.spheres 1 =
        ⟨(center - (sqrt (r0 * r0 - extent.get 2 * extent.get 2) * invSinA * cosA sqrt
              - extent.get 2) • bv.obb.axis.col 2) +
            (-(sqrt (r0 * r0 - extent.get 2 * extent.get 2) * invSinA) +
              maxDist (center - (sqrt (r0 * r0 - extent.get 2 * extent.get 2) * invSinA
                * cosA sqrt - extent.get 2) • bv.obb.axis.col 2)) • bv.obb.axis.col 2,
          sqrt (r0 * r0 - extent.get 2 * extent.get 2) * invSinA⟩ ∧
      mid.spheres 2 =
        ⟨(center + (sqrt (r0 * r0 - extent.get 2 * extent.get 2) * invSinA * cosA sqrt
              - extent.get 2) • bv.obb.axis.col 2) +
            (sqrt (r0 * r0 - extent.get 2 * extent.get 2) * invSinA -
              maxDist (center + (sqrt (r0 * r0 - extent.get 2 * extent.get 2) * invSinA
                * cosA sqrt - extent.get 2) • bv.obb.axis.col 2)) • bv.obb.axis.col 2,
          sqrt (r0 * r0 - extent.get 2 * extent.get 2) * invSinA⟩ := by
    intro h3
    obtain ⟨v1, v2, -, -⟩ := kIOS_spheres_12_values sqrt maxDist center extent r0
      (((kIOS_decide_k extent bv).setO 0 center).setR 0 r0) (by rw [hn0]; exact h3)
    rw [hax] at v1 v2
    rw [hmid]
    exact ⟨v1, v2⟩
  constructor
  · intro h3
    rw [hBn] at h3
    obtain ⟨v1, v2⟩ := hv h3
    have hgt2 := g3 h3
    have c := corrected_cover hs maxDist pts hub hatt _ (bv.obb.axis.col 2) ha2 _
      (fun p hp => (initial_cover_12 hs p center (bv.obb.axis.col 2) ha2 r0 (extent.get 0)
        (extent.get 2) (hw p hp) (hbox p hp 2) he0 hgt2).1)
    have c' := corrected_cover hs maxDist pts hub hatt _ (bv.obb.axis.col 2) ha2 _
      (fun p hp => (initial_cover_12 hs p center (bv.obb.axis.col 2) ha2 r0 (extent.get 0)
        (extent.get 2) (hw p hp) (hbox p hp 2) he0 hgt2).2)
    rw [l1, l2, v1, v2]
    exact ⟨c.1, c'.2⟩
  · intro h5
    rw [hBn] at h5
    have h3 : (kIOS_decide_k extent bv).num_spheres ≥ 3 := le_trans (by decide) h5
    obtain ⟨v1, -⟩ := hv h3
    have hgt2 := g3 h3
    have hgt1 := g5 h5
    obtain ⟨a1, a2, -⟩ := kIOS_sqrt_args hs (extent.get 0) (extent.get 2) r0 (hext 0) (hext 2)
      he0 (he2r h3)
    have hss := hs.mul_self a1
    have harg := cover34_arg r0 (extent.get 0) (extent.get 1) (extent.get 2)
      (sqrt (r0 * r0 - extent.get 2 * extent.get 2)) (hext 1) (hext 2) he0 hgt2 hgt1 hss
    have hm1 : (mid.spheres 1).r = sqrt (r0 * r0 - extent.get 2 * extent.get 2) * invSinA := by
      rw [v1]
    obtain ⟨x3, x4⟩ := kIOS_spheres_34_values sqrt maxDist extent mid (by rw [hmn]; exact h5)
    rw [← hB, hmz, hm1, hmo] at x3 x4
    have c := corrected_cover hs maxDist pts hub hatt _ (bv.obb.axis.col 1) ha1 _
      (fun p hp => (initial_cover_34 hs p center bv.obb.axis hA extent
        (sqrt (r0 * r0 - extent.get 2 * extent.get 2) * invSinA) a2 (hbox p hp) harg).1)
    have c' := corrected_cover hs maxDist pts hub hatt _ (bv.obb.axis.col 1) ha1 _
      (fun p hp => (initial_cover_34 hs p center bv.obb.axis hA extent
        (sqrt (r0 * r0 - extent.get 2 * extent.get 2) * invSinA) a2 (hbox p hp) harg).2)
    rw [x3, x4]
    exact ⟨c.1, c'.2⟩

end Correction

/-! ## The correction pass on four points -/

section CorrectionExample

variable {K : Type} [LinearOrderedField K]

theorem maximumDistance_model_four_ub (sqrt : K → K) (ps : Ptr K) (q : Vec3 K) (i : Nat)
    (hi : (i : Int) < 4) :
    (ps i - q).norm sqrt ≤ maximumDistance_model sqrt ps 4 q := by
  rw [maximumDistance_model_four]
  have h4 : i < 4 := by exact_mod_cast hi
  interval_cases i
  · exact le_max_of_le_left (le_max_of_le_left (le_max_of_le_left (le_max_right _ _)))
  · exact le_max_of_le_left (le_max_of_le_left (le_max_right _ _))
  · exact le_max_of_le_left (le_max_right _ _)
  · exact le_max_right _ _

theorem maximumDistance_model_four_att {sqrt : K → K} (hs : IsSqrt sqrt) (ps : Ptr K)
    (q : Vec3 K) :
    ∃ i : Nat, (i : Int) < 4 ∧ maximumDistance_model sqrt ps 4 q = (ps i - q).norm sqrt := by
  rw [maximumDistance_model_four]
  have h0 : 0 ≤ (ps 0 - q).norm sqrt := hs.nonneg (Vec3.squaredNorm_nonneg _)
  rw [max_eq_right h0]
  rcases max_choice (max (max ((ps 0 - q).norm sqrt) ((ps 1 - q).norm sqrt))
      ((ps 2 - q).norm sqrt)) ((ps 3 - q).norm sqrt) with h | h
  · rw [h]
    rcases max_choice (max ((ps 0 - q).norm sqrt) ((ps 1 - q).norm sqrt))
        ((ps 2 - q).norm sqrt) with g | g
    · rw [g]
      rcases max_choice ((ps 0 - q).norm sqrt) ((ps 1 - q).norm sqrt) with f | f
      · exact ⟨0, by norm_num, f⟩
      · exact ⟨1, by norm_num, f⟩
    · exact ⟨2, by norm_num, g⟩
  · exact ⟨3, by norm_num, h⟩

theorem four_points_box (i : Nat) (hi : (i : Int) < 4) (j : Fin 3) :
    |((Ptr.ofList [(⟨12, 0, 0⟩ : Vec3 ℝ), ⟨-12, 0, 0⟩, ⟨0, 37 / 4, 10⟩, ⟨0, -37 / 4, 10⟩]) i
        - ⟨0, 0, 5⟩).dot ((Mat3.identity : Mat3 ℝ).col j)| ≤
      (⟨12, 37 / 4, 5⟩ : Vec3 ℝ).get j := by
  have h4 : i < 4 := by exact_mod_cast hi
  have c0 : (Mat3.identity : Mat3 ℝ).col 0 = ⟨1, 0, 0⟩ := rfl
  have c1 : (Mat3.identity : Mat3 ℝ).col 1 = ⟨0, 1, 0⟩ := rfl
  have c2 : (Mat3.identity : Mat3 ℝ).col 2 = ⟨0, 0, 1⟩ := rfl
  have p0 : Ptr.ofList [(⟨12, 0, 0⟩ : Vec3 ℝ), ⟨-12, 0, 0⟩, ⟨0, 37 / 4, 10⟩,
      ⟨0, -37 / 4, 10⟩] 0 = ⟨12, 0, 0⟩ := rfl
  have p1 : Ptr.ofList [(⟨12, 0, 0⟩ : Vec3 ℝ), ⟨-12, 0, 0⟩, ⟨0, 37 / 4, 10⟩,
      ⟨0, -37 / 4, 10⟩] 1 = ⟨-12, 0, 0⟩ := rfl
  have p2 : Ptr.ofList [(⟨12, 0, 0⟩ : Vec3 ℝ), ⟨-12, 0, 0⟩, ⟨0, 37 / 4, 10⟩,
      ⟨0, -37 / 4, 10⟩] 2 = ⟨0, 37 / 4, 10⟩ := rfl
  have p3 : Ptr.ofList [(⟨12, 0, 0⟩ : Vec3 ℝ), ⟨-12, 0, 0⟩, ⟨0, 37 / 4, 10⟩,
      ⟨0, -37 / 4, 10⟩] 3 = ⟨0, -37 / 4, 10⟩ := rfl
  interval_cases i <;> fin_cases j <;>
    simp only [p0, p1, p2, p3, c0, c1, c2, Fin.zero_eta, Fin.mk_one, Fin.reduceFinMk,
      Vec3.get_zero, Vec3.get_one, Vec3.get_two, Vec3.dot, Vec3.sub_x, Vec3.sub_y,
      Vec3.sub_z] <;>
    norm_num [abs_le]

theorem four_points_num (bv : kIOS ℝ) :
    (kIOS_fit_functions.fitn (Utility.model Real.sqrt) (Ptr.ofList [⟨12, 0, 0⟩, ⟨-12, 0, 0⟩, ⟨0, 37 / 4, 10⟩, ⟨0, -37 / 4, 10⟩]) 4 bv).num_spheres = 3 := by
  rw [kIOS_fitn_num, four_points_obb]
  norm_num [Vec3.get]

theorem sqrt_three_bounds : (1 : ℝ) ≤ Real.sqrt 3 ∧ Real.sqrt 3 ≤ 9 / 5 ∧
    Real.sqrt 3 * Real.sqrt 3 = 3 := by
  have h0 := Real.sqrt_nonneg 3
  have h1 : Real.sqrt 3 * Real.sqrt 3 = 3 := Real.mul_self_sqrt (by norm_num)
  refine ⟨?_, ?_, h1⟩
  · nlinarith
  · nlinarith

/-- Distances from a point `(0, 0, t)` of the z axis to the four points. -/
theorem four_points_dist_sq (t : ℝ) :
    ((Ptr.ofList [(⟨12, 0, 0⟩ : Vec3 ℝ), ⟨-12, 0, 0⟩, ⟨0, 37 / 4, 10⟩, ⟨0, -37 / 4, 10⟩]) 0 - ⟨0, 0, t⟩).squaredNorm = 144 + t * t ∧
    ((Ptr.ofList [(⟨12, 0, 0⟩ : Vec3 ℝ), ⟨-12, 0, 0⟩, ⟨0, 37 / 4, 10⟩, ⟨0, -37 / 4, 10⟩]) 1 - ⟨0, 0, t⟩).squaredNorm = 144 + t * t ∧
    ((Ptr.ofList [(⟨12, 0, 0⟩ : Vec3 ℝ), ⟨-12, 0, 0⟩, ⟨0, 37 / 4, 10⟩, ⟨0, -37 / 4, 10⟩]) 2 - ⟨0, 0, t⟩).squaredNorm = 1369 / 16 + (10 - t) * (10 - t) ∧
    ((Ptr.ofList [(⟨12, 0, 0⟩ : Vec3 ℝ), ⟨-12, 0, 0⟩, ⟨0, 37 / 4, 10⟩, ⟨0, -37 / 4, 10⟩]) 3 - ⟨0, 0, t⟩).squaredNorm = 1369 / 16 + (10 - t) * (10 - t) := by
  have p0 : Ptr.ofList [(⟨12, 0, 0⟩ : Vec3 ℝ), ⟨-12, 0, 0⟩, ⟨0, 37 / 4, 10⟩,
      ⟨0, -37 / 4, 10⟩] 0 = ⟨12, 0, 0⟩ := rfl
  have p1 : Ptr.ofList [(⟨12, 0, 0⟩ : Vec3 ℝ), ⟨-12, 0, 0⟩, ⟨0, 37 / 4, 10⟩,
      ⟨0, -37 / 4, 10⟩] 1 = ⟨-12, 0, 0⟩ := rfl
  have p2 : Ptr.ofList [(⟨12, 0, 0⟩ : Vec3 ℝ), ⟨-12, 0, 0⟩, ⟨0, 37 / 4, 10⟩,
      ⟨0, -37 / 4, 10⟩] 2 = ⟨0, 37 / 4, 10⟩ := rfl
  have p3 : Ptr.ofList [(⟨12, 0, 0⟩ : Vec3 ℝ), ⟨-12, 0, 0⟩, ⟨0, 37 / 4, 10⟩,
      ⟨0, -37 / 4, 10⟩] 3 = ⟨0, -37 / 4, 10⟩ := rfl
  rw [p0, p1, p2, p3]
  refine ⟨?_, ?_, ?_, ?_⟩ <;>
    simp only [Vec3.squaredNorm, Vec3.dot, Vec3.sub_x, Vec3.sub_y, Vec3.sub_z] <;> ring

theorem four_points_r11 :
    maximumDistance_model Real.sqrt (Ptr.ofList [(⟨12, 0, 0⟩ : Vec3 ℝ), ⟨-12, 0, 0⟩, ⟨0, 37 / 4, 10⟩, ⟨0, -37 / 4, 10⟩]) 4 ⟨0, 0, 10 - 12 * Real.sqrt 3⟩ = 91 / 4 := by
  obtain ⟨b1, b2, b3⟩ := sqrt_three_bounds
  obtain ⟨q0, q1, q2, q3⟩ := four_points_dist_sq (10 - 12 * Real.sqrt 3)
  rw [maximumDistance_model_four]
  have d2 : ((Ptr.ofList [(⟨12, 0, 0⟩ : Vec3 ℝ), ⟨-12, 0, 0⟩, ⟨0, 37 / 4, 10⟩, ⟨0, -37 / 4, 10⟩]) 2 - ⟨0, 0, 10 - 12 * Real.sqrt 3⟩).norm Real.sqrt = 91 / 4 := by
    apply Vec3.norm_eq_of_sq isSqrt_real _ (by norm_num)
    rw [q2]
    linear_combination (-144 : ℝ) * b3
  have d3 : ((Ptr.ofList [(⟨12, 0, 0⟩ : Vec3 ℝ), ⟨-12, 0, 0⟩, ⟨0, 37 / 4, 10⟩, ⟨0, -37 / 4, 10⟩]) 3 - ⟨0, 0, 10 - 12 * Real.sqrt 3⟩).norm Real.sqrt = 91 / 4 := by
    apply Vec3.norm_eq_of_sq isSqrt_real _ (by norm_num)
    rw [q3]
    linear_combination (-144 : ℝ) * b3
  have d0 : ((Ptr.ofList [(⟨12, 0, 0⟩ : Vec3 ℝ), ⟨-12, 0, 0⟩, ⟨0, 37 / 4, 10⟩, ⟨0, -37 / 4, 10⟩]) 0 - ⟨0, 0, 10 - 12 * Real.sqrt 3⟩).norm Real.sqrt ≤ 91 / 4 := by
    unfold Vec3.norm
    rw [q0, Real.sqrt_le_left (by norm_num)]
    nlinarith
  have d1 : ((Ptr.ofList [(⟨12, 0, 0⟩ : Vec3 ℝ), ⟨-12, 0, 0⟩, ⟨0, 37 / 4, 10⟩, ⟨0, -37 / 4, 10⟩]) 1 - ⟨0, 0, 10 - 12 * Real.sqrt 3⟩).norm Real.sqrt ≤ 91 / 4 := by
    unfold Vec3.norm
    rw [q1, Real.sqrt_le_left (by norm_num)]
    nlinarith
  rw [d2, d3, max_eq_right (max_le (max_le (by norm_num) d0) d1), max_self]

theorem four_points_sphere1 :
    (kIOS_fit_functions.fitn (Utility.model Real.sqrt) (Ptr.ofList [⟨12, 0, 0⟩, ⟨-12, 0, 0⟩, ⟨0, 37 / 4, 10⟩, ⟨0, -37 / 4, 10⟩]) 4 kIOS.fresh).spheres 1 =
      ⟨⟨0, 0, 35 / 4 - 12 * Real.sqrt 3⟩, 24⟩ := by
  have hb := kIOS_fitn_blocks (Utility.model Real.sqrt) (Ptr.ofList [⟨12, 0, 0⟩, ⟨-12, 0, 0⟩, ⟨0, 37 / 4, 10⟩, ⟨0, -37 / 4, 10⟩]) 4 kIOS.fresh
  rw [four_points_obb] at hb
  have hmax : ∀ q, (Utility.model Real.sqrt).maximumDistance (Ptr.ofList [⟨12, 0, 0⟩, ⟨-12, 0, 0⟩, ⟨0, 37 / 4, 10⟩, ⟨0, -37 / 4, 10⟩]) none none none 4 q =
      maximumDistance_model Real.sqrt (Ptr.ofList [⟨12, 0, 0⟩, ⟨-12, 0, 0⟩, ⟨0, 37 / 4, 10⟩, ⟨0, -37 / 4, 10⟩]) 4 q := fun _ => rfl
  have hsq : (Utility.model Real.sqrt).sqrt = Real.sqrt := rfl
  simp only [hmax, hsq, four_points_r0] at hb
  have h3 : (((kIOS_decide_k (⟨12, 37 / 4, 5⟩ : Vec3 ℝ)
      (kIOS.fresh.setObb ⟨Mat3.identity, ⟨0, 0, 5⟩, ⟨12, 37 / 4, 5⟩⟩)).setO 0
        ⟨0, 0, 5⟩).setR 0 13).num_spheres ≥ 3 := by
    simp only [kIOS.setR_num, kIOS.setO_num, kIOS_decide_k_num]
    norm_num [Vec3.get]
  rw [hb, (kIOS_spheres_34_low _ _ _ _).1, (kIOS_spheres_12_values _ _ _ _ _ _ h3).1]
  simp only [kIOS.setR_obb, kIOS.setO_obb, kIOS_decide_k_obb, kIOS.setObb_obb, Vec3.get_two]
  have c2 : (Mat3.identity : Mat3 ℝ).col 2 = ⟨0, 0, 1⟩ := rfl
  have h144 : Real.sqrt (13 * 13 - 5 * 5) = 12 :=
    isSqrt_real.eq_of_mul_self (by norm_num) (by norm_num)
  have hd : (12 : ℝ) * invSinA * cosA Real.sqrt - 5 = 12 * Real.sqrt 3 - 5 := by
    rw [invSinA_mul_cosA]; ring
  have ho : (⟨0, 0, 5⟩ : Vec3 ℝ) - (12 * Real.sqrt 3 - 5) • (⟨0, 0, 1⟩ : Vec3 ℝ) =
      ⟨0, 0, 10 - 12 * Real.sqrt 3⟩ := by
    ext <;> simp
    ring
  rw [c2, h144, hd, ho, four_points_r11]
  congr 1
  ext <;> simp [invSinA]
  · ring
  · unfold invSinA; norm_num

theorem four_points_face :
    |((Ptr.ofList [(⟨12, 0, 0⟩ : Vec3 ℝ), ⟨-12, 0, 0⟩, ⟨0, 37 / 4, 10⟩, ⟨0, -37 / 4, 10⟩]) 0 - ⟨0, 0, 5⟩).dot ((Mat3.identity : Mat3 ℝ).col 0)| =
      (⟨12, 37 / 4, 5⟩ : Vec3 ℝ).get 0 := by
  have c0 : (Mat3.identity : Mat3 ℝ).col 0 = ⟨1, 0, 0⟩ := rfl
  have p0 : Ptr.ofList [(⟨12, 0, 0⟩ : Vec3 ℝ), ⟨-12, 0, 0⟩, ⟨0, 37 / 4, 10⟩,
      ⟨0, -37 / 4, 10⟩] 0 = ⟨12, 0, 0⟩ := rfl
  rw [c0, p0]
  norm_num [Vec3.dot]

end CorrectionExample

/-! ## Permuting the points of a triangle -/

section Permutation

variable {K : Type} [LinearOrderedField K]

@[simp] theorem Vec3.neg_x (a : Vec3 K) : (-a).x = -a.x := rfl
@[simp] theorem Vec3.neg_y (a : Vec3 K) : (-a).y = -a.y := rfl
@[simp] theorem Vec3.neg_z (a : Vec3 K) : (-a).z = -a.z := rfl

theorem Vec3.squaredNorm_neg (v : Vec3 K) : (-v).squaredNorm = v.squaredNorm := by
  simp only [Vec3.squaredNorm, Vec3.dot, Vec3.neg_x, Vec3.neg_y, Vec3.neg_z]; ring

theorem Vec3.normalized_neg (sqrt : K → K) (v : Vec3 K) :
    (-v).normalized sqrt = -(v.normalized sqrt) := by
  unfold Vec3.normalized
  simp only [Vec3.squaredNorm_neg]
  split_ifs
  · ext <;> simp [neg_div]
  · rfl

theorem Vec3.neg_cross_neg (a b : Vec3 K) : (-a).cross (-b) = a.cross b := by
  ext <;> simp [Vec3.cross]

theorem Vec3.neg_dot (a b : Vec3 K) : (-a).dot b = -(a.dot b) := by
  simp only [Vec3.dot, Vec3.neg_x, Vec3.neg_y, Vec3.neg_z]; ring

theorem Vec3.neg_sub' (a b : Vec3 K) : -(a - b) = b - a := by
  ext <;> simp

theorem fit3_imax_eq_of_unique (len : Fin 3 → K) (i : Fin 3)
    (h : ∀ j : Fin 3, j ≠ i → len j < len i) : fit3_imax len = i := by
  have h01 := h 0
  have h1 := h 1
  have h2 := h 2
  unfold fit3_imax
  simp only []
  fin_cases i <;> simp at h01 h1 h2 ⊢
  · rw [if_neg (not_lt.mpr h1.le), if_neg (not_lt.mpr h2.le)]
  · rw [if_pos h01, if_neg (not_lt.mpr h2.le)]
  · by_cases hc : len 0 < len 1
    · simp [hc, h1]
    · simp [hc, h01]

/-- The box projector model on three points, written out. -/
theorem getExtentAndCenter_model_three_pair (ps : Ptr K) (A : Mat3 K) :
    getExtentAndCenter_model ps 3 A =
      (((max (max (max ((A.col 0).dot (ps 0)) ((A.col 0).dot (ps 0))) ((A.col 0).dot (ps 1)))
            ((A.col 0).dot (ps 2)) +
          min (min (min ((A.col 0).dot (ps 0)) ((A.col 0).dot (ps 0))) ((A.col 0).dot (ps 1)))
            ((A.col 0).dot (ps 2))) / 2) • A.col 0 +
      ((max (max (max ((A.col 1).dot (ps 0)) ((A.col 1).dot (ps 0))) ((A.col 1).dot (ps 1)))
            ((A.col 1).dot (ps 2)) +
          min (min (min ((A.col 1).dot (ps 0)) ((A.col 1).dot (ps 0))) ((A.col 1).dot (ps 1)))
            ((A.col 1).dot (ps 2))) / 2) • A.col 1 +
      ((max (max (max ((A.col 2).dot (ps 0)) ((A.col 2).dot (ps 0))) ((A.col 2).dot (ps 1)))
            ((A.col 2).dot (ps 2)) +
          min (min (min ((A.col 2).dot (ps 0)) ((A.col 2).dot (ps 0))) ((A.col 2).dot (ps 1)))
            ((A.col 2).dot (ps 2))) / 2) • A.col 2,
       ⟨(max (max (max ((A.col 0).dot (ps 0)) ((A.col 0).dot (ps 0))) ((A.col 0).dot (ps 1)))
            ((A.col 0).dot (ps 2)) -
          min (min (min ((A.col 0).dot (ps 0)) ((A.col 0).dot (ps 0))) ((A.col 0).dot (ps 1)))
            ((A.col 0).dot (ps 2))) / 2,
        (max (max (max ((A.col 1).dot (ps 0)) ((A.col 1).dot (ps 0))) ((A.col 1).dot (ps 1)))
            ((A.col 1).dot (ps 2)) -
          min (min (min ((A.col 1).dot (ps 0)) ((A.col 1).dot (ps 0))) ((A.col 1).dot (ps 1)))
            ((A.col 1).dot (ps 2))) / 2,
        (max (max (max ((A.col 2).dot (ps 0)) ((A.col 2).dot (ps 0))) ((A.col 2).dot (ps 1)))
            ((A.col 2).dot (ps 2)) -
          min (min (min ((A.col 2).dot (ps 0)) ((A.col 2).dot (ps 0))) ((A.col 2).dot (ps 1)))
            ((A.col 2).dot (ps 2))) / 2⟩) := rfl

theorem max3_perm (x y z : K) :
    max (max (max y y) z) x = max (max (max x x) y) z ∧
    max (max (max y y) x) z = max (max (max x x) y) z := by
  simp only [max_self]
  constructor
  · rw [max_comm (max y z) x, max_assoc]
  · rw [max_comm y x]

theorem min3_perm (x y z : K) :
    min (min (min y y) z) x = min (min (min x x) y) z ∧
    min (min (min y y) x) z = min (min (min x x) y) z := by
  simp only [min_self]
  constructor
  · rw [min_comm (min y z) x, min_assoc]
  · rw [min_comm y x]

/-- The box projector model does not depend on the order of the three points. -/
theorem getExtentAndCenter_model_three_perm (ps qs : Ptr K) (A : Mat3 K)
    (h : (qs 0 = ps 1 ∧ qs 1 = ps 2 ∧ qs 2 = ps 0) ∨
      (qs 0 = ps 1 ∧ qs 1 = ps 0 ∧ qs 2 = ps 2)) :
    getExtentAndCenter_model qs 3 A = getExtentAndCenter_model ps 3 A := by
  rw [getExtentAndCenter_model_three_pair, getExtentAndCenter_model_three_pair]
  rcases h with ⟨h0, h1, h2⟩ | ⟨h0, h1, h2⟩
  · rw [h0, h1, h2]
    simp only [(max3_perm _ _ _).1, (min3_perm _ _ _).1]
  · rw [h0, h1, h2]
    simp only [(max3_perm _ _ _).2, (min3_perm _ _ _).2]

/-- The box projector model does not change when columns 0 and 2 of the frame change
sign. -/
theorem getExtentAndCenter_model_three_neg (ps : Ptr K) (A A' : Mat3 K)
    (h0 : A'.col 0 = -A.col 0) (h1 : A'.col 1 = A.col 1) (h2 : A'.col 2 = -A.col 2) :
    getExtentAndCenter_model ps 3 A' = getExtentAndCenter_model ps 3 A := by
  rw [getExtentAndCenter_model_three_pair, getExtentAndCenter_model_three_pair, h0, h1, h2]
  simp only [Vec3.neg_dot, max_neg_neg, min_neg_neg]
  congr 1
  · ext <;> simp <;> ring
  · ext <;> simp <;> ring

theorem fit3_imax_arr3 (x y z : K) :
    (y < x → z < x → fit3_imax (arr3 x y z) = 0) ∧
    (x < y → z < y → fit3_imax (arr3 x y z) = 1) ∧
    (x < z → y < z → fit3_imax (arr3 x y z) = 2) := by
  refine ⟨fun h1 h2 => ?_, fun h1 h2 => ?_, fun h1 h2 => ?_⟩
  · apply fit3_imax_eq_of_unique
    intro j hj
    fin_cases j
    · exact absurd rfl hj
    · exact h1
    · exact h2
  · apply fit3_imax_eq_of_unique
    intro j hj
    fin_cases j
    · exact h1
    · exact absurd rfl hj
    · exact h2
  · apply fit3_imax_eq_of_unique
    intro j hj
    fin_cases j
    · exact h1
    · exact h2
    · exact absurd rfl hj

theorem Vec3.squaredNorm_sub_comm (a b : Vec3 K) : (a - b).squaredNorm = (b - a).squaredNorm := by
  rw [← Vec3.neg_sub' a b, Vec3.squaredNorm_neg]

theorem UniqueLongestEdge.rot {a b c : Vec3 K} (h : UniqueLongestEdge a b c) :
    UniqueLongestEdge b c a := by
  unfold UniqueLongestEdge at h ⊢
  tauto

theorem UniqueLongestEdge.swap {a b c : Vec3 K} (h : UniqueLongestEdge a b c) :
    UniqueLongestEdge b a c := by
  unfold UniqueLongestEdge at h ⊢
  rw [Vec3.squaredNorm_sub_comm b a, Vec3.squaredNorm_sub_comm a c,
    Vec3.squaredNorm_sub_comm c b]
  tauto

/-- The edge selected by `fit3` for the points in the order `b c a`. -/
theorem longest_edge_rot (a b c : Vec3 K) (hu : UniqueLongestEdge a b c) :
    arr3 (b - c) (c - a) (a - b)
        (fit3_imax (arr3 (b - c).squaredNorm (c - a).squaredNorm (a - b).squaredNorm)) =
      arr3 (a - b) (b - c) (c - a)
        (fit3_imax (arr3 (a - b).squaredNorm (b - c).squaredNorm (c - a).squaredNorm)) := by
  obtain ⟨n0, n1, n2⟩ := fit3_imax_arr3 (b - c).squaredNorm (c - a).squaredNorm
    (a - b).squaredNorm
  obtain ⟨m0, m1, m2⟩ := fit3_imax_arr3 (a - b).squaredNorm (b - c).squaredNorm
    (c - a).squaredNorm
  rcases hu with ⟨x, y⟩ | ⟨x, y⟩ | ⟨x, y⟩
  · rw [n2 x y, m0 x y]; rfl
  · rw [n0 y x, m1 x y]; rfl
  · rw [n1 y x, m2 x y]; rfl

/-- The edge selected by `fit3` for the points in the order `b a c`. -/
theorem longest_edge_swap (a b c : Vec3 K) (hu : UniqueLongestEdge a b c) :
    arr3 (b - a) (a - c) (c - b)
        (fit3_imax (arr3 (b - a).squaredNorm (a - c).squaredNorm (c - b).squaredNorm)) =
      -(arr3 (a - b) (b - c) (c - a)
        (fit3_imax (arr3 (a - b).squaredNorm (b - c).squaredNorm (c - a).squaredNorm))) := by
  rw [Vec3.squaredNorm_sub_comm b a, Vec3.squaredNorm_sub_comm a c,
    Vec3.squaredNorm_sub_comm c b]
  obtain ⟨n0, n1, n2⟩ := fit3_imax_arr3 (a - b).squaredNorm (c - a).squaredNorm
    (b - c).squaredNorm
  obtain ⟨m0, m1, m2⟩ := fit3_imax_arr3 (a - b).squaredNorm (b - c).squaredNorm
    (c - a).squaredNorm
  rcases hu with ⟨x, y⟩ | ⟨x, y⟩ | ⟨x, y⟩
  · rw [n0 y x, m0 x y]; exact (Vec3.neg_sub' a b).symm
  · rw [n2 x y, m1 x y]; exact (Vec3.neg_sub' b c).symm
  · rw [n1 x y, m2 x y]; exact (Vec3.neg_sub' c a).symm

theorem OBB_fit3_axis_rot (U : Utility K) (ps qs : Ptr K) (bv : OBB K)
    (h0 : qs 0 = ps 1) (h1 : qs 1 = ps 2) (h2 : qs 2 = ps 0)
    (hu : UniqueLongestEdge (ps 0) (ps 1) (ps 2)) :
    (OBB_fit_functions.fit3 U qs bv).axis = (OBB_fit_functions.fit3 U ps bv).axis := by
  obtain ⟨a2, a0, a1⟩ := OBB_fit3_axis_cols U qs bv
  obtain ⟨b2, b0, b1⟩ := OBB_fit3_axis_cols U ps bv
  rw [h0, h1, h2] at a2 a0
  have e2 : (OBB_fit_functions.fit3 U qs bv).axis.col 2 =
      (OBB_fit_functions.fit3 U ps bv).axis.col 2 := by
    rw [a2, b2]
    congr 1
    ext <;> simp [Vec3.cross] <;> ring
  have e0 : (OBB_fit_functions.fit3 U qs bv).axis.col 0 =
      (OBB_fit_functions.fit3 U ps bv).axis.col 0 := by
    rw [a0, b0, longest_edge_rot _ _ _ hu]
  apply Mat3.eq_of_cols e0 _ e2
  rw [a1, b1, e2, e0]

theorem OBB_fit3_axis_swap (U : Utility K) (ps qs : Ptr K) (bv : OBB K)
    (h0 : qs 0 = ps 1) (h1 : qs 1 = ps 0) (h2 : qs 2 = ps 2)
    (hu : UniqueLongestEdge (ps 0) (ps 1) (ps 2)) :
    (OBB_fit_functions.fit3 U qs bv).axis.col 0 =
      -(OBB_fit_functions.fit3 U ps bv).axis.col 0 ∧
    (OBB_fit_functions.fit3 U qs bv).axis.col 1 =
      (OBB_fit_functions.fit3 U ps bv).axis.col 1 ∧
    (OBB_fit_functions.fit3 U qs bv).axis.col 2 =
      -(OBB_fit_functions.fit3 U ps bv).axis.col 2 := by
  obtain ⟨a2, a0, a1⟩ := OBB_fit3_axis_cols U qs bv
  obtain ⟨b2, b0, b1⟩ := OBB_fit3_axis_cols U ps bv
  rw [h0, h1, h2] at a2 a0
  have e2 : (OBB_fit_functions.fit3 U qs bv).axis.col 2 =
      -(OBB_fit_functions.fit3 U ps bv).axis.col 2 := by
    rw [a2, b2, ← Vec3.normalized_neg]
    congr 1
    ext <;> simp [Vec3.cross] <;> ring
  have e0 : (OBB_fit_functions.fit3 U qs bv).axis.col 0 =
      -(OBB_fit_functions.fit3 U ps bv).axis.col 0 := by
    rw [a0, b0, longest_edge_swap _ _ _ hu, Vec3.normalized_neg]
  refine ⟨e0, ?_, e2⟩
  rw [a1, b1, e2, e0, Vec3.neg_cross_neg]

theorem OBB_fit3_box (U : Utility K) (ps : Ptr K) (bv : OBB K) :
    ((OBB_fit_functions.fit3 U ps bv).To, (OBB_fit_functions.fit3 U ps bv).extent) =
      U.getExtentAndCenter ps none none none 3 (OBB_fit_functions.fit3 U ps bv).axis := rfl

/-- The box of `fit3` for the points in the orders `b c a` and `b a c`. -/
theorem OBB_fit3_box_perm (U : Utility K)
    (hproj : ∀ (qs : Ptr K) (A : Mat3 K),
      U.getExtentAndCenter qs none none none 3 A = getExtentAndCenter_model qs 3 A)
    (ps qs : Ptr K) (bv : OBB K)
    (h : (qs 0 = ps 1 ∧ qs 1 = ps 2 ∧ qs 2 = ps 0) ∨
      (qs 0 = ps 1 ∧ qs 1 = ps 0 ∧ qs 2 = ps 2))
    (hu : UniqueLongestEdge (ps 0) (ps 1) (ps 2)) :
    ((OBB_fit_functions.fit3 U qs bv).To, (OBB_fit_functions.fit3 U qs bv).extent) =
      ((OBB_fit_functions.fit3 U ps bv).To, (OBB_fit_functions.fit3 U ps bv).extent) := by
  rw [OBB_fit3_box, OBB_fit3_box, hproj, hproj, getExtentAndCenter_model_three_perm ps qs _ h]
  rcases h with ⟨h0, h1, h2⟩ | ⟨h0, h1, h2⟩
  · rw [OBB_fit3_axis_rot U ps qs bv h0 h1 h2 hu]
  · obtain ⟨c0, c1, c2⟩ := OBB_fit3_axis_swap U ps qs bv h0 h1 h2 hu
    exact getExtentAndCenter_model_three_neg ps _ _ c0 c1 c2

/-- C15 (amended). Permutation invariance of OBB `fit3`: for every triangle in the
range `SafeTriangle` (coordinates of magnitude at most `2^250`, not a sliver)
one of whose edges is longer than the other two by a margin (its squared length
exceeds `1 + 2^(-40)` times theirs, so that the rounding of the squared lengths
in `FCL_REAL` cannot turn the comparison), with the projector taking the
per-axis minimum and maximum of the projections (centre = midpoint, extent =
half-range), `fit3` returns the same centre `To` and the same extent vector for
the three points in any order. -/
theorem OBB_fit3_permutation_invariant (U : Utility K)
    (hproj : ∀ (qs : Ptr K) (A : Mat3 K),
      U.getExtentAndCenter qs none none none 3 A = getExtentAndCenter_model qs 3 A)
    (bv : OBB K) (p : Fin 3 → Vec3 K)
    (hsep : SafeTriangle (p 0) (p 1) (p 2) ∧ SeparatedLongestEdge (p 0) (p 1) (p 2))
    (i j k : Fin 3) (hij : i ≠ j) (hik : i ≠ k) (hjk : j ≠ k) :
    (OBB_fit_functions.fit3 U (Ptr.ofList [p i, p j, p k]) bv).To =
      (OBB_fit_functions.fit3 U (Ptr.ofList [p 0, p 1, p 2]) bv).To ∧
    (OBB_fit_functions.fit3 U (Ptr.ofList [p i, p j, p k]) bv).extent =
      (OBB_fit_functions.fit3 U (Ptr.ofList [p 0, p 1, p 2]) bv).extent := by
  have hu : UniqueLongestEdge (p 0) (p 1) (p 2) := hsep.2.unique
  have rot : ∀ a b c : Vec3 K, UniqueLongestEdge a b c →
      ((OBB_fit_functions.fit3 U (Ptr.ofList [b, c, a]) bv).To,
        (OBB_fit_functions.fit3 U (Ptr.ofList [b, c, a]) bv).extent) =
      ((OBB_fit_functions.fit3 U (Ptr.ofList [a, b, c]) bv).To,
        (OBB_fit_functions.fit3 U (Ptr.ofList [a, b, c]) bv).extent) :=
    fun a b c h => OBB_fit3_box_perm U hproj (Ptr.ofList [a, b, c]) (Ptr.ofList [b, c, a]) bv
      (Or.inl ⟨rfl, rfl, rfl⟩) h
  have swap : ∀ a b c : Vec3 K, UniqueLongestEdge a b c →
      ((OBB_fit_functions.fit3 U (Ptr.ofList [b, a, c]) bv).To,
        (OBB_fit_functions.fit3 U (Ptr.ofList [b, a, c]) bv).extent) =
      ((OBB_fit_functions.fit3 U (Ptr.ofList [a, b, c]) bv).To,
        (OBB_fit_functions.fit3 U (Ptr.ofList [a, b, c]) bv).extent) :=
    fun a b c h => OBB_fit3_box_perm U hproj (Ptr.ofList [a, b, c]) (Ptr.ofList [b, a, c]) bv
      (Or.inr ⟨rfl, rfl, rfl⟩) h
  have hcases : (i = 0 ∧ j = 1 ∧ k = 2) ∨ (i = 1 ∧ j = 2 ∧ k = 0) ∨ (i = 2 ∧ j = 0 ∧ k = 1) ∨
      (i = 1 ∧ j = 0 ∧ k = 2) ∨ (i = 0 ∧ j = 2 ∧ k = 1) ∨ (i = 2 ∧ j = 1 ∧ k = 0) := by
    fin_cases i <;> fin_cases j <;> fin_cases k <;> simp at hij hik hjk ⊢
  have key : ((OBB_fit_functions.fit3 U (Ptr.ofList [p i, p j, p k]) bv).To,
        (OBB_fit_functions.fit3 U (Ptr.ofList [p i, p j, p k]) bv).extent) =
      ((OBB_fit_functions.fit3 U (Ptr.ofList [p 0, p 1, p 2]) bv).To,
        (OBB_fit_functions.fit3 U (Ptr.ofList [p 0, p 1, p 2]) bv).extent) := by
    rcases hcases with h | h | h | h | h | h <;> obtain ⟨hi, hj, hk⟩ := h <;> subst hi hj hk
    · rfl
    · exact rot _ _ _ hu
    · exact (rot _ _ _ hu.rot).trans (rot _ _ _ hu)
    · exact swap _ _ _ hu
    · exact (swap _ _ _ hu.rot.rot).trans ((rot _ _ _ hu.rot).trans (rot _ _ _ hu))
    · exact (swap _ _ _ hu.rot).trans (rot _ _ _ hu)
  exact ⟨congrArg Prod.fst key, congrArg Prod.snd key⟩

theorem isosceles_axis :
    (OBB_fit_functions.fit3 (Utility.model Real.sqrt)
        (Ptr.ofList [⟨0, 0, 0⟩, ⟨5, 0, 0⟩, ⟨3, 4, 0⟩]) OBB.fresh).axis =
      ⟨⟨-1, 0, 0⟩, ⟨0, -1, 0⟩, ⟨0, 0, 1⟩⟩ := by
  obtain ⟨c2, c0, c1⟩ := OBB_fit3_axis_cols (Utility.model Real.sqrt)
    (Ptr.ofList [⟨0, 0, 0⟩, ⟨5, 0, 0⟩, ⟨3, 4, 0⟩]) OBB.fresh
  have p0 : Ptr.ofList [(⟨0, 0, 0⟩ : Vec3 ℝ), ⟨5, 0, 0⟩, ⟨3, 4, 0⟩] 0 = ⟨0, 0, 0⟩ := rfl
  have p1 : Ptr.ofList [(⟨0, 0, 0⟩ : Vec3 ℝ), ⟨5, 0, 0⟩, ⟨3, 4, 0⟩] 1 = ⟨5, 0, 0⟩ := rfl
  have p2 : Ptr.ofList [(⟨0, 0, 0⟩ : Vec3 ℝ), ⟨5, 0, 0⟩, ⟨3, 4, 0⟩] 2 = ⟨3, 4, 0⟩ := rfl
  have hs : (Utility.model Real.sqrt).sqrt = Real.sqrt := rfl
  rw [p0, p1, p2, hs] at c2 c0
  have e0 : (⟨0, 0, 0⟩ : Vec3 ℝ) - ⟨5, 0, 0⟩ = ⟨-5, 0, 0⟩ := by ext <;> norm_num
  have e1 : (⟨5, 0, 0⟩ : Vec3 ℝ) - ⟨3, 4, 0⟩ = ⟨2, -4, 0⟩ := by ext <;> norm_num
  have e2 : (⟨3, 4, 0⟩ : Vec3 ℝ) - ⟨0, 0, 0⟩ = ⟨3, 4, 0⟩ := by ext <;> norm_num
  rw [e0, e1, e2] at c0
  rw [e0, e1] at c2
  have hcross : (⟨-5, 0, 0⟩ : Vec3 ℝ).cross ⟨2, -4, 0⟩ = ⟨0, 0, 20⟩ := by
    ext <;> norm_num [Vec3.cross]
  have himax : fit3_imax (arr3 (⟨-5, 0, 0⟩ : Vec3 ℝ).squaredNorm
      (⟨2, -4, 0⟩ : Vec3 ℝ).squaredNorm (⟨3, 4, 0⟩ : Vec3 ℝ).squaredNorm) = 0 := by
    norm_num [fit3_imax, arr3, Vec3.squaredNorm, Vec3.dot]
  rw [hcross] at c2
  rw [himax] at c0
  have n2 : (⟨0, 0, 20⟩ : Vec3 ℝ).normalized Real.sqrt = ⟨0, 0, 1⟩ := by
    have hne : (⟨0, 0, 20⟩ : Vec3 ℝ) ≠ 0 := by
      intro h; have := congrArg Vec3.z h; norm_num at this
    rw [Vec3.normalized_of_ne _ hne,
      Vec3.norm_eq_of_sq isSqrt_real _ (d := 20) (by norm_num)
        (by norm_num [Vec3.squaredNorm, Vec3.dot])]
    ext <;> norm_num
  have n0 : (arr3 (⟨-5, 0, 0⟩ : Vec3 ℝ) ⟨2, -4, 0⟩ ⟨3, 4, 0⟩ 0).normalized Real.sqrt =
      ⟨-1, 0, 0⟩ := by
    have hv : arr3 (⟨-5, 0, 0⟩ : Vec3 ℝ) ⟨2, -4, 0⟩ ⟨3, 4, 0⟩ 0 = ⟨-5, 0, 0⟩ := rfl
    rw [hv]
    have hne : (⟨-5, 0, 0⟩ : Vec3 ℝ) ≠ 0 := by
      intro h; have := congrArg Vec3.x h; norm_num at this
    rw [Vec3.normalized_of_ne _ hne,
      Vec3.norm_eq_of_sq isSqrt_real _ (d := 5) (by norm_num)
        (by norm_num [Vec3.squaredNorm, Vec3.dot])]
    ext <;> norm_num
  rw [n2] at c2
  rw [n0] at c0
  rw [c2, c0] at c1
  apply Mat3.eq_of_cols
  · rw [c0]; rfl
  · rw [c1]
    ext <;> norm_num [Mat3.col, Vec3.cross]
  · rw [c2]; rfl

theorem isosceles_axis_permuted :
    (OBB_fit_functions.fit3 (Utility.model Real.sqrt)
        (Ptr.ofList [⟨0, 0, 0⟩, ⟨3, 4, 0⟩, ⟨5, 0, 0⟩]) OBB.fresh).axis =
      ⟨⟨-3 / 5, -4 / 5, 0⟩, ⟨-4 / 5, 3 / 5, 0⟩, ⟨0, 0, -1⟩⟩ := by
  obtain ⟨c2, c0, c1⟩ := OBB_fit3_axis_cols (Utility.model Real.sqrt)
    (Ptr.ofList [⟨0, 0, 0⟩, ⟨3, 4, 0⟩, ⟨5, 0, 0⟩]) OBB.fresh
  have p0 : Ptr.ofList [(⟨0, 0, 0⟩ : Vec3 ℝ), ⟨3, 4, 0⟩, ⟨5, 0, 0⟩] 0 = ⟨0, 0, 0⟩ := rfl
  have p1 : Ptr.ofList [(⟨0, 0, 0⟩ : Vec3 ℝ), ⟨3, 4, 0⟩, ⟨5, 0, 0⟩] 1 = ⟨3, 4, 0⟩ := rfl
  have p2 : Ptr.ofList [(⟨0, 0, 0⟩ : Vec3 ℝ), ⟨3, 4, 0⟩, ⟨5, 0, 0⟩] 2 = ⟨5, 0, 0⟩ := rfl
  have hs : (Utility.model Real.sqrt).sqrt = Real.sqrt := rfl
  rw [p0, p1, p2, hs] at c2 c0
  have e0 : (⟨0, 0, 0⟩ : Vec3 ℝ) - ⟨3, 4, 0⟩ = ⟨-3, -4, 0⟩ := by ext <;> norm_num
  have e1 : (⟨3, 4, 0⟩ : Vec3 ℝ) - ⟨5, 0, 0⟩ = ⟨-2, 4, 0⟩ := by ext <;> norm_num
  have e2 : (⟨5, 0, 0⟩ : Vec3 ℝ) - ⟨0, 0, 0⟩ = ⟨5, 0, 0⟩ := by ext <;> norm_num
  rw [e0, e1, e2] at c0
  rw [e0, e1] at c2
  have hcross : (⟨-3, -4, 0⟩ : Vec3 ℝ).cross ⟨-2, 4, 0⟩ = ⟨0, 0, -20⟩ := by
    ext <;> norm_num [Vec3.cross]
  have himax : fit3_imax (arr3 (⟨-3, -4, 0⟩ : Vec3 ℝ).squaredNorm
      (⟨-2, 4, 0⟩ : Vec3 ℝ).squaredNorm (⟨5, 0, 0⟩ : Vec3 ℝ).squaredNorm) = 0 := by
    norm_num [fit3_imax, arr3, Vec3.squaredNorm, Vec3.dot]
  rw [hcross] at c2
  rw [himax] at c0
  have n2 : (⟨0, 0, -20⟩ : Vec3 ℝ).normalized Real.sqrt = ⟨0, 0, -1⟩ := by
    have hne : (⟨0, 0, -20⟩ : Vec3 ℝ) ≠ 0 := by
      intro h; have := congrArg Vec3.z h; norm_num at this
    rw [Vec3.normalized_of_ne _ hne,
      Vec3.norm_eq_of_sq isSqrt_real _ (d := 20) (by norm_num)
        (by norm_num [Vec3.squaredNorm, Vec3.dot])]
    ext <;> norm_num
  have n0 : (arr3 (⟨-3, -4, 0⟩ : Vec3 ℝ) ⟨-2, 4, 0⟩ ⟨5, 0, 0⟩ 0).normalized Real.sqrt =
      ⟨-3 / 5, -4 / 5, 0⟩ := by
    have hv : arr3 (⟨-3, -4, 0⟩ : Vec3 ℝ) ⟨-2, 4, 0⟩ ⟨5, 0, 0⟩ 0 = ⟨-3, -4, 0⟩ := rfl
    rw [hv]
    have hne : (⟨-3, -4, 0⟩ : Vec3 ℝ) ≠ 0 := by
      intro h; have := congrArg Vec3.x h; norm_num at this
    rw [Vec3.normalized_of_ne _ hne,
      Vec3.norm_eq_of_sq isSqrt_real _ (d := 5) (by norm_num)
        (by norm_num [Vec3.squaredNorm, Vec3.dot])]
    ext <;> norm_num
  rw [n2] at c2
  rw [n0] at c0
  rw [c2, c0] at c1
  apply Mat3.eq_of_cols
  · rw [c0]; rfl
  · rw [c1]
    ext <;> norm_num [Mat3.col, Vec3.cross]
  · rw [c2]; rfl

/-- Counterexample to C15: the non-degenerate triangle `(0,0,0)`, `(5,0,0)`,
`(3,4,0)` has two longest edges of length 5; OBB `fit3` aligns axis 0 with the
first of them in the order of the array, and returns the centre `(5/2, 2, 0)` for
this order of the points but `(31/10, 4/5, 0)` when the last two are exchanged. -/
theorem OBB_fit3_tie_depends_on_order :
    ((⟨0, 0, 0⟩ : Vec3 ℝ) - ⟨5, 0, 0⟩).cross (⟨5, 0, 0⟩ - ⟨3, 4, 0⟩) ≠ 0 ∧
    (OBB_fit_functions.fit3 (Utility.model Real.sqrt)
        (Ptr.ofList [⟨0, 0, 0⟩, ⟨5, 0, 0⟩, ⟨3, 4, 0⟩]) OBB.fresh).To = ⟨5 / 2, 2, 0⟩ ∧
    (OBB_fit_functions.fit3 (Utility.model Real.sqrt)
        (Ptr.ofList [⟨0, 0, 0⟩, ⟨3, 4, 0⟩, ⟨5, 0, 0⟩]) OBB.fresh).To = ⟨31 / 10, 4 / 5, 0⟩ ∧
    (OBB_fit_functions.fit3 (Utility.model Real.sqrt)
        (Ptr.ofList [⟨0, 0, 0⟩, ⟨3, 4, 0⟩, ⟨5, 0, 0⟩]) OBB.fresh).To ≠
      (OBB_fit_functions.fit3 (Utility.model Real.sqrt)
        (Ptr.ofList [⟨0, 0, 0⟩, ⟨5, 0, 0⟩, ⟨3, 4, 0⟩]) OBB.fresh).To := by
  have hT : ∀ ps : Ptr ℝ, (OBB_fit_functions.fit3 (Utility.model Real.sqrt) ps OBB.fresh).To =
      (getExtentAndCenter_model ps 3
        (OBB_fit_functions.fit3 (Utility.model Real.sqrt) ps OBB.fresh).axis).1 := fun _ => rfl
  have t1 : (OBB_fit_functions.fit3 (Utility.model Real.sqrt)
      (Ptr.ofList [⟨0, 0, 0⟩, ⟨5, 0, 0⟩, ⟨3, 4, 0⟩]) OBB.fresh).To = ⟨5 / 2, 2, 0⟩ := by
    rw [hT, isosceles_axis, getExtentAndCenter_model_three]
    have c0 : (⟨⟨-1, 0, 0⟩, ⟨0, -1, 0⟩, ⟨0, 0, 1⟩⟩ : Mat3 ℝ).col 0 = ⟨-1, 0, 0⟩ := rfl
    have c1 : (⟨⟨-1, 0, 0⟩, ⟨0, -1, 0⟩, ⟨0, 0, 1⟩⟩ : Mat3 ℝ).col 1 = ⟨0, -1, 0⟩ := rfl
    have c2 : (⟨⟨-1, 0, 0⟩, ⟨0, -1, 0⟩, ⟨0, 0, 1⟩⟩ : Mat3 ℝ).col 2 = ⟨0, 0, 1⟩ := rfl
    have p0 : Ptr.ofList [(⟨0, 0, 0⟩ : Vec3 ℝ), ⟨5, 0, 0⟩, ⟨3, 4, 0⟩] 0 = ⟨0, 0, 0⟩ := rfl
    have p1 : Ptr.ofList [(⟨0, 0, 0⟩ : Vec3 ℝ), ⟨5, 0, 0⟩, ⟨3, 4, 0⟩] 1 = ⟨5, 0, 0⟩ := rfl
    have p2 : Ptr.ofList [(⟨0, 0, 0⟩ : Vec3 ℝ), ⟨5, 0, 0⟩, ⟨3, 4, 0⟩] 2 = ⟨3, 4, 0⟩ := rfl
    rw [c0, c1, c2, p0, p1, p2]
    simp only [Vec3.dot]
    ext <;> simp only [Vec3.add_x, Vec3.add_y, Vec3.add_z, Vec3.smul_x, Vec3.smul_y,
      Vec3.smul_z] <;> norm_num [max_def, min_def]
  have t2 : (OBB_fit_functions.fit3 (Utility.model Real.sqrt)
      (Ptr.ofList [⟨0, 0, 0⟩, ⟨3, 4, 0⟩, ⟨5, 0, 0⟩]) OBB.fresh).To = ⟨31 / 10, 4 / 5, 0⟩ := by
    rw [hT, isosceles_axis_permuted, getExtentAndCenter_model_three]
    have c0 : (⟨⟨-3 / 5, -4 / 5, 0⟩, ⟨-4 / 5, 3 / 5, 0⟩, ⟨0, 0, -1⟩⟩ : Mat3 ℝ).col 0 =
      ⟨-3 / 5, -4 / 5, 0⟩ := rfl
    have c1 : (⟨⟨-3 / 5, -4 / 5, 0⟩, ⟨-4 / 5, 3 / 5, 0⟩, ⟨0, 0, -1⟩⟩ : Mat3 ℝ).col 1 =
      ⟨-4 / 5, 3 / 5, 0⟩ := rfl
    have c2 : (⟨⟨-3 / 5, -4 / 5, 0⟩, ⟨-4 / 5, 3 / 5, 0⟩, ⟨0, 0, -1⟩⟩ : Mat3 ℝ).col 2 =
      ⟨0, 0, -1⟩ := rfl
    have p0 : Ptr.ofList [(⟨0, 0, 0⟩ : Vec3 ℝ), ⟨3, 4, 0⟩, ⟨5, 0, 0⟩] 0 = ⟨0, 0, 0⟩ := rfl
    have p1 : Ptr.ofList [(⟨0, 0, 0⟩ : Vec3 ℝ), ⟨3, 4, 0⟩, ⟨5, 0, 0⟩] 1 = ⟨3, 4, 0⟩ := rfl
    have p2 : Ptr.ofList [(⟨0, 0, 0⟩ : Vec3 ℝ), ⟨3, 4, 0⟩, ⟨5, 0, 0⟩] 2 = ⟨5, 0, 0⟩ := rfl
    rw [c0, c1, c2, p0, p1, p2]
    simp only [Vec3.dot]
    ext <;> simp only [Vec3.add_x, Vec3.add_y, Vec3.add_z, Vec3.smul_x, Vec3.smul_y,
      Vec3.smul_z] <;> norm_num [max_def, min_def]
  refine ⟨?_, t1, t2, ?_⟩
  · intro h
    have := congrArg Vec3.z h
    norm_num [Vec3.cross] at this
  · rw [t1, t2]
    intro h
    have := congrArg Vec3.x h
    norm_num at this

/-- Witness of the amended C15: the triangle `(0,0,0)`, `(3,0,0)`, `(0,4,0)`, whose
longest edge has squared length 25 against 9 and 16, with its first two points
exchanged. -/
theorem OBB_fit3_permutation_invariant_witness :
    (OBB_fit_functions.fit3 (Utility.model Real.sqrt)
        (Ptr.ofList [⟨3, 0, 0⟩, ⟨0, 0, 0⟩, ⟨0, 4, 0⟩]) OBB.fresh).To =
      (OBB_fit_functions.fit3 (Utility.model Real.sqrt)
        (Ptr.ofList [⟨0, 0, 0⟩, ⟨3, 0, 0⟩, ⟨0, 4, 0⟩]) OBB.fresh).To ∧
    (OBB_fit_functions.fit3 (Utility.model Real.sqrt)
        (Ptr.ofList [⟨3, 0, 0⟩, ⟨0, 0, 0⟩, ⟨0, 4, 0⟩]) OBB.fresh).extent =
      (OBB_fit_functions.fit3 (Utility.model Real.sqrt)
        (Ptr.ofList [⟨0, 0, 0⟩, ⟨3, 0, 0⟩, ⟨0, 4, 0⟩]) OBB.fresh).extent :=
  OBB_fit3_permutation_invariant (Utility.model Real.sqrt) (fun _ _ => rfl) OBB.fresh
    (arr3 ⟨0, 0, 0⟩ ⟨3, 0, 0⟩ ⟨0, 4, 0⟩)
    ⟨triangle345_safe, Or.inr (Or.inl ⟨by norm_num [arr3, Vec3.squaredNorm, Vec3.dot],
      by norm_num [arr3, Vec3.squaredNorm, Vec3.dot]⟩)⟩
    1 0 2 (by decide) (by decide) (by decide)

end Permutation

/-! ## The sphere count in the arithmetic of the source

The statements of this section hold for every type `K` with the operations of
the source, binary64 included: they use no law of arithmetic. -/

section Branches

variable {K : Type} [Zero K] [One K] [Add K] [Sub K] [Neg K] [Mul K] [Div K] [LT K] [LE K]
  [DecidableRel (fun a b : K => a < b)] [OfScientific K] [NatCast K]

theorem kIOS_decide_k_obb_any (extent : Vec3 K) (bv : kIOS K) :
    (kIOS_decide_k extent bv).obb = bv.obb := by
  unfold kIOS_decide_k; split_ifs <;> rfl

theorem kIOS_decide_k_num_any (extent : Vec3 K) (bv : kIOS K) :
    (kIOS_decide_k extent bv).num_spheres =
      if extent.get 0 > kIOS_RATIO * extent.get 2 then
        (if extent.get 0 > kIOS_RATIO * extent.get 1 then 5 else 3)
      else 1 := by
  unfold kIOS_decide_k; split_ifs <;> rfl

theorem kIOS_spheres_12_num_any (sqrt : K → K) (maxDist : Vec3 K → K)
    (center extent : Vec3 K) (r0 : K) (bv : kIOS K) :
    (kIOS_spheres_12 sqrt maxDist center extent r0 bv).num_spheres = bv.num_spheres := by
  unfold kIOS_spheres_12; split_ifs <;> rfl

theorem kIOS_spheres_12_obb_any (sqrt : K → K) (maxDist : Vec3 K → K)
    (center extent : Vec3 K) (r0 : K) (bv : kIOS K) :
    (kIOS_spheres_12 sqrt maxDist center extent r0 bv).obb = bv.obb := by
  unfold kIOS_spheres_12; split_ifs <;> rfl

theorem kIOS_spheres_34_num_any (sqrt : K → K) (maxDist : Vec3 K → K)
    (extent : Vec3 K) (bv : kIOS K) :
    (kIOS_spheres_34 sqrt maxDist extent bv).num_spheres = bv.num_spheres := by
  unfold kIOS_spheres_34; split_ifs <;> rfl

theorem kIOS_spheres_34_obb_any (sqrt : K → K) (maxDist : Vec3 K → K)
    (extent : Vec3 K) (bv : kIOS K) :
    (kIOS_spheres_34 sqrt maxDist extent bv).obb = bv.obb := by
  unfold kIOS_spheres_34; split_ifs <;> rfl

theorem kIOS.setR_obb_any (bv : kIOS K) (i : Fin 5) (r : K) : (bv.setR i r).obb = bv.obb := rfl

theorem kIOS.setO_obb_any (bv : kIOS K) (i : Fin 5) (o : Vec3 K) : (bv.setO i o).obb = bv.obb :=
  rfl

theorem kIOS.setR_num_any (bv : kIOS K) (i : Fin 5) (r : K) :
    (bv.setR i r).num_spheres = bv.num_spheres := rfl

theorem kIOS.setO_num_any (bv : kIOS K) (i : Fin 5) (o : Vec3 K) :
    (bv.setO i o).num_spheres = bv.num_spheres := rfl

theorem kIOS_fitn_obb_any (U : Utility K) (ps : Ptr K) (n : Int) (bv : kIOS K) :
    (kIOS_fit_functions.fitn U ps n bv).obb.axis =
      axisFromEigen (U.eigen (U.getCovariance ps none none none n)).2
        (U.eigen (U.getCovariance ps none none none n)).1 bv.obb.axis ∧
    (kIOS_fit_functions.fitn U ps n bv).obb.extent =
      (U.getExtentAndCenter ps none none none n
        (kIOS_fit_functions.fitn U ps n bv).obb.axis).2 := by
  unfold kIOS_fit_functions.fitn
  simp only [kIOS_spheres_34_obb_any, kIOS_spheres_12_obb_any, kIOS.setR_obb_any,
    kIOS.setO_obb_any, kIOS_decide_k_obb_any]
  exact ⟨rfl, rfl⟩

theorem kIOS_fitn_num_any (U : Utility K) (ps : Ptr K) (n : Int) (bv : kIOS K) :
    (kIOS_fit_functions.fitn U ps n bv).num_spheres =
      if (kIOS_fit_functions.fitn U ps n bv).obb.extent.get 0 >
          kIOS_RATIO * (kIOS_fit_functions.fitn U ps n bv).obb.extent.get 2 then
        (if (kIOS_fit_functions.fitn U ps n bv).obb.extent.get 0 >
            kIOS_RATIO * (kIOS_fit_functions.fitn U ps n bv).obb.extent.get 1 then 5 else 3)
      else 1 := by
  unfold kIOS_fit_functions.fitn
  simp only [kIOS_spheres_34_obb_any, kIOS_spheres_12_obb_any, kIOS.setR_obb_any,
    kIOS.setO_obb_any, kIOS_decide_k_obb_any, kIOS_spheres_34_num_any, kIOS_spheres_12_num_any,
    kIOS.setR_num_any, kIOS.setO_num_any, kIOS_decide_k_num_any]

theorem BVFitter_kIOS_obb_any (U : Utility K) (F : BVFitter K)
    (primitive_indices : Option (Nat → Nat)) (num_primitives : Int) (bv : kIOS K) :
    (BVFitter.fit_kIOS U F primitive_indices num_primitives bv).obb.axis =
      axisFromEigen
        (U.eigen (U.getCovariance F.vertices F.prev_vertices F.tri_indices
          primitive_indices num_primitives)).2
        (U.eigen (U.getCovariance F.vertices F.prev_vertices F.tri_indices
          primitive_indices num_primitives)).1 bv.obb.axis ∧
    (BVFitter.fit_kIOS U F primitive_indices num_primitives bv).obb.extent =
      (U.getExtentAndCenter F.vertices F.prev_vertices F.tri_indices primitive_indices
        num_primitives (BVFitter.fit_kIOS U F primitive_indices num_primitives bv).obb.axis).2 := by
  unfold BVFitter.fit_kIOS
  simp only [kIOS_spheres_34_obb_any, kIOS_spheres_12_obb_any, kIOS.setR_obb_any,
    kIOS.setO_obb_any, kIOS_decide_k_obb_any]
  exact ⟨rfl, rfl⟩

theorem BVFitter_kIOS_num_any (U : Utility K) (F : BVFitter K)
    (primitive_indices : Option (Nat → Nat)) (num_primitives : Int) (bv : kIOS K) :
    (BVFitter.fit_kIOS U F primitive_indices num_primitives bv).num_spheres =
      if (BVFitter.fit_kIOS U F primitive_indices num_primitives bv).obb.extent.get 0 >
          kIOS_RATIO *
            (BVFitter.fit_kIOS U F primitive_indices num_primitives bv).obb.extent.get 2 then
        (if (BVFitter.fit_kIOS U F primitive_indices num_primitives bv).obb.extent.get 0 >
            kIOS_RATIO *
              (BVFitter.fit_kIOS U F primitive_indices num_primitives bv).obb.extent.get 1
          then 5 else 3)
      else 1 := by
  unfold BVFitter.fit_kIOS
  simp only [kIOS_spheres_34_obb_any, kIOS_spheres_12_obb_any, kIOS.setR_obb_any,
    kIOS.setO_obb_any, kIOS_decide_k_obb_any, kIOS_spheres_34_num_any, kIOS_spheres_12_num_any,
    kIOS.setR_num_any, kIOS.setO_num_any, kIOS_decide_k_num_any]

/-- C9 (amended). On the general-n path (the direct `fitn` and the indexed
fitter) the axes are those of `axisFromEigen` on the eigen-decomposition of the
covariance, the extent is the one returned by `getExtentAndCenter` for these
axes, and the sphere count follows the comparisons of the source, made in
`FCL_REAL` on the computed product: the count is 1 unless
`extent0 > kIOS_RATIO * extent2`; if that holds it is 3 unless
`extent0 > kIOS_RATIO * extent1`, and 5 if that holds too; so it is one of 1, 3,
5.  On the closed-form paths `fit1` gives 1, `fit2` gives 5 and `fit3` gives 3.
The statement holds for every arithmetic `K`, exact or rounded. -/
theorem kIOS_num_spheres_thresholds (U : Utility K) (ps : Ptr K) (n : Int)
    (F : BVFitter K) (primitive_indices : Option (Nat → Nat)) (num_primitives : Int)
    (bv : kIOS K) :
    ((kIOS_fit_functions.fitn U ps n bv).obb.axis =
        axisFromEigen (U.eigen (U.getCovariance ps none none none n)).2
          (U.eigen (U.getCovariance ps none none none n)).1 bv.obb.axis ∧
      (kIOS_fit_functions.fitn U ps n bv).obb.extent =
        (U.getExtentAndCenter ps none none none n
          (kIOS_fit_functions.fitn U ps n bv).obb.axis).2 ∧
      (kIOS_fit_functions.fitn U ps n bv).num_spheres =
        if (kIOS_fit_functions.fitn U ps n bv).obb.extent.get 0 >
            kIOS_RATIO * (kIOS_fit_functions.fitn U ps n bv).obb.extent.get 2 then
          (if (kIOS_fit_functions.fitn U ps n bv).obb.extent.get 0 >
              kIOS_RATIO * (kIOS_fit_functions.fitn U ps n bv).obb.extent.get 1 then 5 else 3)
        else 1) ∧
    ((BVFitter.fit_kIOS U F primitive_indices num_primitives bv).obb.axis =
        axisFromEigen
          (U.eigen (U.getCovariance F.vertices F.prev_vertices F.tri_indices
            primitive_indices num_primitives)).2
          (U.eigen (U.getCovariance F.vertices F.prev_vertices F.tri_indices
            primitive_indices num_primitives)).1 bv.obb.axis ∧
      (BVFitter.fit_kIOS U F primitive_indices num_primitives bv).obb.extent =
        (U.getExtentAndCenter F.vertices F.prev_vertices F.tri_indices primitive_indices
          num_primitives
          (BVFitter.fit_kIOS U F primitive_indices num_primitives bv).obb.axis).2 ∧
      (BVFitter.fit_kIOS U F primitive_indices num_primitives bv).num_spheres =
        if (BVFitter.fit_kIOS U F primitive_indices num_primitives bv).obb.extent.get 0 >
            kIOS_RATIO *
              (BVFitter.fit_kIOS U F primitive_indices num_primitives bv).obb.extent.get 2 then
          (if (BVFitter.fit_kIOS U F primitive_indices num_primitives bv).obb.extent.get 0 >
              kIOS_RATIO *
                (BVFitter.fit_kIOS U F primitive_indices num_primitives bv).obb.extent.get 1
            then 5 else 3)
        else 1) ∧
    ((kIOS_fit_functions.fitn U ps n bv).num_spheres = 1 ∨
      (kIOS_fit_functions.fitn U ps n bv).num_spheres = 3 ∨
      (kIOS_fit_functions.fitn U ps n bv).num_spheres = 5) ∧
    ((BVFitter.fit_kIOS U F primitive_indices num_primitives bv).num_spheres = 1 ∨
      (BVFitter.fit_kIOS U F primitive_indices num_primitives bv).num_spheres = 3 ∨
      (BVFitter.fit_kIOS U F primitive_indices num_primitives bv).num_spheres = 5) ∧
    (kIOS_fit_functions.fit1 ps bv).num_spheres = 1 ∧
    (kIOS_fit_functions.fit2 U ps bv).num_spheres = 5 ∧
    (kIOS_fit_functions.fit3 U ps bv).num_spheres = 3 := by
  refine ⟨⟨(kIOS_fitn_obb_any U ps n bv).1, (kIOS_fitn_obb_any U ps n bv).2,
      kIOS_fitn_num_any U ps n bv⟩,
    ⟨(BVFitter_kIOS_obb_any U F primitive_indices num_primitives bv).1,
      (BVFitter_kIOS_obb_any U F primitive_indices num_primitives bv).2,
      BVFitter_kIOS_num_any U F primitive_indices num_primitives bv⟩, ?_, ?_, rfl, rfl, rfl⟩
  · rw [kIOS_fitn_num_any]
    split_ifs <;> simp
  · rw [BVFitter_kIOS_num_any]
    split_ifs <;> simp

end Branches

/-! ## Binary64 evaluations

The routines evaluated on `F64`: inputs on which overflow, underflow or the
rounding of a product or of a sum decides the result. -/

section Rounding

set_option exponentiation.threshold 10000

theorem F64.zero_mul_cases (x : F64) :
    (0 : F64) * x = F64.nan ∨ (0 : F64) * x = 0 ∨ (0 : F64) * x = -0 := by
  cases x with
  | nan => exact Or.inl rfl
  | inf s => exact Or.inl rfl
  | fin s m e =>
    have h : (0 : F64) * F64.fin s m e = F64.fin s 0 (-1074) := by
      show F64.mul (F64.fin false 0 (-1074)) (F64.fin s m e) = _
      simp [F64.mul, F64.round]
    rw [h]
    cases s
    · exact Or.inr (Or.inl rfl)
    · exact Or.inr (Or.inr rfl)

/-- The example of the specification evaluated in binary64: for `(0,0,0)` and
`(2,0,0)` OBB `fit2` returns the centre `(1,0,0)` and the extent `(1,0,0)`, and
the direction handed to the basis completion is `(-1,0,0)`. -/
theorem OBB_fit2_binary64_example (U : Utility F64) (hU : U.sqrt = F64.sqrt) (bv : OBB F64) :
    (OBB_fit_functions.fit2 U (Ptr.ofList [⟨0, 0, 0⟩, ⟨2, 0, 0⟩]) bv).To = ⟨1, 0, 0⟩ ∧
    (OBB_fit_functions.fit2 U (Ptr.ofList [⟨0, 0, 0⟩, ⟨2, 0, 0⟩]) bv).extent = ⟨1, 0, 0⟩ ∧
    Vec3.normalized F64.sqrt ((⟨0, 0, 0⟩ : Vec3 F64) - ⟨2, 0, 0⟩) = ⟨-1, 0, 0⟩ := by
  refine ⟨?_, ?_, by decide⟩
  · show (0.5 : F64) • ((⟨0, 0, 0⟩ : Vec3 F64) + ⟨2, 0, 0⟩) = _
    decide
  · show (⟨U.sqrt _ * 0.5, 0, 0⟩ : Vec3 F64) = _
    rw [hU]
    decide

/-- Counterexample to C5: in binary64 the distinct points `(0,0,0)` and
`(2^600,0,0)` are at distance `2^600`, half of which is the number `2^599`; the
squared distance `2^1200` overflows, so OBB `fit2` (with the correctly rounded
square root, whatever the other routines) returns the extent `(+inf, 0, 0)`, and
the direction `(p1 - p2)/|p1 - p2|` it hands to the basis completion is
`(-0, 0, 0)`. -/
theorem OBB_fit2_overflow :
    ((⟨0, 0, 0⟩ : Vec3 F64) ≠ ⟨F64.twoPow 600, 0, 0⟩ ∧
      F64.twoPow 600 * 0.5 = F64.twoPow 599) ∧
    (∀ U : Utility F64, U.sqrt = F64.sqrt → ∀ bv : OBB F64,
      (OBB_fit_functions.fit2 U (Ptr.ofList [⟨0, 0, 0⟩, ⟨F64.twoPow 600, 0, 0⟩]) bv).extent =
        ⟨F64.inf false, 0, 0⟩) ∧
    Vec3.normalized F64.sqrt ((⟨0, 0, 0⟩ : Vec3 F64) - ⟨F64.twoPow 600, 0, 0⟩) = ⟨-0, 0, 0⟩ := by
  refine ⟨by decide, ?_, by decide⟩
  intro U hU bv
  show (⟨U.sqrt _ * 0.5, 0, 0⟩ : Vec3 F64) = _
  rw [hU]
  decide

/-- Counterexample to C1: in binary64 the squared distance of the distinct points
`p1 = (0,0,0)` and `p2 = (2^(-700),0,0)` underflows to 0, so RSS `fit2` (with the
correctly rounded square root, whatever the other routines) returns `l[0] = 0`
and `Tr = p2`; then `Tr + l[0] * a` is not `p1` for any vector `a`: the rectangle
of radius 0 is the single point `p2` and does not contain `p1`. -/
theorem RSS_fit2_underflow :
    (⟨0, 0, 0⟩ : Vec3 F64) ≠ ⟨F64.twoPow (-700), 0, 0⟩ ∧
    ∀ U : Utility F64, U.sqrt = F64.sqrt → ∀ bv : RSS F64,
      (RSS_fit_functions.fit2 U (Ptr.ofList [⟨0, 0, 0⟩, ⟨F64.twoPow (-700), 0, 0⟩]) bv).l0 = 0 ∧
      (RSS_fit_functions.fit2 U (Ptr.ofList [⟨0, 0, 0⟩, ⟨F64.twoPow (-700), 0, 0⟩]) bv).r = 0 ∧
      (RSS_fit_functions.fit2 U (Ptr.ofList [⟨0, 0, 0⟩, ⟨F64.twoPow (-700), 0, 0⟩]) bv).Tr =
        ⟨F64.twoPow (-700), 0, 0⟩ ∧
      ∀ a : Vec3 F64, (⟨0, 0, 0⟩ : Vec3 F64) ≠
        (RSS_fit_functions.fit2 U (Ptr.ofList [⟨0, 0, 0⟩, ⟨F64.twoPow (-700), 0, 0⟩]) bv).Tr +
          (RSS_fit_functions.fit2 U
            (Ptr.ofList [⟨0, 0, 0⟩, ⟨F64.twoPow (-700), 0, 0⟩]) bv).l0 • a := by
  refine ⟨by decide, ?_⟩
  intro U hU bv
  have hl : (RSS_fit_functions.fit2 U
      (Ptr.ofList [⟨0, 0, 0⟩, ⟨F64.twoPow (-700), 0, 0⟩]) bv).l0 = 0 := by
    show U.sqrt _ = _
    rw [hU]
    decide
  have hT : (RSS_fit_functions.fit2 U
      (Ptr.ofList [⟨0, 0, 0⟩, ⟨F64.twoPow (-700), 0, 0⟩]) bv).Tr =
        ⟨F64.twoPow (-700), 0, 0⟩ := rfl
  refine ⟨hl, rfl, hT, ?_⟩
  intro a h
  rw [hl, hT] at h
  have hx : (0 : F64) = F64.twoPow (-700) + 0 * a.x := congrArg Vec3.x h
  rcases F64.zero_mul_cases a.x with h0 | h0 | h0 <;> rw [h0] at hx <;> revert hx <;> decide

/-- Counterexample to C19: in binary64 the distinct points `(0,0,0)` and
`(2^600,0,0)` are at distance `2^600`, half of which is the number `2^599`; the
squared distance overflows, so kIOS `fit2` (with the correctly rounded square
root, whatever the other routines) returns the radius `+inf` for `spheres[0]`
and for `spheres[1]`. -/
theorem kIOS_fit2_overflow :
    ((⟨0, 0, 0⟩ : Vec3 F64) ≠ ⟨F64.twoPow 600, 0, 0⟩ ∧
      F64.twoPow 600 * 0.5 = F64.twoPow 599) ∧
    ∀ U : Utility F64, U.sqrt = F64.sqrt → ∀ bv : kIOS F64,
      ((kIOS_fit_functions.fit2 U
          (Ptr.ofList [⟨0, 0, 0⟩, ⟨F64.twoPow 600, 0, 0⟩]) bv).spheres 0).r = F64.inf false ∧
      ((kIOS_fit_functions.fit2 U
          (Ptr.ofList [⟨0, 0, 0⟩, ⟨F64.twoPow 600, 0, 0⟩]) bv).spheres 1).r = F64.inf false := by
  refine ⟨by decide, ?_⟩
  intro U hU bv
  constructor
  · show U.sqrt _ * 0.5 = _
    rw [hU]
    decide
  · show U.sqrt _ * 0.5 * invSinA = _
    rw [hU]
    decide

/-- Counterexample to C9: the binary64 extents `e0 = 1.5 + 2^(-51)`, `e1 = 1.25`,
`e2 = 1 + 2^(-52)` have `e0 > 1.5 * e2` and `e0 ≤ 1.5 * e1` as exact numbers, for
which the claim gives 3 spheres; the product `kIOS_RATIO * e2` rounds up to
`e0`, the comparison `e0 > kIOS_RATIO * e2` fails, and `fitn` sets
`num_spheres = 1` whenever `getExtentAndCenter` returns these extents. -/
theorem kIOS_num_spheres_rounded_product :
    ((F64.fin false 6755399441055746 (-52)).toRat >
        3 / 2 * (F64.fin false 4503599627370497 (-52)).toRat ∧
      (F64.fin false 6755399441055746 (-52)).toRat ≤
        3 / 2 * (F64.fin false 5629499534213120 (-52)).toRat) ∧
    ( kIOS_RATIO : F64) * F64.fin false 4503599627370497 (-52) =
      F64.fin false 6755399441055746 (-52) ∧
    ∀ (U : Utility F64) (ps : Ptr F64) (n : Int) (bv : kIOS F64),
      (U.getExtentAndCenter ps none none none n
          (kIOS_fit_functions.fitn U ps n bv).obb.axis).2 =
        ⟨F64.fin false 6755399441055746 (-52), F64.fin false 5629499534213120 (-52),
          F64.fin false 4503599627370497 (-52)⟩ →
      (kIOS_fit_functions.fitn U ps n bv).num_spheres = 1 := by
  refine ⟨?_, by decide, ?_⟩
  · simp only [F64.toRat]
    norm_num
  · intro U ps n bv h
    rw [kIOS_fitn_num_any, (kIOS_fitn_obb_any U ps n bv).2, h]
    decide

/-- Counterexample to C7: the binary64 points `(0,0,0)`, `(5,0,0)`,
`(3,4,2^(-30))` form a non-degenerate triangle whose edge `e2 = p3 - p1` is the
longest (squared length `25 + 2^(-60)` against 25 for `e0 = p1 - p2`); both
squared lengths are computed as 25, the comparison `len[2] > len[0]` fails, and
`fit3` (OBB, RSS and kIOS alike, with the correctly rounded square root,
whatever the other routines) sets `axis0 = (-1,0,0)`, the direction of `e0`,
which is not the longest edge. -/
theorem fit3_rounded_tie :
    (((⟨0, 0, 0⟩ : Vec3 F64).toRat - (⟨5, 0, 0⟩ : Vec3 F64).toRat).cross
        ((⟨5, 0, 0⟩ : Vec3 F64).toRat - (⟨3, 4, F64.twoPow (-30)⟩ : Vec3 F64).toRat) ≠ 0 ∧
      ((⟨0, 0, 0⟩ : Vec3 F64).toRat - (⟨5, 0, 0⟩ : Vec3 F64).toRat).squaredNorm = 25 ∧
      ((⟨3, 4, F64.twoPow (-30)⟩ : Vec3 F64).toRat - (⟨0, 0, 0⟩ : Vec3 F64).toRat).squaredNorm =
        25 + 1 / 2 ^ 60) ∧
    (((⟨0, 0, 0⟩ : Vec3 F64) - ⟨5, 0, 0⟩).squaredNorm = 25 ∧
      ((⟨3, 4, F64.twoPow (-30)⟩ : Vec3 F64) - ⟨0, 0, 0⟩).squaredNorm = 25) ∧
    ∀ U : Utility F64, U.sqrt = F64.sqrt → ∀ (bo : OBB F64) (br : RSS F64) (bk : kIOS F64),
      (OBB_fit_functions.fit3 U
        (Ptr.ofList [⟨0, 0, 0⟩, ⟨5, 0, 0⟩, ⟨3, 4, F64.twoPow (-30)⟩]) bo).axis.col 0 =
          ⟨-1, 0, 0⟩ ∧
      (RSS_fit_functions.fit3 U
        (Ptr.ofList [⟨0, 0, 0⟩, ⟨5, 0, 0⟩, ⟨3, 4, F64.twoPow (-30)⟩]) br).axis.col 0 =
          ⟨-1, 0, 0⟩ ∧
      (kIOS_fit_functions.fit3 U
        (Ptr.ofList [⟨0, 0, 0⟩, ⟨5, 0, 0⟩, ⟨3, 4, F64.twoPow (-30)⟩]) bk).obb.axis.col 0 =
          ⟨-1, 0, 0⟩ := by
  have h5 : (5 : F64) = F64.fin false (5 * 2 ^ 50) (-50) := by decide
  have h3 : (3 : F64) = F64.fin false (3 * 2 ^ 51) (-51) := by decide
  have h4 : (4 : F64) = F64.fin false (2 ^ 52) (-50) := by decide
  have ht : F64.twoPow (-30) = F64.fin false (2 ^ 52) (-82) := by decide
  have h0 : (0 : F64) = F64.fin false 0 (-1074) := rfl
  refine ⟨⟨?_, ?_, ?_⟩, ⟨by decide, by decide⟩, ?_⟩
  · intro h
    have hz := congrArg Vec3.z h
    rw [h5, h3, h4, ht, h0] at hz
    simp only [Vec3.toRat, F64.toRat, Vec3.cross, Vec3.sub_x, Vec3.sub_y, Vec3.sub_z] at hz
    norm_num at hz
  · rw [h5, h0]
    simp only [Vec3.toRat, F64.toRat, Vec3.squaredNorm, Vec3.dot, Vec3.sub_x, Vec3.sub_y,
      Vec3.sub_z]
    norm_num
  · rw [h3, h4, ht, h0]
    simp only [Vec3.toRat, F64.toRat, Vec3.squaredNorm, Vec3.dot, Vec3.sub_x, Vec3.sub_y,
      Vec3.sub_z]
    norm_num
  · intro U hU bo br bk
    have key : (arr3 ((⟨0, 0, 0⟩ : Vec3 F64) - ⟨5, 0, 0⟩)
        (⟨5, 0, 0⟩ - ⟨3, 4, F64.twoPow (-30)⟩) (⟨3, 4, F64.twoPow (-30)⟩ - ⟨0, 0, 0⟩)
        (fit3_imax (arr3 ((⟨0, 0, 0⟩ : Vec3 F64) - ⟨5, 0, 0⟩).squaredNorm
          ((⟨5, 0, 0⟩ : Vec3 F64) - ⟨3, 4, F64.twoPow (-30)⟩).squaredNorm
          ((⟨3, 4, F64.twoPow (-30)⟩ : Vec3 F64) - ⟨0, 0, 0⟩).squaredNorm))).normalized
          F64.sqrt = ⟨-1, 0, 0⟩ := by decide
    have ho : ∀ ps : Ptr F64, (OBB_fit_functions.fit3 U ps bo).axis.col 0 =
        (arr3 (ps 0 - ps 1) (ps 1 - ps 2) (ps 2 - ps 0)
          (fit3_imax (arr3 (ps 0 - ps 1).squaredNorm (ps 1 - ps 2).squaredNorm
            (ps 2 - ps 0).squaredNorm))).normalized U.sqrt := fun _ => rfl
    have hr : ∀ ps : Ptr F64, (RSS_fit_functions.fit3 U ps br).axis.col 0 =
        (arr3 (ps 0 - ps 1) (ps 1 - ps 2) (ps 2 - ps 0)
          (fit3_imax (arr3 (ps 0 - ps 1).squaredNorm (ps 1 - ps 2).squaredNorm
            (ps 2 - ps 0).squaredNorm))).normalized U.sqrt := fun _ => rfl
    have hk : ∀ ps : Ptr F64, (kIOS_fit_functions.fit3 U ps bk).obb.axis.col 0 =
        (arr3 (ps 0 - ps 1) (ps 1 - ps 2) (ps 2 - ps 0)
          (fit3_imax (arr3 (ps 0 - ps 1).squaredNorm (ps 1 - ps 2).squaredNorm
            (ps 2 - ps 0).squaredNorm))).normalized U.sqrt := fun _ => rfl
    rw [ho, hr, hk, hU]
    exact ⟨key, key, key⟩

end Rounding

end fcl
